import Mathlib

/-!
Verification of the LithoStream geometric pipeline
(`src/services/stl_service.py`): height-map derivation (`jpg_to_stl`),
frame augmentation (`add_frame_to_z`) and mesh synthesis
(`create_solid_lithophane`).

Grids model numpy 2-D float arrays as rectangular `List (List ℚ)` values
(row-major).  Real arithmetic is modelled exactly over `ℚ`.  Python
exceptions are modelled by `Except PyError`.
-/

namespace LithoStream

/-- Python exceptions raised by the service (`RuntimeError` / `ValueError`). -/
inductive PyError where
  | runtimeError (msg : String) : PyError
  | valueError (msg : String) : PyError
deriving DecidableEq

/-- A Python `for i in range(n): acc += g(i)` accumulation of list items,
in iteration order. -/
def forRange {α : Type} (n : ℕ) (g : ℕ → List α) : List α :=
  match n with
  | 0 => []
  | Nat.succ m => forRange m g ++ g m

/-- Row-major flattening of a 2-D array (`np.ndarray.flatten`). -/
def flattenG : List (List ℚ) → List ℚ
  | [] => []
  | row :: rest => row ++ flattenG rest

/-- `np.column_stack` of three equal-length 1-D arrays. -/
def column_stack3 : List ℚ → List ℚ → List ℚ → List (ℚ × ℚ × ℚ)
  | a :: xs, b :: ys, c :: zs => (a, b, c) :: column_stack3 xs ys zs
  | _, _, _ => []

/-- `np.max` over a 2-D array, row-major fold.  (numpy raises on an empty
array; the `0` default is junk never used on the nonempty grids of the
pipeline.) -/
def gridMax (g : List (List ℚ)) : ℚ :=
  match flattenG g with
  | [] => 0
  | v :: vs => vs.foldl max v

/-- Python `int()` applied to a rational value: truncation toward zero. -/
def pyInt (q : ℚ) : ℤ := if q < 0 then -⌊-q⌋ else ⌊q⌋

/-- `add_frame_to_z` (stl_service.py lines 11-31).  `frame_mm ≤ 0` returns
`z` unchanged.  Otherwise `frame_pxl = int(frame_mm * resolution)` and a
`(r+2*fp) × (c+2*fp)` grid is filled with `np.max(z) + extra_height_mm`,
then the central slice `[fp:-fp, fp:-fp]` is assigned `z`.  When `fp = 0`
that slice is empty (`-0 == 0`), so numpy attempts to broadcast `z` into
shape `(0,0)`: a no-op when both dimensions of `z` are at most 1 and a
`ValueError` otherwise.  A negative `frame_pxl` (possible only for a
negative `resolution`, which `jpg_to_stl` already rejects) is modelled as
numpy's negative-dimension `ValueError`. -/
def add_frame_to_z (z : List (List ℚ)) (frame_mm resolution extra_height_mm : ℚ) :
    Except PyError (List (List ℚ)) :=
  if frame_mm ≤ 0 then .ok z
  else
    let fpz : ℤ := pyInt (frame_mm * resolution)
    if fpz < 0 then .error (.valueError "negative dimensions are not allowed")
    else
      let fp : ℕ := fpz.toNat
      let fh : ℚ := gridMax z + extra_height_mm
      let r := z.length
      let c := (z.headD []).length
      if fp = 0 then
        if r ≤ 1 ∧ c ≤ 1 then .ok (List.replicate r (List.replicate c fh))
        else .error (.valueError "could not broadcast input array")
      else
        .ok (List.replicate fp (List.replicate (c + 2 * fp) fh)
          ++ z.map (fun row => List.replicate fp fh ++ row ++ List.replicate fp fh)
          ++ List.replicate fp (List.replicate (c + 2 * fp) fh))

/-- The height-map derivation steps of `jpg_to_stl` (lines 66-78):
flip vertically (`np.flipud`), normalize by `np.max(image)`, invert
(`1 - image`) and scale to `image * (max_thick - min_thick) + min_thick`. -/
def z_from_image (image : List (List ℚ)) (max_thick min_thick : ℚ) : List (List ℚ) :=
  ((image.reverse.map (List.map (fun v => v / gridMax image.reverse))).map
      (List.map (fun v => 1 - v))).map
    (List.map (fun v => v * (max_thick - min_thick) + min_thick))

/-- The backing step of `jpg_to_stl` (lines 88-91): a `(r+2) × (c+2)`
zero grid whose central slice is `z`. -/
def add_back_plane (z : List (List ℚ)) : List (List ℚ) :=
  let c := (z.headD []).length
  [List.replicate (c + 2) 0]
    ++ z.map (fun row => 0 :: (row ++ [0]))
    ++ [List.replicate (c + 2) 0]

/-- `np.linspace a b n` over exact rationals. -/
def linspace (a b : ℚ) (n : ℕ) : List ℚ :=
  (List.range n).map
    (fun i : ℕ => if n ≤ 1 then a else a + (i : ℚ) * (b - a) / ((n : ℚ) - 1))

/-- `jpg_to_stl` (lines 34-97).  Modelled on 2-D grids, so the
`len(image.shape) > 2` guard (which cannot fire for a 2-D array) is
omitted.  Returns the `x`, `y`, `z` matrices: `x`/`y` come from
`np.meshgrid` of two `linspace`s starting at 1, with `x` flipped left to
right (`np.fliplr`); since all meshgrid rows of `x` are equal, the flip
reverses each copy of `x1`. -/
def jpg_to_stl (image : List (List ℚ))
    (max_thick min_thick frame_thick_mm frame_height_mm resolution : ℚ) :
    Except PyError (List (List ℚ) × List (List ℚ) × List (List ℚ)) :=
  if resolution ≤ 0 then .error (.valueError "Resolution must be a positive integer.")
  else if min_thick ≥ max_thick then .error (.valueError "min_thick must be less than max_thick.")
  else
    (add_frame_to_z (z_from_image image max_thick min_thick)
        frame_thick_mm resolution frame_height_mm).map
      (fun zf =>
        let z := add_back_plane zf
        let rows := z.length
        let cols := (z.headD []).length
        let x1 := linspace 1 ((cols : ℚ) / resolution) cols
        let y1 := linspace 1 ((rows : ℚ) / resolution) rows
        (List.replicate rows x1.reverse, y1.map (fun v => List.replicate cols v), z))

/-- The vertex buffer of `create_solid_lithophane` (lines 113-116):
front vertices `(x, y, z)` row-major, then back vertices `(x, y, 0)`. -/
def vertices (x y z : List (List ℚ)) : List (ℚ × ℚ × ℚ) :=
  column_stack3 (flattenG x) (flattenG y) (flattenG z)
    ++ column_stack3 (flattenG x) (flattenG y) (List.replicate (flattenG z).length 0)

/-- The triangle index list of `create_solid_lithophane` (lines 109-151),
in emission order: the interior double loop (front and back quads), the
row wall loop (left and right sides), the column wall loop (upper and
lower sides). -/
def faces (rows cols : ℕ) : List (ℕ × ℕ × ℕ) :=
  let offset := rows * cols
  forRange (rows - 1) (fun r => forRange (cols - 1) (fun c =>
    let lt := r * cols + c
    let rt := lt + 1
    let lb := (r + 1) * cols + c
    let rb := lb + 1
    [(lt, lb, rt), (rt, lb, rb),
     (lt + offset, rt + offset, lb + offset),
     (rt + offset, rb + offset, lb + offset)]))
  ++ forRange (rows - 1) (fun r =>
    [(r * cols, r * cols + offset, (r + 1) * cols),
     ((r + 1) * cols, r * cols + offset, (r + 1) * cols + offset),
     (r * cols + cols - 1, (r + 1) * cols + cols - 1, r * cols + cols - 1 + offset),
     ((r + 1) * cols + cols - 1, (r + 1) * cols + cols - 1 + offset, r * cols + cols - 1 + offset)])
  ++ forRange (cols - 1) (fun c =>
    [(c, c + 1, c + offset),
     (c + 1, c + 1 + offset, c + offset),
     ((rows - 1) * cols + c, (rows - 1) * cols + c + offset, (rows - 1) * cols + c + 1),
     ((rows - 1) * cols + c + 1, (rows - 1) * cols + c + offset, (rows - 1) * cols + c + 1 + offset)])

/-- The coordinate triangles written to the mesh (lines 153-157):
`vertices[f[0]], vertices[f[1]], vertices[f[2]]` for each face. -/
def litho_triangles (x y z : List (List ℚ)) :
    List ((ℚ × ℚ × ℚ) × (ℚ × ℚ × ℚ) × (ℚ × ℚ × ℚ)) :=
  let vs := vertices x y z
  (faces z.length ((z.headD []).length)).map
    (fun f => (vs.getD f.1 (0, 0, 0), vs.getD f.2.1 (0, 0, 0), vs.getD f.2.2 (0, 0, 0)))

/-- Modelled from the spec: the binary STL serializer (`mesh.save`, a
third-party library outside `src/`; spec section 4.3).  Layout: an
80-byte header of implementation-defined bytes (modelled as zeros), the
little-endian triangle count (modelled as one token), then per triangle a
zero normal, the three vertices in triangle order, and a zero attribute.
IEEE-754 float encoding is abstracted: each scalar is one `ℚ` token. -/
def serialize_stl (tris : List ((ℚ × ℚ × ℚ) × (ℚ × ℚ × ℚ) × (ℚ × ℚ × ℚ))) : List ℚ :=
  List.replicate 80 0 ++ [(tris.length : ℚ)] ++
    flattenG (tris.map (fun t =>
      [0, 0, 0,
       t.1.1, t.1.2.1, t.1.2.2,
       t.2.1.1, t.2.1.2.1, t.2.1.2.2,
       t.2.2.1, t.2.2.2.1, t.2.2.2.2,
       0]))

/-- The full pipeline `jpg_to_stl` followed by `create_solid_lithophane`:
vertex buffer, face index list, and serialized output. -/
def image_to_stl (image : List (List ℚ))
    (max_th min_th frame_thick_mm frame_height_mm resolution : ℚ) :
    Except PyError (List (ℚ × ℚ × ℚ) × List (ℕ × ℕ × ℕ) × List ℚ) :=
  (jpg_to_stl image max_th min_th frame_thick_mm frame_height_mm resolution).map
    (fun xyz =>
      (vertices xyz.1 xyz.2.1 xyz.2.2,
       faces xyz.2.2.length ((xyz.2.2.headD []).length),
       serialize_stl (litho_triangles xyz.1 xyz.2.1 xyz.2.2)))

/-- `True` exactly on `Except.ok` results. -/
def exceptOk {ε α : Type} : Except ε α → Bool
  | .ok _ => true
  | .error _ => false

/-- `g` is a rectangular `r × c` grid. -/
def IsShape (g : List (List ℚ)) (r c : ℕ) : Prop :=
  g.length = r ∧ ∀ row ∈ g, row.length = c

/-- The directed edges of one index triangle. -/
def triEdges (t : ℕ × ℕ × ℕ) : List (ℕ × ℕ) :=
  [(t.1, t.2.1), (t.2.1, t.2.2), (t.2.2, t.1)]

/-- The directed edges of a triangle list, in order. -/
def dedgesOf : List (ℕ × ℕ × ℕ) → List (ℕ × ℕ)
  | [] => []
  | t :: ts => triEdges t ++ dedgesOf ts

/-- All directed edges of the synthesized mesh. -/
def dedges (rows cols : ℕ) : List (ℕ × ℕ) := dedgesOf (faces rows cols)

/-- Occurrence count of a directed edge in an edge list. -/
def ecount (e : ℕ × ℕ) : List (ℕ × ℕ) → ℕ
  | [] => 0
  | d :: l => (if d = e then 1 else 0) + ecount e l

/-! ### Basic length and counting lemmas -/

theorem flattenG_append (g1 g2 : List (List ℚ)) :
    flattenG (g1 ++ g2) = flattenG g1 ++ flattenG g2 := by
  induction g1 with
  | nil => simp [flattenG]
  | cons row rest ih => simp [flattenG, ih]

theorem flattenG_length (g : List (List ℚ)) (r c : ℕ) (h : IsShape g r c) :
    (flattenG g).length = r * c := by
  induction g generalizing r with
  | nil =>
    obtain ⟨h1, _⟩ := h
    simp [flattenG, ← h1]
  | cons row rest ih =>
    obtain ⟨h1, h2⟩ := h
    have hrest : IsShape rest rest.length c :=
      ⟨rfl, fun q hq => h2 q (List.mem_cons_of_mem _ hq)⟩
    have hrow : row.length = c := h2 row (List.mem_cons_self _ _)
    have := ih rest.length hrest
    simp only [flattenG, List.length_append, this, hrow, ← h1]
    simp [List.length_cons, Nat.succ_mul]
    omega

theorem column_stack3_length (xs ys zs : List ℚ)
    (hy : ys.length = xs.length) (hz : zs.length = xs.length) :
    (column_stack3 xs ys zs).length = xs.length := by
  induction xs generalizing ys zs with
  | nil => cases ys <;> cases zs <;> simp [column_stack3]
  | cons a xs ih =>
    cases ys with
    | nil => simp at hy
    | cons b ys =>
      cases zs with
      | nil => simp at hz
      | cons c zs =>
        simp only [column_stack3, List.length_cons]
        rw [ih ys zs (by simpa using hy) (by simpa using hz)]

theorem forRange_length {α : Type} (n : ℕ) (g : ℕ → List α) :
    (forRange n g).length = ∑ i ∈ Finset.range n, (g i).length := by
  induction n with
  | zero => simp [forRange]
  | succ m ih => simp [forRange, Finset.sum_range_succ, ih]

theorem faces_length (rows cols : ℕ) :
    (faces rows cols).length =
      4 * ((rows - 1) * (cols - 1)) + 4 * (rows - 1) + 4 * (cols - 1) := by
  simp only [faces, forRange_length, List.length_append, List.length_cons,
    List.length_nil, Finset.sum_const, Finset.card_range, smul_eq_mul]
  ring

theorem vertices_length (x y z : List (List ℚ)) (rows cols : ℕ)
    (hx : IsShape x rows cols) (hy : IsShape y rows cols) (hz : IsShape z rows cols) :
    (vertices x y z).length = 2 * (rows * cols) := by
  have lx := flattenG_length x rows cols hx
  have ly := flattenG_length y rows cols hy
  have lz := flattenG_length z rows cols hz
  simp only [vertices, List.length_append]
  rw [column_stack3_length _ _ _ (by rw [lx, ly]) (by rw [lx, lz]),
      column_stack3_length _ _ _ (by rw [lx, ly]) (by simp [lx, lz]), lx]
  omega

/-- C2: for every height grid with `rows ≥ 2` and `cols ≥ 2` passed to
mesh synthesis, the vertex buffer has exactly `2*rows*cols` vertices and
the triangle list has exactly
`4*(rows-1)*(cols-1) + 4*(rows-1) + 4*(cols-1)` triangles. -/
theorem create_solid_lithophane_counts (x y z : List (List ℚ)) (rows cols : ℕ)
    (hx : IsShape x rows cols) (hy : IsShape y rows cols) (hz : IsShape z rows cols)
    (hr : 2 ≤ rows) (hc : 2 ≤ cols) :
    (vertices x y z).length = 2 * (rows * cols) ∧
    (faces rows cols).length =
      4 * ((rows - 1) * (cols - 1)) + 4 * (rows - 1) + 4 * (cols - 1) :=
  ⟨vertices_length x y z rows cols hx hy hz, faces_length rows cols⟩

/-- Witness for C2 at the 2×2 grid of zeros. -/
theorem create_solid_lithophane_counts_witness :
    (vertices [[0, 0], [0, 0]] [[0, 0], [0, 0]] [[0, 0], [0, 0]]).length = 2 * (2 * 2) ∧
    (faces 2 2).length = 4 * ((2 - 1) * (2 - 1)) + 4 * (2 - 1) + 4 * (2 - 1) :=
  create_solid_lithophane_counts [[0, 0], [0, 0]] [[0, 0], [0, 0]] [[0, 0], [0, 0]] 2 2
    ⟨rfl, by intro row hrow; fin_cases hrow <;> rfl⟩
    ⟨rfl, by intro row hrow; fin_cases hrow <;> rfl⟩
    ⟨rfl, by intro row hrow; fin_cases hrow <;> rfl⟩
    (by norm_num) (by norm_num)

/-! ### C8: min_thick ≥ max_thick is rejected before any mesh work -/

/-- C8: every call (on the 2-D grids the core receives) with
`min_thick ≥ max_thick` fails with a `ValueError` (the spec's
`InvalidParameter`) before any mesh work: no `x`/`y`/`z` matrices are
returned.  (When `resolution ≤ 0` also holds, the resolution guard fires
first; that error is a `ValueError` as well.) -/
theorem jpg_to_stl_min_ge_max_rejected (image : List (List ℚ))
    (max_thick min_thick frame_thick_mm frame_height_mm resolution : ℚ)
    (h : min_thick ≥ max_thick) :
    ∃ msg, jpg_to_stl image max_thick min_thick frame_thick_mm frame_height_mm resolution
      = .error (.valueError msg) := by
  by_cases hres : resolution ≤ 0
  · exact ⟨"Resolution must be a positive integer.", by simp [jpg_to_stl, hres]⟩
  · exact ⟨"min_thick must be less than max_thick.", by simp [jpg_to_stl, hres, h]⟩

/-- Witness for C8: `min_thick = 2 ≥ 1 = max_thick` is rejected. -/
theorem jpg_to_stl_min_ge_max_rejected_witness :
    (2 : ℚ) ≥ 1 ∧
    ∃ msg, jpg_to_stl [[1]] 1 2 0 0 5 = .error (.valueError msg) :=
  ⟨by norm_num, jpg_to_stl_min_ge_max_rejected [[1]] 1 2 0 0 5 (by norm_num)⟩

/-! ### C9: negative frame sizes are not rejected -/

/-- C9 counterexample: with `frame_thick_mm = -1` the pipeline does not
fail; it returns the `x`, `y`, `z` matrices (a mesh is then produced), so
a negative frame size is not rejected with any failure. -/
theorem negative_frame_not_rejected_cex :
    exceptOk (jpg_to_stl [[0, 1], [1, 1]] 3 (1/2) (-1) 0 5) = true := by
  norm_num [jpg_to_stl, add_frame_to_z, exceptOk, Except.map]

/-- C9 amended: `add_frame_to_z` silently returns the grid unchanged for
every `frame_mm ≤ 0` (in particular for negative frame sizes); no
`InvalidParameter` failure exists for them, and the pipeline goes on to
produce a mesh.  (There is no backing-size parameter at all: the backing
is a fixed 1-cell border.) -/
theorem add_frame_of_nonpos (z : List (List ℚ))
    (frame_mm resolution extra_height_mm : ℚ) (h : frame_mm ≤ 0) :
    add_frame_to_z z frame_mm resolution extra_height_mm = .ok z := by
  simp [add_frame_to_z, h]

theorem add_frame_to_z_nonpositive_frame (z : List (List ℚ))
    (frame_mm resolution extra_height_mm : ℚ) (h : frame_mm ≤ 0) :
    add_frame_to_z z frame_mm resolution extra_height_mm = .ok z :=
  add_frame_of_nonpos z frame_mm resolution extra_height_mm h

/-- Witness for the amended C9 at `frame_mm = -1`. -/
theorem add_frame_to_z_nonpositive_frame_witness :
    (-1 : ℚ) ≤ 0 ∧ add_frame_to_z [[0, 1], [1, 1]] (-1) 5 0 = .ok [[0, 1], [1, 1]] :=
  ⟨by norm_num, add_frame_to_z_nonpositive_frame [[0, 1], [1, 1]] (-1) 5 0 (by norm_num)⟩

/-! ### C10: a positive frame that truncates to 0 pixels -/

/-- C10 counterexample: for the 2×2 grid `[[1,2],[3,4]]` with
`frame_mm = 0.1` and `resolution = 5` (so `int(0.1*5) = 0`),
`add_frame_to_z` does not return a grid at all: the empty-slice
assignment `z_framed[0:0, 0:0] = z` cannot broadcast a 2×2 array and
raises a `ValueError`. -/
theorem add_frame_zero_fp_cex :
    add_frame_to_z [[1, 2], [3, 4]] (1/10) 5 0
      = .error (.valueError "could not broadcast input array") := by
  norm_num [add_frame_to_z, pyInt]

/-- C10 amended: when `frame_mm > 0` but `int(frame_mm * resolution) = 0`,
the slice assigned back is empty.  If both dimensions of `z` are at most
1 the assignment broadcasts to a no-op and the result is a same-shape
grid every cell of which is `max(z) + extra_height_mm` (the content is
overwritten); for any larger grid the broadcast fails and
`add_frame_to_z` raises a `ValueError`.  Either way the image content is
never preserved. -/
theorem add_frame_to_z_zero_fp (z : List (List ℚ)) (frame_mm resolution extra_height_mm : ℚ)
    (hf : 0 < frame_mm) (h0 : pyInt (frame_mm * resolution) = 0) :
    (z.length ≤ 1 ∧ (z.headD []).length ≤ 1 →
      add_frame_to_z z frame_mm resolution extra_height_mm
        = .ok (List.replicate z.length
            (List.replicate (z.headD []).length (gridMax z + extra_height_mm)))) ∧
    (¬(z.length ≤ 1 ∧ (z.headD []).length ≤ 1) →
      add_frame_to_z z frame_mm resolution extra_height_mm
        = .error (.valueError "could not broadcast input array")) := by
  constructor <;> intro hdim <;>
    simp only [List.headD_eq_head?] at hdim <;>
    simp [add_frame_to_z, not_le.2 hf, h0, hdim, List.headD_eq_head?]

/-- Witness for the amended C10: a 1×1 grid `[[5]]` with a 0.1-unit frame
at resolution 5 is overwritten by the plateau value `5 + 2 = 7`. -/
theorem add_frame_to_z_zero_fp_witness :
    (0 : ℚ) < 1/10 ∧ pyInt ((1/10) * 5) = 0 ∧
    add_frame_to_z [[5]] (1/10) 5 2 = .ok [[7]] := by
  refine ⟨by norm_num, by norm_num [pyInt], ?_⟩
  have h := (add_frame_to_z_zero_fp [[5]] (1/10) 5 2 (by norm_num) (by norm_num [pyInt])).1
    (by norm_num)
  rw [h]
  norm_num [gridMax, flattenG]

/-! ### Indexing helpers -/

theorem getD_append_left {α : Type} (l1 l2 : List α) (i : ℕ) (d : α) (h : i < l1.length) :
    (l1 ++ l2).getD i d = l1.getD i d := by
  simp [List.getD_eq_getElem?_getD, List.getElem?_append, h]

theorem getD_append_right {α : Type} (l1 l2 : List α) (i : ℕ) (d : α) (h : l1.length ≤ i) :
    (l1 ++ l2).getD i d = l2.getD (i - l1.length) d := by
  simp [List.getD_eq_getElem?_getD, List.getElem?_append_right h]

theorem getD_replicate {α : Type} (n : ℕ) (a : α) (i : ℕ) (d : α) (h : i < n) :
    (List.replicate n a).getD i d = a := by
  simp [List.getD_eq_getElem?_getD, List.getElem?_replicate, h]

theorem getD_map_list (f : List ℚ → List ℚ) (g : List (List ℚ)) (i : ℕ) (h : i < g.length) :
    (g.map f).getD i [] = f (g.getD i []) := by
  simp [List.getD_eq_getElem?_getD, List.getElem?_map, List.getElem?_eq_getElem h]

theorem headD_length (g : List (List ℚ)) (r c : ℕ) (h : IsShape g r c) (hr : 1 ≤ r) :
    (g.headD []).length = c := by
  cases g with
  | nil => obtain ⟨h1, _⟩ := h; simp at h1; omega
  | cons row rest => exact h.2 row (List.mem_cons_self _ _)

theorem getD_mem_of_lt (g : List (List ℚ)) (i : ℕ) (h : i < g.length) :
    g.getD i [] ∈ g := by
  rw [List.getD_eq_getElem?_getD, List.getElem?_eq_getElem h]
  exact List.getElem_mem h

/-! ### C6: frame augmentation for a frame of at least one pixel -/

/-- C6 counterexample: the claim fails on two counts at concrete inputs.
First, `frame_extra_height` is not clamped to `≥ 0`: for `z = [[5]]`,
`frame_mm = 1`, `resolution = 1`, `extra = -2` the frame cells are
`3 = max(z) + (-2)`, not the claimed `5 = max(z) + max(extra, 0)`.
Second, the growth per side is `int(frame_mm * resolution)` (truncation),
not `round(...)`: for `frame_mm = 0.7`, `resolution = 5` the grid grows
by `int(3.5) = 3` per side (a 1×1 grid becomes 7×7), while
`round(3.5) = 4` would give 9×9. -/
theorem add_frame_to_z_cex :
    (add_frame_to_z [[5]] 1 1 (-2) = .ok [[3, 3, 3], [3, 5, 3], [3, 3, 3]] ∧
      (3 : ℚ) ≠ 5 + 0) ∧
    ((add_frame_to_z [[0]] (7/10) 5 0).map List.length = .ok 7 ∧ 7 ≠ 1 + 2 * 4) := by
  refine ⟨⟨?_, by norm_num⟩, ?_, by norm_num⟩
  · norm_num [add_frame_to_z, pyInt, gridMax, flattenG, List.replicate]
  · norm_num [add_frame_to_z, pyInt, gridMax, flattenG, List.replicate, Except.map]

/-- C6 amended: for `frame_mm > 0` with `fp := int(frame_mm*resolution)
≥ 1` (truncation, not rounding), `add_frame_to_z` succeeds and returns a
grid grown by `fp` cells on each side whose frame cells all equal
`max(z) + extra_height_mm` exactly (no clamping of a negative extra
height) and whose interior equals `z` unchanged. -/
theorem add_frame_to_z_positive (z : List (List ℚ)) (rows cols : ℕ)
    (hz : IsShape z rows cols) (hrow : 1 ≤ rows)
    (frame_mm resolution extra_height_mm : ℚ) (hf : 0 < frame_mm)
    (hfp : 1 ≤ pyInt (frame_mm * resolution)) :
    ∃ zf, add_frame_to_z z frame_mm resolution extra_height_mm = .ok zf ∧
      IsShape zf (rows + 2 * (pyInt (frame_mm * resolution)).toNat)
        (cols + 2 * (pyInt (frame_mm * resolution)).toNat) ∧
      (∀ i j, i < rows → j < cols →
        (zf.getD ((pyInt (frame_mm * resolution)).toNat + i) []).getD
            ((pyInt (frame_mm * resolution)).toNat + j) 0
          = (z.getD i []).getD j 0) ∧
      (∀ i j, i < rows + 2 * (pyInt (frame_mm * resolution)).toNat →
        j < cols + 2 * (pyInt (frame_mm * resolution)).toNat →
        (i < (pyInt (frame_mm * resolution)).toNat ∨
          (pyInt (frame_mm * resolution)).toNat + rows ≤ i ∨
          j < (pyInt (frame_mm * resolution)).toNat ∨
          (pyInt (frame_mm * resolution)).toNat + cols ≤ j) →
        (zf.getD i []).getD j 0 = gridMax z + extra_height_mm) := by
  obtain ⟨hzl, hzr⟩ := hz
  have hc : (z.headD []).length = cols := headD_length z rows cols ⟨hzl, hzr⟩ hrow
  obtain ⟨fp, hfpeq⟩ : ∃ fp : ℕ, (pyInt (frame_mm * resolution)).toNat = fp := ⟨_, rfl⟩
  have hfp1 : 1 ≤ fp := by omega
  have hnn : ¬ pyInt (frame_mm * resolution) < 0 := by omega
  have hne : fp ≠ 0 := by omega
  have hc' : (z.head?.getD []).length = cols := by
    rw [← List.headD_eq_head?]; exact hc
  rw [hfpeq]
  refine ⟨List.replicate fp (List.replicate (cols + 2 * fp) (gridMax z + extra_height_mm))
      ++ z.map (fun row => List.replicate fp (gridMax z + extra_height_mm) ++ row
          ++ List.replicate fp (gridMax z + extra_height_mm))
      ++ List.replicate fp (List.replicate (cols + 2 * fp) (gridMax z + extra_height_mm)),
    ?_, ⟨?_, ?_⟩, ?_, ?_⟩
  · simp [add_frame_to_z, not_le.2 hf, hnn, hfpeq, hne, hc']
  · simp [hzl]; ring
  · intro row hmem
    rcases List.mem_append.1 hmem with hmem' | hpad2
    · rcases List.mem_append.1 hmem' with hpad1 | hmid
      · rw [(List.eq_of_mem_replicate hpad1)]; simp
      · obtain ⟨orig, horig, hrow'⟩ := List.mem_map.1 hmid
        rw [← hrow']
        simp [hzr orig horig]
        omega
    · rw [(List.eq_of_mem_replicate hpad2)]; simp
  · -- interior preserved
    intro i j hi hj
    have hrl : (z.getD i []).length = cols := hzr _ (getD_mem_of_lt z i (by omega))
    have hrl2 : (z[i]?.getD []).length = cols := by
      rw [← List.getD_eq_getElem?_getD]; exact hrl
    rw [getD_append_left _ _ _ _ (by simp [hzl]; omega),
        getD_append_right _ _ _ _ (by simp <;> omega)]
    have hidx : fp + i - (List.replicate fp (List.replicate (cols + 2 * fp)
        (gridMax z + extra_height_mm))).length = i := by simp
    rw [hidx, getD_map_list _ _ _ (by omega)]
    rw [getD_append_left _ _ _ _ (by simp [hrl2]; omega),
        getD_append_right _ _ _ _ (by simp),
        show fp + j - (List.replicate fp (gridMax z + extra_height_mm)).length = j from by simp]
  · -- frame plateau
    intro i j hi hj hregion
    by_cases ci1 : i < fp
    · rw [getD_append_left _ _ _ _ (by simp [hzl]; omega),
          getD_append_left _ _ _ _ (by simp <;> omega),
          getD_replicate _ _ _ _ ci1, getD_replicate _ _ _ _ (by omega)]
    · by_cases ci2 : fp + rows ≤ i
      · rw [getD_append_right _ _ _ _ (by simp [hzl]; omega),
            getD_replicate _ _ _ _ (by simp [hzl]; omega),
            getD_replicate _ _ _ _ (by omega)]
      · have hi' : i - fp < rows := by omega
        have hrl : (z.getD (i - fp) []).length = cols :=
          hzr _ (getD_mem_of_lt z (i - fp) (by omega))
        have hrl2 : (z[i - fp]?.getD []).length = cols := by
          rw [← List.getD_eq_getElem?_getD]; exact hrl
        rw [getD_append_left _ _ _ _ (by simp [hzl]; omega),
            getD_append_right _ _ _ _ (by simp <;> omega),
            show i - (List.replicate fp (List.replicate (cols + 2 * fp)
              (gridMax z + extra_height_mm))).length = i - fp from by simp,
            getD_map_list _ _ _ (by omega)]
        have hregion' : j < fp ∨ fp + cols ≤ j := by omega
        rcases hregion' with hj1 | hj2
        · rw [getD_append_left _ _ _ _ (by simp [hrl2]; omega),
              getD_append_left _ _ _ _ (by simp <;> omega),
              getD_replicate _ _ _ _ hj1]
        · rw [getD_append_right _ _ _ _ (by simp [hrl2]; omega),
              getD_replicate _ _ _ _ (by simp [hrl2]; omega)]

/-- Witness for the amended C6: `z = [[5]]`, frame 1 unit at resolution
1, extra height `-2`. -/
theorem add_frame_to_z_positive_witness :
    ∃ zf, add_frame_to_z [[5]] 1 1 (-2) = .ok zf ∧
      IsShape zf (1 + 2 * (pyInt ((1 : ℚ) * 1)).toNat) (1 + 2 * (pyInt ((1 : ℚ) * 1)).toNat) ∧
      (∀ i j, i < 1 → j < 1 →
        (zf.getD ((pyInt ((1 : ℚ) * 1)).toNat + i) []).getD ((pyInt ((1 : ℚ) * 1)).toNat + j) 0
          = (([[(5 : ℚ)]].getD i []).getD j 0)) ∧
      (∀ i j, i < 1 + 2 * (pyInt ((1 : ℚ) * 1)).toNat → j < 1 + 2 * (pyInt ((1 : ℚ) * 1)).toNat →
        (i < (pyInt ((1 : ℚ) * 1)).toNat ∨ (pyInt ((1 : ℚ) * 1)).toNat + 1 ≤ i ∨
          j < (pyInt ((1 : ℚ) * 1)).toNat ∨ (pyInt ((1 : ℚ) * 1)).toNat + 1 ≤ j) →
        (zf.getD i []).getD j 0 = gridMax [[(5 : ℚ)]] + (-2)) :=
  add_frame_to_z_positive [[5]] 1 1 ⟨rfl, by intro row hrow; fin_cases hrow <;> rfl⟩
    (by norm_num) 1 1 (-2) (by norm_num) (by norm_num [pyInt])

/-! ### Max-fold lemmas: `gridMax` really is the grid maximum -/

theorem foldl_max_le_init (l : List ℚ) (a : ℚ) : a ≤ l.foldl max a := by
  induction l generalizing a with
  | nil => simp
  | cons x xs ih =>
    simp only [List.foldl_cons]
    exact le_trans (le_max_left a x) (ih (max a x))

theorem le_foldl_max_of_mem (l : List ℚ) (x : ℚ) (hx : x ∈ l) (a : ℚ) :
    x ≤ l.foldl max a := by
  induction l generalizing a with
  | nil => simp at hx
  | cons y ys ih =>
    simp only [List.foldl_cons]
    rcases List.mem_cons.1 hx with rfl | h
    · exact le_trans (le_max_right a x) (foldl_max_le_init ys (max a x))
    · exact ih h (max a y)

theorem foldl_max_mem (l : List ℚ) (a : ℚ) : l.foldl max a ∈ a :: l := by
  induction l generalizing a with
  | nil => simp
  | cons x xs ih =>
    simp only [List.foldl_cons]
    rcases List.mem_cons.1 (ih (max a x)) with heq | hmem
    · rcases max_choice a x with h1 | h2
      · rw [heq, h1]; exact List.mem_cons_self _ _
      · rw [heq, h2]; exact List.mem_cons_of_mem _ (List.mem_cons_self _ _)
    · exact List.mem_cons_of_mem _ (List.mem_cons_of_mem _ hmem)

theorem gridMax_mem (g : List (List ℚ)) (h : flattenG g ≠ []) :
    gridMax g ∈ flattenG g := by
  cases hfl : flattenG g with
  | nil => exact absurd hfl h
  | cons v vs =>
    simp only [gridMax, hfl]
    exact foldl_max_mem vs v

theorem le_gridMax (g : List (List ℚ)) (x : ℚ) (hx : x ∈ flattenG g) :
    x ≤ gridMax g := by
  cases hfl : flattenG g with
  | nil => rw [hfl] at hx; simp at hx
  | cons v vs =>
    simp only [gridMax, hfl]
    rw [hfl] at hx
    rcases List.mem_cons.1 hx with rfl | h
    · exact foldl_max_le_init vs x
    · exact le_foldl_max_of_mem vs x h v

theorem mem_flattenG (g : List (List ℚ)) (x : ℚ) :
    x ∈ flattenG g ↔ ∃ row ∈ g, x ∈ row := by
  induction g with
  | nil => simp [flattenG]
  | cons row rest ih => simp [flattenG, ih]

theorem gridMax_congr (g1 g2 : List (List ℚ))
    (h : ∀ x, x ∈ flattenG g1 ↔ x ∈ flattenG g2) : gridMax g1 = gridMax g2 := by
  cases hfl1 : flattenG g1 with
  | nil =>
    cases hfl2 : flattenG g2 with
    | nil => simp [gridMax, hfl1, hfl2]
    | cons w ws =>
      exfalso
      have : w ∈ flattenG g1 := (h w).2 (by rw [hfl2]; exact List.mem_cons_self _ _)
      rw [hfl1] at this
      simp at this
  | cons v vs =>
    cases hfl2 : flattenG g2 with
    | nil =>
      exfalso
      have : v ∈ flattenG g2 := (h v).1 (by rw [hfl1]; exact List.mem_cons_self _ _)
      rw [hfl2] at this
      simp at this
    | cons w ws =>
      apply le_antisymm
      · exact le_gridMax g2 _ ((h _).1 (gridMax_mem g1 (by rw [hfl1]; simp)))
      · exact le_gridMax g1 _ ((h _).2 (gridMax_mem g2 (by rw [hfl2]; simp)))

theorem gridMax_reverse (g : List (List ℚ)) : gridMax g.reverse = gridMax g :=
  gridMax_congr _ _ (fun x => by simp [mem_flattenG])

theorem getD_map_q (f : ℚ → ℚ) (l : List ℚ) (j : ℕ) (h : j < l.length) :
    (l.map f).getD j 0 = f (l.getD j 0) := by
  simp [List.getD_eq_getElem?_getD, List.getElem?_map, List.getElem?_eq_getElem h]

theorem getD_reverse_list (g : List (List ℚ)) (r : ℕ) (h : r < g.length) :
    g.reverse.getD r [] = g.getD (g.length - 1 - r) [] := by
  rw [List.getD_eq_getElem?_getD, List.getD_eq_getElem?_getD,
    List.getElem?_reverse h]

/-! ### C3: the intensity-to-height mapping -/

theorem z_from_image_get (image : List (List ℚ)) (mx mn : ℚ) (rows cols r c : ℕ)
    (h : IsShape image rows cols) (hr : r < rows) (hc : c < cols) :
    ((z_from_image image mx mn).getD r []).getD c 0
      = (1 - ((image.getD (rows - 1 - r) []).getD c 0) / gridMax image) * (mx - mn) + mn := by
  obtain ⟨hl, hcols⟩ := h
  have hrev : image.reverse.length = rows := by simp [hl]
  have hrowmem : image.reverse.getD r [] ∈ image :=
    List.mem_reverse.1 (getD_mem_of_lt image.reverse r (by omega))
  have hrowlen : (image.reverse.getD r []).length = cols := hcols _ hrowmem
  have hrowlen2 : (image.reverse[r]?.getD []).length = cols := by
    rw [← List.getD_eq_getElem?_getD]; exact hrowlen
  unfold z_from_image
  rw [getD_map_list _ _ _ (by simp [hrev]; omega),
      getD_map_list _ _ _ (by simp [hrev]; omega),
      getD_map_list _ _ _ (by omega)]
  rw [getD_map_q _ _ _ (by simp [hrowlen2]; omega),
      getD_map_q _ _ _ (by simp [hrowlen2]; omega),
      getD_map_q _ _ _ (by omega)]
  rw [getD_reverse_list _ _ (by omega), gridMax_reverse, hl]

/-- C3 counterexample: on the grid `[[0, 1/2], [1/2, 1/2]]` (all
intensities in `[0,1]`) with `min_thick = 1/2`, `max_thick = 3`, the cell
of intensity `1/2` should get height `(1 - 1/2)*(3 - 1/2) + 1/2 = 7/4`
according to the claim, but `jpg_to_stl` normalizes by the grid maximum
`1/2` first, and `7/4` appears nowhere in the produced height grid. -/
theorem height_mapping_cex :
    z_from_image [[0, 1/2], [1/2, 1/2]] 3 (1/2) = [[1/2, 1/2], [3, 1/2]] ∧
    (1 - 1/2) * ((3 : ℚ) - 1/2) + 1/2 = 7/4 ∧
    (7/4 : ℚ) ∉ flattenG [[(1/2 : ℚ), 1/2], [3, 1/2]] := by
  refine ⟨?_, by norm_num, ?_⟩
  · norm_num [z_from_image, gridMax, flattenG, max_def]
  · simp [flattenG]
    norm_num

/-- C3 amended: `jpg_to_stl` first normalizes the grid by its maximum
intensity `M = max(image)`, so a cell of intensity `v` receives height
`(1 - v/M) * (max_thick - min_thick) + min_thick` (at the vertically
flipped row position); the claim as stated holds only when `M = 1`.
For `0 ≤ v ≤ M` the height still lies in `[min_thick, max_thick]`. -/
theorem jpg_to_stl_height_mapping (image : List (List ℚ)) (mx mn : ℚ)
    (rows cols r c : ℕ) (h : IsShape image rows cols) (hr : r < rows) (hc : c < cols)
    (hmn : mn < mx) (v M : ℚ) (hv : (image.getD r []).getD c 0 = v)
    (hM : gridMax image = M) (hM0 : 0 < M) (hv0 : 0 ≤ v) (hvM : v ≤ M) :
    ((z_from_image image mx mn).getD (rows - 1 - r) []).getD c 0
      = (1 - v / M) * (mx - mn) + mn ∧
    mn ≤ (1 - v / M) * (mx - mn) + mn ∧
    (1 - v / M) * (mx - mn) + mn ≤ mx := by
  have hidx : rows - 1 - (rows - 1 - r) = r := by omega
  have hget := z_from_image_get image mx mn rows cols (rows - 1 - r) c h (by omega) hc
  rw [hidx, hv, hM] at hget
  refine ⟨hget, ?_, ?_⟩
  · have h1 : v / M ≤ 1 := (div_le_one hM0).2 hvM
    have h2 : 0 ≤ mx - mn := by linarith
    nlinarith
  · have h1 : 0 ≤ v / M := div_nonneg hv0 hM0.le
    have h2 : 0 ≤ mx - mn := by linarith
    nlinarith

/-- Witness for the amended C3 at the counterexample grid: the cell
`(0,1)` of intensity `1/2` (the grid maximum), mapped to height
`(1 - (1/2)/(1/2)) * (3 - 1/2) + 1/2 = 1/2`. -/
theorem jpg_to_stl_height_mapping_witness :
    ((z_from_image [[0, 1/2], [1/2, 1/2]] 3 (1/2)).getD (2 - 1 - 0) []).getD 1 0
      = (1 - (1/2) / (1/2)) * ((3 : ℚ) - 1/2) + 1/2 ∧
    (1/2 : ℚ) ≤ (1 - (1/2) / (1/2)) * ((3 : ℚ) - 1/2) + 1/2 ∧
    (1 - (1/2) / (1/2)) * ((3 : ℚ) - 1/2) + 1/2 ≤ 3 :=
  jpg_to_stl_height_mapping [[0, 1/2], [1/2, 1/2]] 3 (1/2) 2 2 0 1
    ⟨rfl, by intro row hrow; fin_cases hrow <;> rfl⟩ (by norm_num) (by norm_num)
    (by norm_num) (1/2) (1/2) (by norm_num)
    (by norm_num [gridMax, flattenG, max_def]) (by norm_num) (by norm_num) (by norm_num)

/-! ### Shape plumbing through the pipeline -/

theorem z_from_image_shape (image : List (List ℚ)) (mx mn : ℚ) (rows cols : ℕ)
    (h : IsShape image rows cols) :
    IsShape (z_from_image image mx mn) rows cols := by
  obtain ⟨hl, hc⟩ := h
  constructor
  · simp [z_from_image, hl]
  · intro row hrow
    simp only [z_from_image, List.mem_map] at hrow
    obtain ⟨a2, ⟨a1, ⟨a0, ha0, rfl⟩, rfl⟩, rfl⟩ := hrow
    simp [hc a0 (List.mem_reverse.1 ha0)]

theorem add_back_plane_shape (z : List (List ℚ)) (rows cols : ℕ)
    (h : IsShape z rows cols) (hr : 1 ≤ rows) :
    IsShape (add_back_plane z) (rows + 2) (cols + 2) := by
  obtain ⟨hl, hc⟩ := h
  have hhead : (z.headD []).length = cols := headD_length z rows cols ⟨hl, hc⟩ hr
  constructor
  · simp [add_back_plane, hl]
  · intro row hrow
    simp only [add_back_plane, hhead, List.mem_append, List.mem_singleton,
      List.mem_map] at hrow
    rcases hrow with (hrow | ⟨orig, horig, rfl⟩) | hrow
    · simp [hrow]
    · simp [hc orig horig] <;> omega
    · simp [hrow]

theorem add_frame_to_z_shape (z : List (List ℚ)) (rows cols : ℕ)
    (h : IsShape z rows cols) (hr : 1 ≤ rows) (hc : 1 ≤ cols)
    (frame_mm resolution extra_height_mm : ℚ) (zf : List (List ℚ))
    (heq : add_frame_to_z z frame_mm resolution extra_height_mm = .ok zf) :
    ∃ r' c', IsShape zf r' c' ∧ 1 ≤ r' ∧ 1 ≤ c' := by
  obtain ⟨hl, hcols⟩ := h
  have hhead : (z.headD []).length = cols := headD_length z rows cols ⟨hl, hcols⟩ hr
  have hhead2 : (z.head?.getD []).length = cols := by
    rw [← List.headD_eq_head?]; exact hhead
  by_cases hf : frame_mm ≤ 0
  · refine ⟨rows, cols, ?_, hr, hc⟩
    rw [add_frame_of_nonpos z _ _ _ hf] at heq
    cases heq
    exact ⟨hl, hcols⟩
  · simp only [add_frame_to_z, if_neg hf] at heq
    by_cases hneg : pyInt (frame_mm * resolution) < 0
    · simp [hneg] at heq
    · simp only [if_neg hneg] at heq
      by_cases h0 : (pyInt (frame_mm * resolution)).toNat = 0
      · simp only [h0, if_pos rfl] at heq
        by_cases hdim : z.length ≤ 1 ∧ (z.headD []).length ≤ 1
        · rw [if_pos hdim] at heq
          cases heq
          refine ⟨rows, cols, ⟨by simp [hl], ?_⟩, hr, hc⟩
          intro row hrow
          rw [List.eq_of_mem_replicate hrow]
          simpa using hhead
        · rw [if_neg hdim] at heq
          cases heq
      · rw [if_neg h0] at heq
        cases heq
        obtain ⟨fp, hfp⟩ : ∃ fp : ℕ, (pyInt (frame_mm * resolution)).toNat = fp := ⟨_, rfl⟩
        refine ⟨rows + 2 * fp, cols + 2 * fp, ⟨?_, ?_⟩, by omega, by omega⟩
        · simp [hfp, hl]; ring
        · intro row hrow
          simp only [hfp, List.mem_append, List.mem_replicate, List.mem_map] at hrow
          rcases hrow with (⟨_, hrow⟩ | ⟨orig, horig, hroweq⟩) | ⟨_, hrow⟩
          · simp [hrow, hhead2] <;> omega
          · rw [← hroweq]; simp [hcols orig horig] <;> omega
          · simp [hrow, hhead2] <;> omega

/-! ### C5: grids smaller than 2×2 are not rejected -/

/-- C5 counterexample: a 1×1 grid is not rejected.  `jpg_to_stl` runs to
completion on `[[1]]` (with the default 0.5-unit frame at resolution 5)
and returns the `x`, `y`, `z` matrices, from which mesh synthesis then
produces vertices and triangles. -/
theorem small_grid_not_rejected_cex :
    exceptOk (jpg_to_stl [[1]] 3 (1/2) (1/2) 0 5) = true := by
  norm_num [jpg_to_stl, add_frame_to_z, pyInt, exceptOk, Except.map]

theorem add_frame_pos_ok (z : List (List ℚ)) (rows cols : ℕ)
    (hz : IsShape z rows cols) (hrow : 1 ≤ rows)
    (frame_mm resolution extra_height_mm : ℚ) (hf : 0 < frame_mm)
    (hfp : 1 ≤ pyInt (frame_mm * resolution)) :
    ∃ zf, add_frame_to_z z frame_mm resolution extra_height_mm = .ok zf ∧
      IsShape zf (rows + 2 * (pyInt (frame_mm * resolution)).toNat)
        (cols + 2 * (pyInt (frame_mm * resolution)).toNat) := by
  obtain ⟨hzl, hzr⟩ := hz
  have hc : (z.headD []).length = cols := headD_length z rows cols ⟨hzl, hzr⟩ hrow
  obtain ⟨fp, hfpeq⟩ : ∃ fp : ℕ, (pyInt (frame_mm * resolution)).toNat = fp := ⟨_, rfl⟩
  have hnn : ¬ pyInt (frame_mm * resolution) < 0 := by omega
  have hne : fp ≠ 0 := by omega
  have hc' : (z.head?.getD []).length = cols := by
    rw [← List.headD_eq_head?]; exact hc
  rw [hfpeq]
  refine ⟨List.replicate fp (List.replicate (cols + 2 * fp) (gridMax z + extra_height_mm))
      ++ z.map (fun row => List.replicate fp (gridMax z + extra_height_mm) ++ row
          ++ List.replicate fp (gridMax z + extra_height_mm))
      ++ List.replicate fp (List.replicate (cols + 2 * fp) (gridMax z + extra_height_mm)),
    ?_, ?_, ?_⟩
  · simp [add_frame_to_z, not_le.2 hf, hnn, hfpeq, hne, hc']
  · simp [hzl]; ring
  · intro row hmem
    rcases List.mem_append.1 hmem with hmem' | hpad2
    · rcases List.mem_append.1 hmem' with hpad1 | hmid
      · rw [(List.eq_of_mem_replicate hpad1)]; simp
      · obtain ⟨orig, horig, hrow'⟩ := List.mem_map.1 hmid
        rw [← hrow']
        simp [hzr orig horig]
        omega
    · rw [(List.eq_of_mem_replicate hpad2)]; simp

/-- C5 amended: the pipeline performs no minimum-size validation.  Any
nonempty rectangular grid (also 1×1 or 1×N) passes `jpg_to_stl`'s guards
whenever the ordinary parameters do and the frame step succeeds: with a
non-positive frame the frame step is the identity, and with a positive
frame whose pixel size `int(frame * resolution)` is at least 1 it grows
the grid by that amount per side; either way the backing pad then adds 2
more per dimension, so mesh synthesis always receives at least 3 rows
and 3 columns and emits a nonempty triangle list.  (A positive frame
whose pixel size truncates to 0 instead raises the C10 broadcast error
for any grid with a dimension ≥ 2 — a frame-truncation failure, not a
grid-size validation.) -/
theorem jpg_to_stl_accepts_small_grids (image : List (List ℚ)) (rows cols : ℕ)
    (h : IsShape image rows cols) (h1 : 1 ≤ rows) (h1c : 1 ≤ cols)
    (mx mn f fh res : ℚ) (hres : 0 < res) (hmm : mn < mx)
    (hf : f ≤ 0 ∨ 1 ≤ pyInt (f * res)) :
    ∃ x y z, jpg_to_stl image mx mn f fh res = .ok (x, y, z) ∧
      rows + 2 ≤ z.length ∧ cols + 2 ≤ (z.headD []).length ∧
      3 ≤ z.length ∧ 3 ≤ (z.headD []).length ∧
      0 < (faces z.length ((z.headD []).length)).length := by
  have hz1 := z_from_image_shape image mx mn rows cols h
  by_cases hf0 : f ≤ 0
  · have hz2 := add_back_plane_shape _ rows cols hz1 h1
    have hzlen : (add_back_plane (z_from_image image mx mn)).length = rows + 2 := hz2.1
    have hzhead : ((add_back_plane (z_from_image image mx mn)).headD []).length = cols + 2 :=
      headD_length _ (rows + 2) (cols + 2) hz2 (by omega)
    have hok : jpg_to_stl image mx mn f fh res
        = .ok (List.replicate (add_back_plane (z_from_image image mx mn)).length
            (linspace 1 (((((add_back_plane (z_from_image image mx mn)).headD []).length : ℕ) : ℚ) / res)
              ((add_back_plane (z_from_image image mx mn)).headD []).length).reverse,
          (linspace 1 ((((add_back_plane (z_from_image image mx mn)).length : ℕ) : ℚ) / res)
              (add_back_plane (z_from_image image mx mn)).length).map
            (fun v => List.replicate ((add_back_plane (z_from_image image mx mn)).headD []).length v),
          add_back_plane (z_from_image image mx mn)) := by
      simp only [jpg_to_stl, if_neg (not_le.2 hres), ge_iff_le, if_neg (not_le.2 hmm)]
      rw [add_frame_of_nonpos _ _ _ _ hf0]
      rfl
    refine ⟨_, _, _, hok, by rw [hzlen], by rw [hzhead],
      by rw [hzlen]; omega, by rw [hzhead]; omega, ?_⟩
    rw [faces_length, hzlen, hzhead]
    have hpos : 1 ≤ (rows + 2 - 1) * (cols + 2 - 1) :=
      Nat.one_le_iff_ne_zero.2 (Nat.mul_ne_zero (by omega) (by omega))
    omega
  · have hfpos : 0 < f := not_le.1 hf0
    have hfp : 1 ≤ pyInt (f * res) := by
      rcases hf with h' | h'
      · exact absurd h' hf0
      · exact h'
    obtain ⟨zf, hzf, hshape⟩ := add_frame_pos_ok (z_from_image image mx mn) rows cols
      hz1 h1 f res fh hfpos hfp
    have hz2 := add_back_plane_shape zf _ _ hshape (by omega)
    have hzlen : (add_back_plane zf).length
        = rows + 2 * (pyInt (f * res)).toNat + 2 := hz2.1
    have hzhead : ((add_back_plane zf).headD []).length
        = cols + 2 * (pyInt (f * res)).toNat + 2 :=
      headD_length _ _ _ hz2 (by omega)
    have hok : jpg_to_stl image mx mn f fh res
        = .ok (List.replicate (add_back_plane zf).length
            (linspace 1 ((((add_back_plane zf).headD []).length : ℚ) / res)
              ((add_back_plane zf).headD []).length).reverse,
          (linspace 1 (((add_back_plane zf).length : ℚ) / res)
              (add_back_plane zf).length).map
            (fun v => List.replicate ((add_back_plane zf).headD []).length v),
          add_back_plane zf) := by
      simp only [jpg_to_stl, if_neg (not_le.2 hres), ge_iff_le, if_neg (not_le.2 hmm), hzf]
      rfl
    refine ⟨_, _, _, hok, by rw [hzlen]; omega, by rw [hzhead]; omega,
      by rw [hzlen]; omega, by rw [hzhead]; omega, ?_⟩
    rw [faces_length, hzlen, hzhead]
    have hpos : 1 ≤ (rows + 2 * (pyInt (f * res)).toNat + 2 - 1)
        * (cols + 2 * (pyInt (f * res)).toNat + 2 - 1) :=
      Nat.one_le_iff_ne_zero.2 (Nat.mul_ne_zero (by omega) (by omega))
    omega

/-- Witness for the amended C5 at the 1×1 grid `[[1]]` with the positive
frame 1 at resolution 5 (pixel size `int(1*5) = 5`). -/
theorem jpg_to_stl_accepts_small_grids_witness :
    ((1 : ℚ) ≤ 0 ∨ 1 ≤ pyInt ((1 : ℚ) * 5)) ∧
    (∃ x y z, jpg_to_stl [[1]] 3 (1/2) 1 0 5 = .ok (x, y, z) ∧
      1 + 2 ≤ z.length ∧ 1 + 2 ≤ (z.headD []).length ∧
      3 ≤ z.length ∧ 3 ≤ (z.headD []).length ∧
      0 < (faces z.length ((z.headD []).length)).length) :=
  ⟨Or.inr (by norm_num [pyInt]),
    jpg_to_stl_accepts_small_grids [[1]] 1 1
      ⟨rfl, by intro row hrow; fin_cases hrow <;> rfl⟩ (by norm_num) (by norm_num)
      3 (1/2) 1 0 5 (by norm_num) (by norm_num) (Or.inr (by norm_num [pyInt]))⟩

/-! ### C7: determinism of the pipeline -/

/-- C7: the pipeline is pure — two invocations of `jpg_to_stl` followed
by mesh synthesis and serialization with identical input grid and
identical parameters produce identical `x`/`y`/`z` matrices, identical
vertex and face sequences, and identical serialized output. -/
theorem image_to_stl_deterministic (image1 image2 : List (List ℚ))
    (mx1 mx2 mn1 mn2 f1 f2 fh1 fh2 res1 res2 : ℚ)
    (h0 : image1 = image2) (h1 : mx1 = mx2) (h2 : mn1 = mn2) (h3 : f1 = f2)
    (h4 : fh1 = fh2) (h5 : res1 = res2) :
    jpg_to_stl image1 mx1 mn1 f1 fh1 res1 = jpg_to_stl image2 mx2 mn2 f2 fh2 res2 ∧
    image_to_stl image1 mx1 mn1 f1 fh1 res1 = image_to_stl image2 mx2 mn2 f2 fh2 res2 := by
  subst h0 h1 h2 h3 h4 h5
  exact ⟨rfl, rfl⟩

/-- Witness for C7 at a concrete repeated invocation. -/
theorem image_to_stl_deterministic_witness :
    jpg_to_stl [[1]] 3 (1/2) 0 0 5 = jpg_to_stl [[1]] 3 (1/2) 0 0 5 ∧
    image_to_stl [[1]] 3 (1/2) 0 0 5 = image_to_stl [[1]] 3 (1/2) 0 0 5 :=
  image_to_stl_deterministic [[1]] [[1]] 3 3 (1/2) (1/2) 0 0 0 0 5 5
    rfl rfl rfl rfl rfl rfl

/-! ### Vertex-buffer indexing -/

theorem idx_lt_mul (r c rows cols : ℕ) (hr : r < rows) (hc : c < cols) :
    r * cols + c < rows * cols := by
  have h1 : (r + 1) * cols ≤ rows * cols := Nat.mul_le_mul_right cols hr
  have h2 : (r + 1) * cols = r * cols + cols := by ring
  omega

theorem flattenG_getD (g : List (List ℚ)) (cols r c : ℕ)
    (hcols : ∀ row ∈ g, row.length = cols) (hr : r < g.length) (hc : c < cols) :
    (flattenG g).getD (r * cols + c) 0 = (g.getD r []).getD c 0 := by
  induction g generalizing r with
  | nil => simp at hr
  | cons row rest ih =>
    have hrowlen : row.length = cols := hcols row (List.mem_cons_self _ _)
    cases r with
    | zero =>
      simp only [flattenG, Nat.zero_mul, Nat.zero_add]
      rw [getD_append_left _ _ _ _ (by omega)]
      simp
    | succ r' =>
      have hsm : (r' + 1) * cols = r' * cols + cols := by ring
      simp only [flattenG]
      rw [getD_append_right _ _ _ _ (by rw [hrowlen]; omega),
        show (r' + 1) * cols + c - row.length = r' * cols + c from by rw [hrowlen]; omega]
      rw [ih r' (fun q hq => hcols q (List.mem_cons_of_mem _ hq)) (by simpa using hr)]
      simp

theorem column_stack3_getD (xs ys zs : List ℚ) (i : ℕ)
    (hy : ys.length = xs.length) (hz : zs.length = xs.length) (hi : i < xs.length) :
    (column_stack3 xs ys zs).getD i (0, 0, 0) = (xs.getD i 0, ys.getD i 0, zs.getD i 0) := by
  induction xs generalizing ys zs i with
  | nil => simp at hi
  | cons a xs ih =>
    cases ys with
    | nil => simp at hy
    | cons b ys =>
      cases zs with
      | nil => simp at hz
      | cons cc zs =>
        cases i with
        | zero => simp [column_stack3]
        | succ i' =>
          simp only [column_stack3, List.getD_cons_succ]
          exact ih ys zs i' (by simpa using hy) (by simpa using hz) (by simpa using hi)

theorem vertices_getD_front (x y z : List (List ℚ)) (rows cols r c : ℕ)
    (hx : IsShape x rows cols) (hy : IsShape y rows cols) (hz : IsShape z rows cols)
    (hr : r < rows) (hc : c < cols) :
    (vertices x y z).getD (r * cols + c) (0, 0, 0)
      = ((x.getD r []).getD c 0, (y.getD r []).getD c 0, (z.getD r []).getD c 0) := by
  have lx := flattenG_length x rows cols hx
  have ly := flattenG_length y rows cols hy
  have lz := flattenG_length z rows cols hz
  have hlt := idx_lt_mul r c rows cols hr hc
  unfold vertices
  rw [getD_append_left _ _ _ _
      (by rw [column_stack3_length _ _ _ (by omega) (by omega)]; omega)]
  rw [column_stack3_getD _ _ _ _ (by omega) (by omega) (by omega)]
  rw [flattenG_getD x cols r c hx.2 (by rw [hx.1]; omega) hc,
      flattenG_getD y cols r c hy.2 (by rw [hy.1]; omega) hc,
      flattenG_getD z cols r c hz.2 (by rw [hz.1]; omega) hc]

theorem vertices_getD_back (x y z : List (List ℚ)) (rows cols r c : ℕ)
    (hx : IsShape x rows cols) (hy : IsShape y rows cols) (hz : IsShape z rows cols)
    (hr : r < rows) (hc : c < cols) :
    (vertices x y z).getD (rows * cols + (r * cols + c)) (0, 0, 0)
      = ((x.getD r []).getD c 0, (y.getD r []).getD c 0, 0) := by
  have lx := flattenG_length x rows cols hx
  have ly := flattenG_length y rows cols hy
  have lz := flattenG_length z rows cols hz
  have hlt := idx_lt_mul r c rows cols hr hc
  have hfirst : (column_stack3 (flattenG x) (flattenG y) (flattenG z)).length = rows * cols := by
    rw [column_stack3_length _ _ _ (by omega) (by omega)]; omega
  unfold vertices
  rw [getD_append_right _ _ _ _ (by rw [hfirst]; omega),
    show rows * cols + (r * cols + c)
        - (column_stack3 (flattenG x) (flattenG y) (flattenG z)).length
      = r * cols + c from by rw [hfirst]; omega]
  rw [column_stack3_getD _ _ _ _ (by omega) (by simp; omega) (by omega)]
  rw [flattenG_getD x cols r c hx.2 (by rw [hx.1]; omega) hc,
      flattenG_getD y cols r c hy.2 (by rw [hy.1]; omega) hc,
      getD_replicate _ _ _ _ (by omega)]

theorem linspace_length (a b : ℚ) (n : ℕ) : (linspace a b n).length = n := by
  simp only [linspace, List.length_map, List.length_range]

theorem linspace_getD (a b : ℚ) (n i : ℕ) (h2 : 2 ≤ n) (hi : i < n) :
    (linspace a b n).getD i 0 = a + (i : ℚ) * (b - a) / ((n : ℚ) - 1) := by
  have hlen : i < (linspace a b n).length := by rw [linspace_length]; omega
  rw [List.getD_eq_getElem?_getD, List.getElem?_eq_getElem hlen]
  simp only [linspace, List.getElem_map, List.getElem_range, Option.getD_some]
  rw [if_neg (by omega : ¬ n ≤ 1)]

theorem getD_reverse_q (l : List ℚ) (i : ℕ) (h : i < l.length) :
    l.reverse.getD i 0 = l.getD (l.length - 1 - i) 0 := by
  rw [List.getD_eq_getElem?_getD, List.getD_eq_getElem?_getD, List.getElem?_reverse h]

theorem getD_map_row (g : ℚ → List ℚ) (l : List ℚ) (i : ℕ) (h : i < l.length) :
    (l.map g).getD i [] = g (l.getD i 0) := by
  simp [List.getD_eq_getElem?_getD, List.getElem?_map, List.getElem?_eq_getElem h]

/-! ### C4: positions of the emitted vertices -/

/-- C4 counterexample: on the all-ones 2×2 grid with `min=1/2`, `max=3`,
no frame, resolution 5 (so `x_spacing = 1/5`), the final grid is 4×4 and
vertex 0 — the front vertex of grid position `(0,0)` — has `x`-coordinate
`4/5` and `y`-coordinate `1`, not the claimed `(0*x_spacing, 0*y_spacing)
= (0, 0)`: the coordinates come from `linspace(1, dim/resolution, dim)`
(flipped in `x`), not from `c * x_spacing`. -/
theorem vertex_layout_cex :
    (jpg_to_stl [[1, 1], [1, 1]] 3 (1/2) 0 0 5).map
        (fun t => (vertices t.1 t.2.1 t.2.2).getD 0 (0, 0, 0)) = .ok (4/5, 1, 0) ∧
    (4/5 : ℚ) ≠ 0 * (1/5) := by
  constructor
  · norm_num [jpg_to_stl, add_frame_to_z, add_back_plane, z_from_image, gridMax,
      flattenG, linspace, vertices, column_stack3, Except.map,
      List.range_succ, max_def]
  · norm_num

/-- C4 amended: when `jpg_to_stl` succeeds on a nonempty rectangular
image, the front vertex for grid position `(r,c)` of the final
`rows × cols` height grid sits at vertex-buffer index `r*cols + c`
(row-major) with coordinates
`x = 1 + (cols-1-c) * (cols/resolution - 1)/(cols-1)` (from the flipped
`linspace`), `y = 1 + r * (rows/resolution - 1)/(rows-1)`, and
`z = height[r][c]`; the back vertex sits at index `rows*cols + (r*cols+c)`
(offset `rows*cols`) with the same `x`,`y` and `z = 0`.  The claimed
coordinates `(c*x_spacing, r*y_spacing)` are not used. -/
theorem jpg_to_stl_vertex_layout (image : List (List ℚ)) (ri ci : ℕ)
    (him : IsShape image ri ci) (hri : 1 ≤ ri) (hci : 1 ≤ ci)
    (mx mn f fh res : ℚ) (x y z : List (List ℚ))
    (heq : jpg_to_stl image mx mn f fh res = .ok (x, y, z))
    (rows cols : ℕ) (hrows : z.length = rows) (hcols : (z.headD []).length = cols)
    (r c : ℕ) (hr : r < rows) (hc : c < cols) :
    (vertices x y z).getD (r * cols + c) (0, 0, 0)
      = (1 + ((cols : ℚ) - 1 - (c : ℚ)) * (((cols : ℚ) / res) - 1) / ((cols : ℚ) - 1),
         1 + (r : ℚ) * (((rows : ℚ) / res) - 1) / ((rows : ℚ) - 1),
         (z.getD r []).getD c 0) ∧
    (vertices x y z).getD (rows * cols + (r * cols + c)) (0, 0, 0)
      = (1 + ((cols : ℚ) - 1 - (c : ℚ)) * (((cols : ℚ) / res) - 1) / ((cols : ℚ) - 1),
         1 + (r : ℚ) * (((rows : ℚ) / res) - 1) / ((rows : ℚ) - 1), 0) := by
  -- invert the pipeline equation
  by_cases hres : res ≤ 0
  · simp [jpg_to_stl, hres] at heq
  by_cases hmm : mn ≥ mx
  · simp [jpg_to_stl, hres, hmm] at heq
  simp only [jpg_to_stl, if_neg hres, ge_iff_le, if_neg hmm] at heq
  cases haf : add_frame_to_z (z_from_image image mx mn) f res fh with
  | error e => rw [haf] at heq; simp [Except.map] at heq
  | ok zf =>
    rw [haf] at heq
    simp only [Except.map, Except.ok.injEq, Prod.mk.injEq] at heq
    obtain ⟨hx, hy, hz⟩ := heq
    -- shapes
    have hs0 := z_from_image_shape image mx mn ri ci him
    obtain ⟨r', c', hzf, hr1, hc1⟩ :=
      add_frame_to_z_shape (z_from_image image mx mn) ri ci hs0 hri hci f res fh zf haf
    have hsz : IsShape (add_back_plane zf) (r' + 2) (c' + 2) :=
      add_back_plane_shape zf r' c' hzf hr1
    have hzrows : rows = r' + 2 := by rw [← hrows, ← hz, hsz.1]
    have hzcols : cols = c' + 2 := by
      rw [← hcols, ← hz, headD_length _ (r' + 2) (c' + 2) hsz (by omega)]
    have hrows2 : 2 ≤ rows := by omega
    have hcols2 : 2 ≤ cols := by omega
    have hzshape : IsShape z rows cols := by rw [← hz, hzrows, hzcols]; exact hsz
    -- the x and y grids
    have hlab : (add_back_plane zf).length = rows := by rw [hsz.1]; omega
    have hhab : ((add_back_plane zf).headD []).length = cols := by
      rw [headD_length _ (r' + 2) (c' + 2) hsz (by omega)]; omega
    rw [hlab, hhab] at hx hy
    have hxshape : IsShape x rows cols := by
      rw [← hx]
      exact ⟨by simp, fun row hrow => by
        rw [List.eq_of_mem_replicate hrow]; simp [linspace_length]⟩
    have hyshape : IsShape y rows cols := by
      rw [← hy]
      refine ⟨by simp [linspace_length], fun row hrow => ?_⟩
      obtain ⟨v, _, rfl⟩ := List.mem_map.1 hrow
      simp
    have hxval : (x.getD r []).getD c 0
        = 1 + ((cols : ℚ) - 1 - (c : ℚ)) * (((cols : ℚ) / res) - 1) / ((cols : ℚ) - 1) := by
      rw [← hx, getD_replicate _ _ _ _ (by omega),
        getD_reverse_q _ _ (by rw [linspace_length]; omega),
        linspace_length,
        linspace_getD _ _ _ _ (by omega) (by omega)]
      have hcast : ((cols - 1 - c : ℕ) : ℚ) = (cols : ℚ) - 1 - (c : ℚ) := by
        rw [Nat.sub_sub, Nat.cast_sub (by omega : 1 + c ≤ cols)]
        push_cast
        ring
      rw [hcast]
    have hyval : (y.getD r []).getD c 0
        = 1 + (r : ℚ) * (((rows : ℚ) / res) - 1) / ((rows : ℚ) - 1) := by
      rw [← hy, getD_map_row _ _ _ (by rw [linspace_length]; omega),
        getD_replicate _ _ _ _ hc,
        linspace_getD _ _ _ _ (by omega) (by omega)]
    exact ⟨by rw [vertices_getD_front x y z rows cols r c hxshape hyshape hzshape hr hc,
        hxval, hyval],
      by rw [vertices_getD_back x y z rows cols r c hxshape hyshape hzshape hr hc,
        hxval, hyval]⟩

/-- Witness for the amended C4 at the all-ones 2×2 image (final grid
4×4), position `(0,0)`: the front vertex is `(4/5, 1, 0)`. -/
theorem jpg_to_stl_vertex_layout_witness :
    ∃ x y z, jpg_to_stl [[1, 1], [1, 1]] 3 (1/2) 0 0 5 = .ok (x, y, z) ∧
      (vertices x y z).getD (0 * 4 + 0) (0, 0, 0)
        = (1 + ((4 : ℚ) - 1 - (0 : ℚ)) * (((4 : ℚ) / 5) - 1) / ((4 : ℚ) - 1),
           1 + (0 : ℚ) * (((4 : ℚ) / 5) - 1) / ((4 : ℚ) - 1),
           (z.getD 0 []).getD 0 0) := by
  have hok : ∃ t, jpg_to_stl [[1, 1], [1, 1]] 3 (1/2) 0 0 5 = .ok t := by
    have : exceptOk (jpg_to_stl [[1, 1], [1, 1]] 3 (1/2) 0 0 5) = true := by
      norm_num [jpg_to_stl, add_frame_to_z, exceptOk, Except.map]
    cases h : jpg_to_stl [[1, 1], [1, 1]] 3 (1/2) 0 0 5 with
    | error e => rw [h] at this; simp [exceptOk] at this
    | ok t => exact ⟨t, rfl⟩
  obtain ⟨⟨x, y, z⟩, hok⟩ := hok
  have hshape : IsShape [[(1 : ℚ), 1], [1, 1]] 2 2 :=
    ⟨rfl, by intro row hrow; fin_cases hrow <;> rfl⟩
  have hzlen : z.length = 4 ∧ (z.headD []).length = 4 := by
    by_cases hres : (5 : ℚ) ≤ 0
    · norm_num at hres
    · simp only [jpg_to_stl, if_neg hres] at hok
      norm_num at hok
      rw [add_frame_of_nonpos _ _ _ _ (by norm_num)] at hok
      simp only [Except.map, Except.ok.injEq, Prod.mk.injEq] at hok
      obtain ⟨_, _, hz⟩ := hok
      have hs0 := z_from_image_shape [[(1 : ℚ), 1], [1, 1]] 3 (1/2) 2 2 hshape
      have hsz := add_back_plane_shape _ 2 2 hs0 (by omega)
      constructor
      · rw [← hz, hsz.1]
      · rw [← hz, headD_length _ 4 4 hsz (by omega)]
  have := jpg_to_stl_vertex_layout [[1, 1], [1, 1]] 2 2 hshape (by omega) (by omega)
    3 (1/2) 0 0 5 x y z hok 4 4 hzlen.1 hzlen.2 0 0 (by omega) (by omega)
  exact ⟨x, y, z, hok, this.1⟩

/-! ### C1: watertightness of the synthesized mesh.

Vertex indices are decoded as `vid R C s r c`: front vertex (`s = false`)
of grid cell `(r,c)` is `r*C + c`, back vertex (`s = true`) is
`r*C + c + R*C` (the `offset`).  `facesN` restates the face list in this
decoded form; `faces_eq_facesN` proves it equal to the translation of the
source. -/

def vid (R C : ℕ) (s : Bool) (r c : ℕ) : ℕ :=
  cond s (r * C + c + R * C) (r * C + c)

/-- The face list of `create_solid_lithophane` with every vertex index in
`vid` form (`+ 0` paddings keep all index arithmetic in one shape). -/
def facesN (R C : ℕ) : List (ℕ × ℕ × ℕ) :=
  forRange (R - 1) (fun r => forRange (C - 1) (fun c =>
    [(vid R C false (r + 0) (c + 0), vid R C false (r + 1) (c + 0), vid R C false (r + 0) (c + 1)),
     (vid R C false (r + 0) (c + 1), vid R C false (r + 1) (c + 0), vid R C false (r + 1) (c + 1)),
     (vid R C true (r + 0) (c + 0), vid R C true (r + 0) (c + 1), vid R C true (r + 1) (c + 0)),
     (vid R C true (r + 0) (c + 1), vid R C true (r + 1) (c + 1), vid R C true (r + 1) (c + 0))]))
  ++ forRange (R - 1) (fun r =>
    [(vid R C false (r + 0) 0, vid R C true (r + 0) 0, vid R C false (r + 1) 0),
     (vid R C false (r + 1) 0, vid R C true (r + 0) 0, vid R C true (r + 1) 0),
     (vid R C false (r + 0) (C - 1), vid R C false (r + 1) (C - 1), vid R C true (r + 0) (C - 1)),
     (vid R C false (r + 1) (C - 1), vid R C true (r + 1) (C - 1), vid R C true (r + 0) (C - 1))])
  ++ forRange (C - 1) (fun c =>
    [(vid R C false 0 (c + 0), vid R C false 0 (c + 1), vid R C true 0 (c + 0)),
     (vid R C false 0 (c + 1), vid R C true 0 (c + 1), vid R C true 0 (c + 0)),
     (vid R C false (R - 1) (c + 0), vid R C true (R - 1) (c + 0), vid R C false (R - 1) (c + 1)),
     (vid R C false (R - 1) (c + 1), vid R C true (R - 1) (c + 0), vid R C true (R - 1) (c + 1))])

theorem forRange_congr {α : Type} (n : ℕ) (g g' : ℕ → List α)
    (h : ∀ i, i < n → g i = g' i) : forRange n g = forRange n g' := by
  induction n with
  | zero => simp [forRange]
  | succ m ih =>
    simp only [forRange]
    rw [ih (fun i hi => h i (by omega)), h m (by omega)]

theorem faces_eq_facesN (R C : ℕ) (hC : 1 ≤ C) : faces R C = facesN R C := by
  have e1 : (forRange (R - 1) fun r => forRange (C - 1) fun c =>
        [(r * C + c, (r + 1) * C + c, r * C + c + 1),
         (r * C + c + 1, (r + 1) * C + c, (r + 1) * C + c + 1),
         (r * C + c + R * C, r * C + c + 1 + R * C, (r + 1) * C + c + R * C),
         (r * C + c + 1 + R * C, (r + 1) * C + c + 1 + R * C, (r + 1) * C + c + R * C)])
      = forRange (R - 1) (fun r => forRange (C - 1) fun c =>
        [(vid R C false (r + 0) (c + 0), vid R C false (r + 1) (c + 0),
            vid R C false (r + 0) (c + 1)),
         (vid R C false (r + 0) (c + 1), vid R C false (r + 1) (c + 0),
            vid R C false (r + 1) (c + 1)),
         (vid R C true (r + 0) (c + 0), vid R C true (r + 0) (c + 1),
            vid R C true (r + 1) (c + 0)),
         (vid R C true (r + 0) (c + 1), vid R C true (r + 1) (c + 1),
            vid R C true (r + 1) (c + 0))]) :=
    forRange_congr _ _ _ (fun r hr => forRange_congr _ _ _ (fun c hc => by
      simp only [vid, Bool.cond_false, Bool.cond_true, Nat.add_zero, List.cons.injEq,
        Prod.mk.injEq, and_true]
      and_intros <;> first | trivial | omega))
  have e2 : (forRange (R - 1) fun r =>
        [(r * C, r * C + R * C, (r + 1) * C),
         ((r + 1) * C, r * C + R * C, (r + 1) * C + R * C),
         (r * C + C - 1, (r + 1) * C + C - 1, r * C + C - 1 + R * C),
         ((r + 1) * C + C - 1, (r + 1) * C + C - 1 + R * C, r * C + C - 1 + R * C)])
      = forRange (R - 1) (fun r =>
        [(vid R C false (r + 0) 0, vid R C true (r + 0) 0, vid R C false (r + 1) 0),
         (vid R C false (r + 1) 0, vid R C true (r + 0) 0, vid R C true (r + 1) 0),
         (vid R C false (r + 0) (C - 1), vid R C false (r + 1) (C - 1),
            vid R C true (r + 0) (C - 1)),
         (vid R C false (r + 1) (C - 1), vid R C true (r + 1) (C - 1),
            vid R C true (r + 0) (C - 1))]) :=
    forRange_congr _ _ _ (fun r hr => by
      simp only [vid, Bool.cond_false, Bool.cond_true, Nat.add_zero, List.cons.injEq,
        Prod.mk.injEq, and_true]
      and_intros <;> first | trivial | omega)
  have e3 : (forRange (C - 1) fun c =>
        [(c, c + 1, c + R * C),
         (c + 1, c + 1 + R * C, c + R * C),
         ((R - 1) * C + c, (R - 1) * C + c + R * C, (R - 1) * C + c + 1),
         ((R - 1) * C + c + 1, (R - 1) * C + c + R * C, (R - 1) * C + c + 1 + R * C)])
      = forRange (C - 1) (fun c =>
        [(vid R C false 0 (c + 0), vid R C false 0 (c + 1), vid R C true 0 (c + 0)),
         (vid R C false 0 (c + 1), vid R C true 0 (c + 1), vid R C true 0 (c + 0)),
         (vid R C false (R - 1) (c + 0), vid R C true (R - 1) (c + 0),
            vid R C false (R - 1) (c + 1)),
         (vid R C false (R - 1) (c + 1), vid R C true (R - 1) (c + 0),
            vid R C true (R - 1) (c + 1))]) :=
    forRange_congr _ _ _ (fun c hc => by
      simp only [vid, Bool.cond_false, Bool.cond_true, Nat.add_zero, List.cons.injEq,
        Prod.mk.injEq, and_true]
      and_intros <;> first | trivial | omega)
  simp only [faces, facesN]
  rw [e1, e2, e3]

theorem vid_lt (R C : ℕ) {r c : ℕ} (hr : r < R) (hc : c < C) : r * C + c < R * C := by
  have h1 : (r + 1) * C ≤ R * C := Nat.mul_le_mul_right C hr
  have h2 : (r + 1) * C = r * C + C := by ring
  omega

theorem vid_bound {R C : ℕ} (s : Bool) {r c : ℕ} (hr : r < R) (hc : c < C) :
    vid R C s r c < 2 * (R * C) := by
  have := vid_lt R C hr hc
  cases s <;> simp only [vid, Bool.cond_false, Bool.cond_true] <;> omega

theorem vid_inj {R C : ℕ} {s : Bool} {r c : ℕ} {s' : Bool} {r' c' : ℕ}
    (hr : r < R) (hc : c < C) (hr' : r' < R) (hc' : c' < C)
    (h : vid R C s r c = vid R C s' r' c') : s = s' ∧ r = r' ∧ c = c' := by
  have l1 := vid_lt R C hr hc
  have l2 := vid_lt R C hr' hc'
  have hs : s = s' := by
    cases s <;> cases s' <;> simp only [vid, Bool.cond_false, Bool.cond_true] at h
    · rfl
    · omega
    · omega
    · rfl
  subst hs
  have hrc : r * C + c = r' * C + c' := by
    cases s <;> simp only [vid, Bool.cond_false, Bool.cond_true] at h <;> omega
  refine ⟨rfl, ?_, ?_⟩
  · rcases Nat.lt_trichotomy r r' with hlt | heq | hgt
    · exfalso
      have h1 : (r + 1) * C ≤ r' * C := Nat.mul_le_mul_right C hlt
      have h2 : (r + 1) * C = r * C + C := by ring
      omega
    · exact heq
    · exfalso
      have h1 : (r' + 1) * C ≤ r * C := Nat.mul_le_mul_right C hgt
      have h2 : (r' + 1) * C = r' * C + C := by ring
      omega
  · rcases Nat.lt_trichotomy r r' with hlt | heq | hgt
    · exfalso
      have h1 : (r + 1) * C ≤ r' * C := Nat.mul_le_mul_right C hlt
      have h2 : (r + 1) * C = r * C + C := by ring
      omega
    · subst heq; omega
    · exfalso
      have h1 : (r' + 1) * C ≤ r * C := Nat.mul_le_mul_right C hgt
      have h2 : (r' + 1) * C = r' * C + C := by ring
      omega

theorem vid_ne {R C : ℕ} {s s' : Bool} {r c r' c' : ℕ} (hr : r < R) (hc : c < C)
    (hr' : r' < R) (hc' : c' < C) (h : ¬(s = s' ∧ r = r' ∧ c = c')) :
    vid R C s r c ≠ vid R C s' r' c' :=
  fun hEq => h (vid_inj hr hc hr' hc' hEq)

theorem vid_pair_inj {R C : ℕ} {s1 sa s2 sb : Bool} {p1 q1 p2 q2 ra ca rb cb : ℕ}
    (hp1 : p1 < R) (hq1 : q1 < C) (hp2 : p2 < R) (hq2 : q2 < C)
    (hra : ra < R) (hca : ca < C) (hrb : rb < R) (hcb : cb < C)
    (h : (vid R C s1 p1 q1, vid R C s2 p2 q2) = (vid R C sa ra ca, vid R C sb rb cb)) :
    s1 = sa ∧ p1 = ra ∧ q1 = ca ∧ s2 = sb ∧ p2 = rb ∧ q2 = cb := by
  rw [Prod.mk.injEq] at h
  obtain ⟨h1, h2⟩ := h
  obtain ⟨e1, e2, e3⟩ := vid_inj hp1 hq1 hra hca h1
  obtain ⟨f1, f2, f3⟩ := vid_inj hp2 hq2 hrb hcb h2
  exact ⟨e1, e2, e3, f1, f2, f3⟩

theorem dedgesOf_append (l1 l2 : List (ℕ × ℕ × ℕ)) :
    dedgesOf (l1 ++ l2) = dedgesOf l1 ++ dedgesOf l2 := by
  induction l1 with
  | nil => simp [dedgesOf]
  | cons t ts ih => simp [dedgesOf, ih]

theorem ecount_append (e : ℕ × ℕ) (l1 l2 : List (ℕ × ℕ)) :
    ecount e (l1 ++ l2) = ecount e l1 + ecount e l2 := by
  induction l1 with
  | nil => simp [ecount]
  | cons d ds ih => simp [ecount, ih]; omega

theorem ecount_forRange (e : ℕ × ℕ) (n : ℕ) (g : ℕ → List (ℕ × ℕ × ℕ)) :
    ecount e (dedgesOf (forRange n g))
      = ∑ i ∈ Finset.range n, ecount e (dedgesOf (g i)) := by
  induction n with
  | zero => simp [forRange, dedgesOf, ecount]
  | succ m ih =>
    simp only [forRange, dedgesOf_append, ecount_append, Finset.sum_range_succ, ih]

theorem mem_forRange {α : Type} (x : α) (n : ℕ) (g : ℕ → List α) :
    x ∈ forRange n g ↔ ∃ i, i < n ∧ x ∈ g i := by
  induction n with
  | zero => simp [forRange]
  | succ m ih =>
    simp only [forRange, List.mem_append, ih]
    constructor
    · rintro (⟨i, hi, hx⟩ | hx)
      · exact ⟨i, by omega, hx⟩
      · exact ⟨m, by omega, hx⟩
    · rintro ⟨i, hi, hx⟩
      by_cases him : i = m
      · subst him; exact Or.inr hx
      · exact Or.inl ⟨i, by omega, hx⟩

theorem ecount_eq_zero (e : ℕ × ℕ) (l : List (ℕ × ℕ)) (h : ∀ d ∈ l, d ≠ e) :
    ecount e l = 0 := by
  induction l with
  | nil => simp [ecount]
  | cons d ds ih =>
    simp only [ecount]
    rw [if_neg (h d (List.mem_cons_self _ _)), ih (fun q hq => h q (List.mem_cons_of_mem _ hq))]

theorem mem_dedgesOf (d : ℕ × ℕ) (l : List (ℕ × ℕ × ℕ)) :
    d ∈ dedgesOf l ↔ ∃ t ∈ l, d ∈ triEdges t := by
  induction l with
  | nil => simp [dedgesOf]
  | cons t ts ih => simp [dedgesOf, ih]

/-- Counting lemma for a wall-strip edge family indexed by the row loop:
the edge `(vid s1 (r+d1) k1, vid s2 (r+d2) k2)` equals the target edge for
exactly one `r < R-1` — or none — and the sum of indicators is the
indicator of the solved linear system. -/
theorem slot_rows (R C : ℕ) (s1 s2 sa sb : Bool) (d1 d2 k1 k2 ra ca rb cb : ℕ)
    (hd1 : d1 ≤ 1) (hd2 : d2 ≤ 1) (hk1 : k1 < C) (hk2 : k2 < C)
    (hra : ra < R) (hca : ca < C) (hrb : rb < R) (hcb : cb < C) :
    (∑ r ∈ Finset.range (R - 1),
      if (vid R C s1 (r + d1) k1, vid R C s2 (r + d2) k2)
          = (vid R C sa ra ca, vid R C sb rb cb) then 1 else 0)
    = if s1 = sa ∧ s2 = sb ∧ ca = k1 ∧ cb = k2 ∧ d1 ≤ ra ∧ ra - d1 < R - 1
          ∧ ra + d2 = rb + d1 then 1 else 0 := by
  by_cases hQ : s1 = sa ∧ s2 = sb ∧ ca = k1 ∧ cb = k2 ∧ d1 ≤ ra ∧ ra - d1 < R - 1
      ∧ ra + d2 = rb + d1
  · rw [if_pos hQ]
    obtain ⟨h1, h2, h3, h4, h5, h6, h7⟩ := hQ
    have hzero : ∀ b ∈ Finset.range (R - 1), b ≠ ra - d1 →
        (if (vid R C s1 (b + d1) k1, vid R C s2 (b + d2) k2)
            = (vid R C sa ra ca, vid R C sb rb cb) then 1 else 0) = 0 := by
      intro b hb hbne
      rw [if_neg]
      intro hEq
      have hbR : b < R - 1 := Finset.mem_range.1 hb
      obtain ⟨g1, g2, g3, g4, g5, g6⟩ :=
        vid_pair_inj (by omega) hk1 (by omega) hk2 hra hca hrb hcb hEq
      exact hbne (by omega)
    rw [Finset.sum_eq_single_of_mem (ra - d1) (Finset.mem_range.2 (by omega)) hzero]
    rw [show ra - d1 + d1 = ra from by omega, show ra - d1 + d2 = rb from by omega,
      h3, h4, ← h1, ← h2, if_pos rfl]
  · rw [if_neg hQ]
    apply Finset.sum_eq_zero
    intro r hr
    rw [if_neg]
    intro hEq
    have hrR : r < R - 1 := Finset.mem_range.1 hr
    obtain ⟨g1, g2, g3, g4, g5, g6⟩ :=
      vid_pair_inj (by omega) hk1 (by omega) hk2 hra hca hrb hcb hEq
    exact hQ ⟨g1, g4, g3.symm, g6.symm, by omega, by omega, by omega⟩

/-- Counting lemma for a wall-strip edge family indexed by the column
loop. -/
theorem slot_cols (R C : ℕ) (s1 s2 sa sb : Bool) (d1 d2 k1 k2 ra ca rb cb : ℕ)
    (hd1 : d1 ≤ 1) (hd2 : d2 ≤ 1) (hk1 : k1 < R) (hk2 : k2 < R)
    (hra : ra < R) (hca : ca < C) (hrb : rb < R) (hcb : cb < C) :
    (∑ c ∈ Finset.range (C - 1),
      if (vid R C s1 k1 (c + d1), vid R C s2 k2 (c + d2))
          = (vid R C sa ra ca, vid R C sb rb cb) then 1 else 0)
    = if s1 = sa ∧ s2 = sb ∧ ra = k1 ∧ rb = k2 ∧ d1 ≤ ca ∧ ca - d1 < C - 1
          ∧ ca + d2 = cb + d1 then 1 else 0 := by
  by_cases hQ : s1 = sa ∧ s2 = sb ∧ ra = k1 ∧ rb = k2 ∧ d1 ≤ ca ∧ ca - d1 < C - 1
      ∧ ca + d2 = cb + d1
  · rw [if_pos hQ]
    obtain ⟨h1, h2, h3, h4, h5, h6, h7⟩ := hQ
    have hzero : ∀ b ∈ Finset.range (C - 1), b ≠ ca - d1 →
        (if (vid R C s1 k1 (b + d1), vid R C s2 k2 (b + d2))
            = (vid R C sa ra ca, vid R C sb rb cb) then 1 else 0) = 0 := by
      intro b hb hbne
      rw [if_neg]
      intro hEq
      have hbC : b < C - 1 := Finset.mem_range.1 hb
      obtain ⟨g1, g2, g3, g4, g5, g6⟩ :=
        vid_pair_inj hk1 (by omega) hk2 (by omega) hra hca hrb hcb hEq
      exact hbne (by omega)
    rw [Finset.sum_eq_single_of_mem (ca - d1) (Finset.mem_range.2 (by omega)) hzero]
    rw [show ca - d1 + d1 = ca from by omega, show ca - d1 + d2 = cb from by omega,
      h3, h4, ← h1, ← h2, if_pos rfl]
  · rw [if_neg hQ]
    apply Finset.sum_eq_zero
    intro c hc
    rw [if_neg]
    intro hEq
    have hcC : c < C - 1 := Finset.mem_range.1 hc
    obtain ⟨g1, g2, g3, g4, g5, g6⟩ :=
      vid_pair_inj hk1 (by omega) hk2 (by omega) hra hca hrb hcb hEq
    exact hQ ⟨g1, g4, g2.symm, g5.symm, by omega, by omega, by omega⟩

/-- Counting lemma for an interior edge family indexed by the double
loop. -/
theorem slot_double (R C : ℕ) (s1 s2 sa sb : Bool) (d1r d1c d2r d2c ra ca rb cb : ℕ)
    (hd1r : d1r ≤ 1) (hd1c : d1c ≤ 1) (hd2r : d2r ≤ 1) (hd2c : d2c ≤ 1)
    (hra : ra < R) (hca : ca < C) (hrb : rb < R) (hcb : cb < C) :
    (∑ r ∈ Finset.range (R - 1), ∑ c ∈ Finset.range (C - 1),
      if (vid R C s1 (r + d1r) (c + d1c), vid R C s2 (r + d2r) (c + d2c))
          = (vid R C sa ra ca, vid R C sb rb cb) then 1 else 0)
    = if s1 = sa ∧ s2 = sb ∧ d1r ≤ ra ∧ d1c ≤ ca ∧ ra - d1r < R - 1 ∧ ca - d1c < C - 1
          ∧ ra + d2r = rb + d1r ∧ ca + d2c = cb + d1c then 1 else 0 := by
  by_cases hQ : s1 = sa ∧ s2 = sb ∧ d1r ≤ ra ∧ d1c ≤ ca ∧ ra - d1r < R - 1 ∧ ca - d1c < C - 1
      ∧ ra + d2r = rb + d1r ∧ ca + d2c = cb + d1c
  · rw [if_pos hQ]
    obtain ⟨h1, h2, h3, h4, h5, h6, h7, h8⟩ := hQ
    have hzero_outer : ∀ b ∈ Finset.range (R - 1), b ≠ ra - d1r →
        (∑ c ∈ Finset.range (C - 1),
          if (vid R C s1 (b + d1r) (c + d1c), vid R C s2 (b + d2r) (c + d2c))
              = (vid R C sa ra ca, vid R C sb rb cb) then 1 else 0) = 0 := by
      intro b hb hbne
      apply Finset.sum_eq_zero
      intro c hc
      rw [if_neg]
      intro hEq
      have hbR : b < R - 1 := Finset.mem_range.1 hb
      have hcC : c < C - 1 := Finset.mem_range.1 hc
      obtain ⟨g1, g2, g3, g4, g5, g6⟩ :=
        vid_pair_inj (by omega) (by omega) (by omega) (by omega) hra hca hrb hcb hEq
      exact hbne (by omega)
    rw [Finset.sum_eq_single_of_mem (ra - d1r) (Finset.mem_range.2 (by omega)) hzero_outer]
    have hzero_inner : ∀ b ∈ Finset.range (C - 1), b ≠ ca - d1c →
        (if (vid R C s1 (ra - d1r + d1r) (b + d1c), vid R C s2 (ra - d1r + d2r) (b + d2c))
            = (vid R C sa ra ca, vid R C sb rb cb) then 1 else 0) = 0 := by
      intro b hb hbne
      rw [if_neg]
      intro hEq
      have hbC : b < C - 1 := Finset.mem_range.1 hb
      obtain ⟨g1, g2, g3, g4, g5, g6⟩ :=
        vid_pair_inj (by omega) (by omega) (by omega) (by omega) hra hca hrb hcb hEq
      exact hbne (by omega)
    rw [Finset.sum_eq_single_of_mem (ca - d1c) (Finset.mem_range.2 (by omega)) hzero_inner]
    rw [show ra - d1r + d1r = ra from by omega, show ra - d1r + d2r = rb from by omega,
      show ca - d1c + d1c = ca from by omega, show ca - d1c + d2c = cb from by omega,
      ← h1, ← h2, if_pos rfl]
  · rw [if_neg hQ]
    apply Finset.sum_eq_zero
    intro r hr
    apply Finset.sum_eq_zero
    intro c hc
    rw [if_neg]
    intro hEq
    have hrR : r < R - 1 := Finset.mem_range.1 hr
    have hcC : c < C - 1 := Finset.mem_range.1 hc
    obtain ⟨g1, g2, g3, g4, g5, g6⟩ :=
      vid_pair_inj (by omega) (by omega) (by omega) (by omega) hra hca hrb hcb hEq
    exact hQ ⟨g1, g4, by omega, by omega, by omega, by omega, by omega, by omega⟩


/-- The occurrence count of the directed edge from `vid sa ra ca` to
`vid sb rb cb` in the mesh's directed-edge list, as a sum of 36 indicator
terms, one per edge family of the emission loops. -/
theorem ecount_vid_eq (R C : ℕ) (hR : 2 ≤ R) (hC : 2 ≤ C) (sa sb : Bool)
    (ra ca rb cb : ℕ) (hra : ra < R) (hca : ca < C) (hrb : rb < R) (hcb : cb < C) :
    ecount (vid R C sa ra ca, vid R C sb rb cb) (dedges R C)
    = (if false = sa ∧ false = sb ∧ 0 ≤ ra ∧ 0 ≤ ca ∧ ra - 0 < R - 1 ∧ ca - 0 < C - 1 ∧ ra + 1 = rb + 0 ∧ ca + 0 = cb + 0 then 1 else 0)
      + (if false = sa ∧ false = sb ∧ 1 ≤ ra ∧ 0 ≤ ca ∧ ra - 1 < R - 1 ∧ ca - 0 < C - 1 ∧ ra + 0 = rb + 1 ∧ ca + 1 = cb + 0 then 1 else 0)
      + (if false = sa ∧ false = sb ∧ 0 ≤ ra ∧ 1 ≤ ca ∧ ra - 0 < R - 1 ∧ ca - 1 < C - 1 ∧ ra + 0 = rb + 0 ∧ ca + 0 = cb + 1 then 1 else 0)
      + (if false = sa ∧ false = sb ∧ 0 ≤ ra ∧ 1 ≤ ca ∧ ra - 0 < R - 1 ∧ ca - 1 < C - 1 ∧ ra + 1 = rb + 0 ∧ ca + 0 = cb + 1 then 1 else 0)
      + (if false = sa ∧ false = sb ∧ 1 ≤ ra ∧ 0 ≤ ca ∧ ra - 1 < R - 1 ∧ ca - 0 < C - 1 ∧ ra + 1 = rb + 1 ∧ ca + 1 = cb + 0 then 1 else 0)
      + (if false = sa ∧ false = sb ∧ 1 ≤ ra ∧ 1 ≤ ca ∧ ra - 1 < R - 1 ∧ ca - 1 < C - 1 ∧ ra + 0 = rb + 1 ∧ ca + 1 = cb + 1 then 1 else 0)
      + (if true = sa ∧ true = sb ∧ 0 ≤ ra ∧ 0 ≤ ca ∧ ra - 0 < R - 1 ∧ ca - 0 < C - 1 ∧ ra + 0 = rb + 0 ∧ ca + 1 = cb + 0 then 1 else 0)
      + (if true = sa ∧ true = sb ∧ 0 ≤ ra ∧ 1 ≤ ca ∧ ra - 0 < R - 1 ∧ ca - 1 < C - 1 ∧ ra + 1 = rb + 0 ∧ ca + 0 = cb + 1 then 1 else 0)
      + (if true = sa ∧ true = sb ∧ 1 ≤ ra ∧ 0 ≤ ca ∧ ra - 1 < R - 1 ∧ ca - 0 < C - 1 ∧ ra + 0 = rb + 1 ∧ ca + 0 = cb + 0 then 1 else 0)
      + (if true = sa ∧ true = sb ∧ 0 ≤ ra ∧ 1 ≤ ca ∧ ra - 0 < R - 1 ∧ ca - 1 < C - 1 ∧ ra + 1 = rb + 0 ∧ ca + 1 = cb + 1 then 1 else 0)
      + (if true = sa ∧ true = sb ∧ 1 ≤ ra ∧ 1 ≤ ca ∧ ra - 1 < R - 1 ∧ ca - 1 < C - 1 ∧ ra + 1 = rb + 1 ∧ ca + 0 = cb + 1 then 1 else 0)
      + (if true = sa ∧ true = sb ∧ 1 ≤ ra ∧ 0 ≤ ca ∧ ra - 1 < R - 1 ∧ ca - 0 < C - 1 ∧ ra + 0 = rb + 1 ∧ ca + 1 = cb + 0 then 1 else 0)
      + (if false = sa ∧ true = sb ∧ ca = 0 ∧ cb = 0 ∧ 0 ≤ ra ∧ ra - 0 < R - 1 ∧ ra + 0 = rb + 0 then 1 else 0)
      + (if true = sa ∧ false = sb ∧ ca = 0 ∧ cb = 0 ∧ 0 ≤ ra ∧ ra - 0 < R - 1 ∧ ra + 1 = rb + 0 then 1 else 0)
      + (if false = sa ∧ false = sb ∧ ca = 0 ∧ cb = 0 ∧ 1 ≤ ra ∧ ra - 1 < R - 1 ∧ ra + 0 = rb + 1 then 1 else 0)
      + (if false = sa ∧ true = sb ∧ ca = 0 ∧ cb = 0 ∧ 1 ≤ ra ∧ ra - 1 < R - 1 ∧ ra + 0 = rb + 1 then 1 else 0)
      + (if true = sa ∧ true = sb ∧ ca = 0 ∧ cb = 0 ∧ 0 ≤ ra ∧ ra - 0 < R - 1 ∧ ra + 1 = rb + 0 then 1 else 0)
      + (if true = sa ∧ false = sb ∧ ca = 0 ∧ cb = 0 ∧ 1 ≤ ra ∧ ra - 1 < R - 1 ∧ ra + 1 = rb + 1 then 1 else 0)
      + (if false = sa ∧ false = sb ∧ ca = (C - 1) ∧ cb = (C - 1) ∧ 0 ≤ ra ∧ ra - 0 < R - 1 ∧ ra + 1 = rb + 0 then 1 else 0)
      + (if false = sa ∧ true = sb ∧ ca = (C - 1) ∧ cb = (C - 1) ∧ 1 ≤ ra ∧ ra - 1 < R - 1 ∧ ra + 0 = rb + 1 then 1 else 0)
      + (if true = sa ∧ false = sb ∧ ca = (C - 1) ∧ cb = (C - 1) ∧ 0 ≤ ra ∧ ra - 0 < R - 1 ∧ ra + 0 = rb + 0 then 1 else 0)
      + (if false = sa ∧ true = sb ∧ ca = (C - 1) ∧ cb = (C - 1) ∧ 1 ≤ ra ∧ ra - 1 < R - 1 ∧ ra + 1 = rb + 1 then 1 else 0)
      + (if true = sa ∧ true = sb ∧ ca = (C - 1) ∧ cb = (C - 1) ∧ 1 ≤ ra ∧ ra - 1 < R - 1 ∧ ra + 0 = rb + 1 then 1 else 0)
      + (if true = sa ∧ false = sb ∧ ca = (C - 1) ∧ cb = (C - 1) ∧ 0 ≤ ra ∧ ra - 0 < R - 1 ∧ ra + 1 = rb + 0 then 1 else 0)
      + (if false = sa ∧ false = sb ∧ ra = 0 ∧ rb = 0 ∧ 0 ≤ ca ∧ ca - 0 < C - 1 ∧ ca + 1 = cb + 0 then 1 else 0)
      + (if false = sa ∧ true = sb ∧ ra = 0 ∧ rb = 0 ∧ 1 ≤ ca ∧ ca - 1 < C - 1 ∧ ca + 0 = cb + 1 then 1 else 0)
      + (if true = sa ∧ false = sb ∧ ra = 0 ∧ rb = 0 ∧ 0 ≤ ca ∧ ca - 0 < C - 1 ∧ ca + 0 = cb + 0 then 1 else 0)
      + (if false = sa ∧ true = sb ∧ ra = 0 ∧ rb = 0 ∧ 1 ≤ ca ∧ ca - 1 < C - 1 ∧ ca + 1 = cb + 1 then 1 else 0)
      + (if true = sa ∧ true = sb ∧ ra = 0 ∧ rb = 0 ∧ 1 ≤ ca ∧ ca - 1 < C - 1 ∧ ca + 0 = cb + 1 then 1 else 0)
      + (if true = sa ∧ false = sb ∧ ra = 0 ∧ rb = 0 ∧ 0 ≤ ca ∧ ca - 0 < C - 1 ∧ ca + 1 = cb + 0 then 1 else 0)
      + (if false = sa ∧ true = sb ∧ ra = (R - 1) ∧ rb = (R - 1) ∧ 0 ≤ ca ∧ ca - 0 < C - 1 ∧ ca + 0 = cb + 0 then 1 else 0)
      + (if true = sa ∧ false = sb ∧ ra = (R - 1) ∧ rb = (R - 1) ∧ 0 ≤ ca ∧ ca - 0 < C - 1 ∧ ca + 1 = cb + 0 then 1 else 0)
      + (if false = sa ∧ false = sb ∧ ra = (R - 1) ∧ rb = (R - 1) ∧ 1 ≤ ca ∧ ca - 1 < C - 1 ∧ ca + 0 = cb + 1 then 1 else 0)
      + (if false = sa ∧ true = sb ∧ ra = (R - 1) ∧ rb = (R - 1) ∧ 1 ≤ ca ∧ ca - 1 < C - 1 ∧ ca + 0 = cb + 1 then 1 else 0)
      + (if true = sa ∧ true = sb ∧ ra = (R - 1) ∧ rb = (R - 1) ∧ 0 ≤ ca ∧ ca - 0 < C - 1 ∧ ca + 1 = cb + 0 then 1 else 0)
      + (if true = sa ∧ false = sb ∧ ra = (R - 1) ∧ rb = (R - 1) ∧ 1 ≤ ca ∧ ca - 1 < C - 1 ∧ ca + 1 = cb + 1 then 1 else 0) := by
  unfold dedges
  rw [faces_eq_facesN R C (by omega)]
  unfold facesN
  rw [dedgesOf_append, dedgesOf_append, ecount_append, ecount_append]
  simp only [ecount_forRange]
  simp only [dedgesOf, triEdges, List.cons_append, List.nil_append, ecount,
    List.append_nil]
  simp only [Finset.sum_add_distrib, Finset.sum_const_zero]
  rw [slot_double R C false false sa sb 0 0 1 0 ra ca rb cb (by omega) (by omega) (by omega) (by omega) hra hca hrb hcb,
    slot_double R C false false sa sb 1 0 0 1 ra ca rb cb (by omega) (by omega) (by omega) (by omega) hra hca hrb hcb,
    slot_double R C false false sa sb 0 1 0 0 ra ca rb cb (by omega) (by omega) (by omega) (by omega) hra hca hrb hcb,
    slot_double R C false false sa sb 0 1 1 0 ra ca rb cb (by omega) (by omega) (by omega) (by omega) hra hca hrb hcb,
    slot_double R C false false sa sb 1 0 1 1 ra ca rb cb (by omega) (by omega) (by omega) (by omega) hra hca hrb hcb,
    slot_double R C false false sa sb 1 1 0 1 ra ca rb cb (by omega) (by omega) (by omega) (by omega) hra hca hrb hcb,
    slot_double R C true true sa sb 0 0 0 1 ra ca rb cb (by omega) (by omega) (by omega) (by omega) hra hca hrb hcb,
    slot_double R C true true sa sb 0 1 1 0 ra ca rb cb (by omega) (by omega) (by omega) (by omega) hra hca hrb hcb,
    slot_double R C true true sa sb 1 0 0 0 ra ca rb cb (by omega) (by omega) (by omega) (by omega) hra hca hrb hcb,
    slot_double R C true true sa sb 0 1 1 1 ra ca rb cb (by omega) (by omega) (by omega) (by omega) hra hca hrb hcb,
    slot_double R C true true sa sb 1 1 1 0 ra ca rb cb (by omega) (by omega) (by omega) (by omega) hra hca hrb hcb,
    slot_double R C true true sa sb 1 0 0 1 ra ca rb cb (by omega) (by omega) (by omega) (by omega) hra hca hrb hcb,
    slot_rows R C false true sa sb 0 0 0 0 ra ca rb cb (by omega) (by omega) (by omega) (by omega) hra hca hrb hcb,
    slot_rows R C true false sa sb 0 1 0 0 ra ca rb cb (by omega) (by omega) (by omega) (by omega) hra hca hrb hcb,
    slot_rows R C false false sa sb 1 0 0 0 ra ca rb cb (by omega) (by omega) (by omega) (by omega) hra hca hrb hcb,
    slot_rows R C false true sa sb 1 0 0 0 ra ca rb cb (by omega) (by omega) (by omega) (by omega) hra hca hrb hcb,
    slot_rows R C true true sa sb 0 1 0 0 ra ca rb cb (by omega) (by omega) (by omega) (by omega) hra hca hrb hcb,
    slot_rows R C true false sa sb 1 1 0 0 ra ca rb cb (by omega) (by omega) (by omega) (by omega) hra hca hrb hcb,
    slot_rows R C false false sa sb 0 1 (C - 1) (C - 1) ra ca rb cb (by omega) (by omega) (by omega) (by omega) hra hca hrb hcb,
    slot_rows R C false true sa sb 1 0 (C - 1) (C - 1) ra ca rb cb (by omega) (by omega) (by omega) (by omega) hra hca hrb hcb,
    slot_rows R C true false sa sb 0 0 (C - 1) (C - 1) ra ca rb cb (by omega) (by omega) (by omega) (by omega) hra hca hrb hcb,
    slot_rows R C false true sa sb 1 1 (C - 1) (C - 1) ra ca rb cb (by omega) (by omega) (by omega) (by omega) hra hca hrb hcb,
    slot_rows R C true true sa sb 1 0 (C - 1) (C - 1) ra ca rb cb (by omega) (by omega) (by omega) (by omega) hra hca hrb hcb,
    slot_rows R C true false sa sb 0 1 (C - 1) (C - 1) ra ca rb cb (by omega) (by omega) (by omega) (by omega) hra hca hrb hcb,
    slot_cols R C false false sa sb 0 1 0 0 ra ca rb cb (by omega) (by omega) (by omega) (by omega) hra hca hrb hcb,
    slot_cols R C false true sa sb 1 0 0 0 ra ca rb cb (by omega) (by omega) (by omega) (by omega) hra hca hrb hcb,
    slot_cols R C true false sa sb 0 0 0 0 ra ca rb cb (by omega) (by omega) (by omega) (by omega) hra hca hrb hcb,
    slot_cols R C false true sa sb 1 1 0 0 ra ca rb cb (by omega) (by omega) (by omega) (by omega) hra hca hrb hcb,
    slot_cols R C true true sa sb 1 0 0 0 ra ca rb cb (by omega) (by omega) (by omega) (by omega) hra hca hrb hcb,
    slot_cols R C true false sa sb 0 1 0 0 ra ca rb cb (by omega) (by omega) (by omega) (by omega) hra hca hrb hcb,
    slot_cols R C false true sa sb 0 0 (R - 1) (R - 1) ra ca rb cb (by omega) (by omega) (by omega) (by omega) hra hca hrb hcb,
    slot_cols R C true false sa sb 0 1 (R - 1) (R - 1) ra ca rb cb (by omega) (by omega) (by omega) (by omega) hra hca hrb hcb,
    slot_cols R C false false sa sb 1 0 (R - 1) (R - 1) ra ca rb cb (by omega) (by omega) (by omega) (by omega) hra hca hrb hcb,
    slot_cols R C false true sa sb 1 0 (R - 1) (R - 1) ra ca rb cb (by omega) (by omega) (by omega) (by omega) hra hca hrb hcb,
    slot_cols R C true true sa sb 0 1 (R - 1) (R - 1) ra ca rb cb (by omega) (by omega) (by omega) (by omega) hra hca hrb hcb,
    slot_cols R C true false sa sb 1 1 (R - 1) (R - 1) ra ca rb cb (by omega) (by omega) (by omega) (by omega) hra hca hrb hcb]
  omega

theorem facesN_components (R C : ℕ) (hR : 2 ≤ R) (hC : 2 ≤ C) :
    ∀ t ∈ facesN R C,
      (t.1 < 2 * (R * C) ∧ t.2.1 < 2 * (R * C) ∧ t.2.2 < 2 * (R * C)) ∧
      (t.1 ≠ t.2.1 ∧ t.2.1 ≠ t.2.2 ∧ t.2.2 ≠ t.1) := by
  intro t ht
  simp only [facesN, List.mem_append, mem_forRange, List.mem_cons,
    List.not_mem_nil, or_false] at ht
  rcases ht with (⟨r, hr, c, hc, ht⟩ | ⟨r, hr, ht⟩) | ⟨c, hc, ht⟩ <;>
    rcases ht with rfl | rfl | rfl | rfl <;>
    (dsimp only
     refine ⟨⟨vid_bound _ ?_ ?_, vid_bound _ ?_ ?_, vid_bound _ ?_ ?_⟩,
        vid_ne ?_ ?_ ?_ ?_ ?_, vid_ne ?_ ?_ ?_ ?_ ?_, vid_ne ?_ ?_ ?_ ?_ ?_⟩ <;>
      first
        | omega
        | (rintro ⟨h1, h2, h3⟩
           first | exact absurd h1 (by decide) | omega))

theorem ecount_dedges_oor (R C : ℕ) (hR : 2 ≤ R) (hC : 2 ≤ C) (a b : ℕ)
    (h : 2 * (R * C) ≤ a ∨ 2 * (R * C) ≤ b) :
    ecount (a, b) (dedges R C) = 0 := by
  apply ecount_eq_zero
  intro d hd
  unfold dedges at hd
  rw [faces_eq_facesN R C (by omega), mem_dedgesOf] at hd
  obtain ⟨t, htm, hdt⟩ := hd
  have hcomp := (facesN_components R C hR hC t htm).1
  simp only [triEdges, List.mem_cons, List.not_mem_nil, or_false] at hdt
  rcases hdt with rfl | rfl | rfl <;>
    · intro heq
      rw [Prod.mk.injEq] at heq
      omega

theorem decode_lt (R C a : ℕ) (hC : 1 ≤ C) (h : a < 2 * (R * C)) :
    ∃ s r c, r < R ∧ c < C ∧ a = vid R C s r c := by
  by_cases hfront : a < R * C
  · refine ⟨false, a / C, a % C, ?_, Nat.mod_lt _ (by omega), ?_⟩
    · exact Nat.div_lt_of_lt_mul (by rw [Nat.mul_comm] at hfront; exact hfront)
    · have hdm := Nat.div_add_mod' a C
      simp only [vid, Bool.cond_false]
      omega
  · have hb : a - R * C < C * R := by
      have hcm : C * R = R * C := Nat.mul_comm C R
      omega
    refine ⟨true, (a - R * C) / C, (a - R * C) % C, ?_, Nat.mod_lt _ (by omega), ?_⟩
    · exact Nat.div_lt_of_lt_mul hb
    · have hdm := Nat.div_add_mod' (a - R * C) C
      simp only [vid, Bool.cond_true]
      omega

set_option maxHeartbeats 4000000

/-- The set of directed edges between two FF-side vertices that occur
in the mesh of `create_solid_lithophane`, as an explicit linear predicate on the
grid coordinates. -/
def ffEdge (R C ra ca rb cb : ℕ) : Prop :=
  (ra < R - 1 ∧ ca < C - 1 ∧ ra + 1 = rb ∧ ca = cb) ∨
  (1 ≤ ra ∧ ra - 1 < R - 1 ∧ ca < C - 1 ∧ ra = rb + 1 ∧ ca + 1 = cb) ∨
  (1 ≤ ca ∧ ra < R - 1 ∧ ca - 1 < C - 1 ∧ ra = rb ∧ ca = cb + 1) ∨
  (1 ≤ ca ∧ ra < R - 1 ∧ ca - 1 < C - 1 ∧ ra + 1 = rb ∧ ca = cb + 1) ∨
  (1 ≤ ra ∧ ra - 1 < R - 1 ∧ ca < C - 1 ∧ ra + 1 = rb + 1 ∧ ca + 1 = cb) ∨
  (1 ≤ ra ∧ 1 ≤ ca ∧ ra - 1 < R - 1 ∧ ca - 1 < C - 1 ∧ ra = rb + 1 ∧ ca + 1 = cb + 1) ∨
  (ca = 0 ∧ cb = 0 ∧ 1 ≤ ra ∧ ra - 1 < R - 1 ∧ ra = rb + 1) ∨
  (ca = (C - 1) ∧ cb = (C - 1) ∧ ra < R - 1 ∧ ra + 1 = rb) ∨
  (ra = 0 ∧ rb = 0 ∧ ca < C - 1 ∧ ca + 1 = cb) ∨
  (ra = (R - 1) ∧ rb = (R - 1) ∧ 1 ≤ ca ∧ ca - 1 < C - 1 ∧ ca = cb + 1)

instance ffEdgeDec (R C ra ca rb cb : ℕ) : Decidable (ffEdge R C ra ca rb cb) := by
  unfold ffEdge; infer_instance

/-- Directed-edge count between two FF-side vertices equals the
indicator of `ffEdge`. -/
theorem count_ff (R C : ℕ) (hR : 2 ≤ R) (hC : 2 ≤ C) (ra ca rb cb : ℕ)
    (hra : ra < R) (hca : ca < C) (hrb : rb < R) (hcb : cb < C) :
    ecount (vid R C false ra ca, vid R C false rb cb) (dedges R C)
    = if ffEdge R C ra ca rb cb then 1 else 0 := by
  rw [ecount_vid_eq R C hR hC false false ra ca rb cb hra hca hrb hcb]
  have z6 : (if true = false ∧ true = false ∧ 0 ≤ ra ∧ 0 ≤ ca ∧ ra - 0 < R - 1 ∧ ca - 0 < C - 1 ∧ ra + 0 = rb + 0 ∧ ca + 1 = cb + 0 then 1 else 0) = 0 :=
    if_neg (by rintro ⟨h, -⟩; exact absurd h (by decide))
  have z7 : (if true = false ∧ true = false ∧ 0 ≤ ra ∧ 1 ≤ ca ∧ ra - 0 < R - 1 ∧ ca - 1 < C - 1 ∧ ra + 1 = rb + 0 ∧ ca + 0 = cb + 1 then 1 else 0) = 0 :=
    if_neg (by rintro ⟨h, -⟩; exact absurd h (by decide))
  have z8 : (if true = false ∧ true = false ∧ 1 ≤ ra ∧ 0 ≤ ca ∧ ra - 1 < R - 1 ∧ ca - 0 < C - 1 ∧ ra + 0 = rb + 1 ∧ ca + 0 = cb + 0 then 1 else 0) = 0 :=
    if_neg (by rintro ⟨h, -⟩; exact absurd h (by decide))
  have z9 : (if true = false ∧ true = false ∧ 0 ≤ ra ∧ 1 ≤ ca ∧ ra - 0 < R - 1 ∧ ca - 1 < C - 1 ∧ ra + 1 = rb + 0 ∧ ca + 1 = cb + 1 then 1 else 0) = 0 :=
    if_neg (by rintro ⟨h, -⟩; exact absurd h (by decide))
  have z10 : (if true = false ∧ true = false ∧ 1 ≤ ra ∧ 1 ≤ ca ∧ ra - 1 < R - 1 ∧ ca - 1 < C - 1 ∧ ra + 1 = rb + 1 ∧ ca + 0 = cb + 1 then 1 else 0) = 0 :=
    if_neg (by rintro ⟨h, -⟩; exact absurd h (by decide))
  have z11 : (if true = false ∧ true = false ∧ 1 ≤ ra ∧ 0 ≤ ca ∧ ra - 1 < R - 1 ∧ ca - 0 < C - 1 ∧ ra + 0 = rb + 1 ∧ ca + 1 = cb + 0 then 1 else 0) = 0 :=
    if_neg (by rintro ⟨h, -⟩; exact absurd h (by decide))
  have z12 : (if false = false ∧ true = false ∧ ca = 0 ∧ cb = 0 ∧ 0 ≤ ra ∧ ra - 0 < R - 1 ∧ ra + 0 = rb + 0 then 1 else 0) = 0 :=
    if_neg (by rintro ⟨-, h, -⟩; exact absurd h (by decide))
  have z13 : (if true = false ∧ false = false ∧ ca = 0 ∧ cb = 0 ∧ 0 ≤ ra ∧ ra - 0 < R - 1 ∧ ra + 1 = rb + 0 then 1 else 0) = 0 :=
    if_neg (by rintro ⟨h, -⟩; exact absurd h (by decide))
  have z15 : (if false = false ∧ true = false ∧ ca = 0 ∧ cb = 0 ∧ 1 ≤ ra ∧ ra - 1 < R - 1 ∧ ra + 0 = rb + 1 then 1 else 0) = 0 :=
    if_neg (by rintro ⟨-, h, -⟩; exact absurd h (by decide))
  have z16 : (if true = false ∧ true = false ∧ ca = 0 ∧ cb = 0 ∧ 0 ≤ ra ∧ ra - 0 < R - 1 ∧ ra + 1 = rb + 0 then 1 else 0) = 0 :=
    if_neg (by rintro ⟨h, -⟩; exact absurd h (by decide))
  have z17 : (if true = false ∧ false = false ∧ ca = 0 ∧ cb = 0 ∧ 1 ≤ ra ∧ ra - 1 < R - 1 ∧ ra + 1 = rb + 1 then 1 else 0) = 0 :=
    if_neg (by rintro ⟨h, -⟩; exact absurd h (by decide))
  have z19 : (if false = false ∧ true = false ∧ ca = (C - 1) ∧ cb = (C - 1) ∧ 1 ≤ ra ∧ ra - 1 < R - 1 ∧ ra + 0 = rb + 1 then 1 else 0) = 0 :=
    if_neg (by rintro ⟨-, h, -⟩; exact absurd h (by decide))
  have z20 : (if true = false ∧ false = false ∧ ca = (C - 1) ∧ cb = (C - 1) ∧ 0 ≤ ra ∧ ra - 0 < R - 1 ∧ ra + 0 = rb + 0 then 1 else 0) = 0 :=
    if_neg (by rintro ⟨h, -⟩; exact absurd h (by decide))
  have z21 : (if false = false ∧ true = false ∧ ca = (C - 1) ∧ cb = (C - 1) ∧ 1 ≤ ra ∧ ra - 1 < R - 1 ∧ ra + 1 = rb + 1 then 1 else 0) = 0 :=
    if_neg (by rintro ⟨-, h, -⟩; exact absurd h (by decide))
  have z22 : (if true = false ∧ true = false ∧ ca = (C - 1) ∧ cb = (C - 1) ∧ 1 ≤ ra ∧ ra - 1 < R - 1 ∧ ra + 0 = rb + 1 then 1 else 0) = 0 :=
    if_neg (by rintro ⟨h, -⟩; exact absurd h (by decide))
  have z23 : (if true = false ∧ false = false ∧ ca = (C - 1) ∧ cb = (C - 1) ∧ 0 ≤ ra ∧ ra - 0 < R - 1 ∧ ra + 1 = rb + 0 then 1 else 0) = 0 :=
    if_neg (by rintro ⟨h, -⟩; exact absurd h (by decide))
  have z25 : (if false = false ∧ true = false ∧ ra = 0 ∧ rb = 0 ∧ 1 ≤ ca ∧ ca - 1 < C - 1 ∧ ca + 0 = cb + 1 then 1 else 0) = 0 :=
    if_neg (by rintro ⟨-, h, -⟩; exact absurd h (by decide))
  have z26 : (if true = false ∧ false = false ∧ ra = 0 ∧ rb = 0 ∧ 0 ≤ ca ∧ ca - 0 < C - 1 ∧ ca + 0 = cb + 0 then 1 else 0) = 0 :=
    if_neg (by rintro ⟨h, -⟩; exact absurd h (by decide))
  have z27 : (if false = false ∧ true = false ∧ ra = 0 ∧ rb = 0 ∧ 1 ≤ ca ∧ ca - 1 < C - 1 ∧ ca + 1 = cb + 1 then 1 else 0) = 0 :=
    if_neg (by rintro ⟨-, h, -⟩; exact absurd h (by decide))
  have z28 : (if true = false ∧ true = false ∧ ra = 0 ∧ rb = 0 ∧ 1 ≤ ca ∧ ca - 1 < C - 1 ∧ ca + 0 = cb + 1 then 1 else 0) = 0 :=
    if_neg (by rintro ⟨h, -⟩; exact absurd h (by decide))
  have z29 : (if true = false ∧ false = false ∧ ra = 0 ∧ rb = 0 ∧ 0 ≤ ca ∧ ca - 0 < C - 1 ∧ ca + 1 = cb + 0 then 1 else 0) = 0 :=
    if_neg (by rintro ⟨h, -⟩; exact absurd h (by decide))
  have z30 : (if false = false ∧ true = false ∧ ra = (R - 1) ∧ rb = (R - 1) ∧ 0 ≤ ca ∧ ca - 0 < C - 1 ∧ ca + 0 = cb + 0 then 1 else 0) = 0 :=
    if_neg (by rintro ⟨-, h, -⟩; exact absurd h (by decide))
  have z31 : (if true = false ∧ false = false ∧ ra = (R - 1) ∧ rb = (R - 1) ∧ 0 ≤ ca ∧ ca - 0 < C - 1 ∧ ca + 1 = cb + 0 then 1 else 0) = 0 :=
    if_neg (by rintro ⟨h, -⟩; exact absurd h (by decide))
  have z33 : (if false = false ∧ true = false ∧ ra = (R - 1) ∧ rb = (R - 1) ∧ 1 ≤ ca ∧ ca - 1 < C - 1 ∧ ca + 0 = cb + 1 then 1 else 0) = 0 :=
    if_neg (by rintro ⟨-, h, -⟩; exact absurd h (by decide))
  have z34 : (if true = false ∧ true = false ∧ ra = (R - 1) ∧ rb = (R - 1) ∧ 0 ≤ ca ∧ ca - 0 < C - 1 ∧ ca + 1 = cb + 0 then 1 else 0) = 0 :=
    if_neg (by rintro ⟨h, -⟩; exact absurd h (by decide))
  have z35 : (if true = false ∧ false = false ∧ ra = (R - 1) ∧ rb = (R - 1) ∧ 1 ≤ ca ∧ ca - 1 < C - 1 ∧ ca + 1 = cb + 1 then 1 else 0) = 0 :=
    if_neg (by rintro ⟨h, -⟩; exact absurd h (by decide))
  by_cases hs1 : rb = ra + 1 ∧ cb = ca
  · by_cases hs2 : ca < C - 1
    · have q0 : (if false = false ∧ false = false ∧ 0 ≤ ra ∧ 0 ≤ ca ∧ ra - 0 < R - 1 ∧ ca - 0 < C - 1 ∧ ra + 1 = rb + 0 ∧ ca + 0 = cb + 0 then 1 else 0) = 1 :=
        if_pos (by and_intros <;> first | rfl | omega)
      have q1 : (if false = false ∧ false = false ∧ 1 ≤ ra ∧ 0 ≤ ca ∧ ra - 1 < R - 1 ∧ ca - 0 < C - 1 ∧ ra + 0 = rb + 1 ∧ ca + 1 = cb + 0 then 1 else 0) = 0 :=
        if_neg (by rintro ⟨-, -, hq⟩; omega)
      have q2 : (if false = false ∧ false = false ∧ 0 ≤ ra ∧ 1 ≤ ca ∧ ra - 0 < R - 1 ∧ ca - 1 < C - 1 ∧ ra + 0 = rb + 0 ∧ ca + 0 = cb + 1 then 1 else 0) = 0 :=
        if_neg (by rintro ⟨-, -, hq⟩; omega)
      have q3 : (if false = false ∧ false = false ∧ 0 ≤ ra ∧ 1 ≤ ca ∧ ra - 0 < R - 1 ∧ ca - 1 < C - 1 ∧ ra + 1 = rb + 0 ∧ ca + 0 = cb + 1 then 1 else 0) = 0 :=
        if_neg (by rintro ⟨-, -, hq⟩; omega)
      have q4 : (if false = false ∧ false = false ∧ 1 ≤ ra ∧ 0 ≤ ca ∧ ra - 1 < R - 1 ∧ ca - 0 < C - 1 ∧ ra + 1 = rb + 1 ∧ ca + 1 = cb + 0 then 1 else 0) = 0 :=
        if_neg (by rintro ⟨-, -, hq⟩; omega)
      have q5 : (if false = false ∧ false = false ∧ 1 ≤ ra ∧ 1 ≤ ca ∧ ra - 1 < R - 1 ∧ ca - 1 < C - 1 ∧ ra + 0 = rb + 1 ∧ ca + 1 = cb + 1 then 1 else 0) = 0 :=
        if_neg (by rintro ⟨-, -, hq⟩; omega)
      have q14 : (if false = false ∧ false = false ∧ ca = 0 ∧ cb = 0 ∧ 1 ≤ ra ∧ ra - 1 < R - 1 ∧ ra + 0 = rb + 1 then 1 else 0) = 0 :=
        if_neg (by rintro ⟨-, -, hq⟩; omega)
      have q18 : (if false = false ∧ false = false ∧ ca = (C - 1) ∧ cb = (C - 1) ∧ 0 ≤ ra ∧ ra - 0 < R - 1 ∧ ra + 1 = rb + 0 then 1 else 0) = 0 :=
        if_neg (by rintro ⟨-, -, hq⟩; omega)
      have q24 : (if false = false ∧ false = false ∧ ra = 0 ∧ rb = 0 ∧ 0 ≤ ca ∧ ca - 0 < C - 1 ∧ ca + 1 = cb + 0 then 1 else 0) = 0 :=
        if_neg (by rintro ⟨-, -, hq⟩; omega)
      have q32 : (if false = false ∧ false = false ∧ ra = (R - 1) ∧ rb = (R - 1) ∧ 1 ≤ ca ∧ ca - 1 < C - 1 ∧ ca + 0 = cb + 1 then 1 else 0) = 0 :=
        if_neg (by rintro ⟨-, -, hq⟩; omega)
      have qe : (if ffEdge R C ra ca rb cb then 1 else 0) = 1 :=
        if_pos (by unfold ffEdge; exact Or.inl (by and_intros <;> omega))
      omega
    · have q0 : (if false = false ∧ false = false ∧ 0 ≤ ra ∧ 0 ≤ ca ∧ ra - 0 < R - 1 ∧ ca - 0 < C - 1 ∧ ra + 1 = rb + 0 ∧ ca + 0 = cb + 0 then 1 else 0) = 0 :=
        if_neg (by rintro ⟨-, -, hq⟩; omega)
      have q1 : (if false = false ∧ false = false ∧ 1 ≤ ra ∧ 0 ≤ ca ∧ ra - 1 < R - 1 ∧ ca - 0 < C - 1 ∧ ra + 0 = rb + 1 ∧ ca + 1 = cb + 0 then 1 else 0) = 0 :=
        if_neg (by rintro ⟨-, -, hq⟩; omega)
      have q2 : (if false = false ∧ false = false ∧ 0 ≤ ra ∧ 1 ≤ ca ∧ ra - 0 < R - 1 ∧ ca - 1 < C - 1 ∧ ra + 0 = rb + 0 ∧ ca + 0 = cb + 1 then 1 else 0) = 0 :=
        if_neg (by rintro ⟨-, -, hq⟩; omega)
      have q3 : (if false = false ∧ false = false ∧ 0 ≤ ra ∧ 1 ≤ ca ∧ ra - 0 < R - 1 ∧ ca - 1 < C - 1 ∧ ra + 1 = rb + 0 ∧ ca + 0 = cb + 1 then 1 else 0) = 0 :=
        if_neg (by rintro ⟨-, -, hq⟩; omega)
      have q4 : (if false = false ∧ false = false ∧ 1 ≤ ra ∧ 0 ≤ ca ∧ ra - 1 < R - 1 ∧ ca - 0 < C - 1 ∧ ra + 1 = rb + 1 ∧ ca + 1 = cb + 0 then 1 else 0) = 0 :=
        if_neg (by rintro ⟨-, -, hq⟩; omega)
      have q5 : (if false = false ∧ false = false ∧ 1 ≤ ra ∧ 1 ≤ ca ∧ ra - 1 < R - 1 ∧ ca - 1 < C - 1 ∧ ra + 0 = rb + 1 ∧ ca + 1 = cb + 1 then 1 else 0) = 0 :=
        if_neg (by rintro ⟨-, -, hq⟩; omega)
      have q14 : (if false = false ∧ false = false ∧ ca = 0 ∧ cb = 0 ∧ 1 ≤ ra ∧ ra - 1 < R - 1 ∧ ra + 0 = rb + 1 then 1 else 0) = 0 :=
        if_neg (by rintro ⟨-, -, hq⟩; omega)
      have q18 : (if false = false ∧ false = false ∧ ca = (C - 1) ∧ cb = (C - 1) ∧ 0 ≤ ra ∧ ra - 0 < R - 1 ∧ ra + 1 = rb + 0 then 1 else 0) = 1 :=
        if_pos (by and_intros <;> first | rfl | omega)
      have q24 : (if false = false ∧ false = false ∧ ra = 0 ∧ rb = 0 ∧ 0 ≤ ca ∧ ca - 0 < C - 1 ∧ ca + 1 = cb + 0 then 1 else 0) = 0 :=
        if_neg (by rintro ⟨-, -, hq⟩; omega)
      have q32 : (if false = false ∧ false = false ∧ ra = (R - 1) ∧ rb = (R - 1) ∧ 1 ≤ ca ∧ ca - 1 < C - 1 ∧ ca + 0 = cb + 1 then 1 else 0) = 0 :=
        if_neg (by rintro ⟨-, -, hq⟩; omega)
      have qe : (if ffEdge R C ra ca rb cb then 1 else 0) = 1 :=
        if_pos (by unfold ffEdge; exact Or.inr (Or.inr (Or.inr (Or.inr (Or.inr (Or.inr (Or.inr (Or.inl (by and_intros <;> omega)))))))))
      omega
  · by_cases hs3 : ra = rb + 1 ∧ ca = cb
    · by_cases hs4 : ca = 0
      · have q0 : (if false = false ∧ false = false ∧ 0 ≤ ra ∧ 0 ≤ ca ∧ ra - 0 < R - 1 ∧ ca - 0 < C - 1 ∧ ra + 1 = rb + 0 ∧ ca + 0 = cb + 0 then 1 else 0) = 0 :=
          if_neg (by rintro ⟨-, -, hq⟩; omega)
        have q1 : (if false = false ∧ false = false ∧ 1 ≤ ra ∧ 0 ≤ ca ∧ ra - 1 < R - 1 ∧ ca - 0 < C - 1 ∧ ra + 0 = rb + 1 ∧ ca + 1 = cb + 0 then 1 else 0) = 0 :=
          if_neg (by rintro ⟨-, -, hq⟩; omega)
        have q2 : (if false = false ∧ false = false ∧ 0 ≤ ra ∧ 1 ≤ ca ∧ ra - 0 < R - 1 ∧ ca - 1 < C - 1 ∧ ra + 0 = rb + 0 ∧ ca + 0 = cb + 1 then 1 else 0) = 0 :=
          if_neg (by rintro ⟨-, -, hq⟩; omega)
        have q3 : (if false = false ∧ false = false ∧ 0 ≤ ra ∧ 1 ≤ ca ∧ ra - 0 < R - 1 ∧ ca - 1 < C - 1 ∧ ra + 1 = rb + 0 ∧ ca + 0 = cb + 1 then 1 else 0) = 0 :=
          if_neg (by rintro ⟨-, -, hq⟩; omega)
        have q4 : (if false = false ∧ false = false ∧ 1 ≤ ra ∧ 0 ≤ ca ∧ ra - 1 < R - 1 ∧ ca - 0 < C - 1 ∧ ra + 1 = rb + 1 ∧ ca + 1 = cb + 0 then 1 else 0) = 0 :=
          if_neg (by rintro ⟨-, -, hq⟩; omega)
        have q5 : (if false = false ∧ false = false ∧ 1 ≤ ra ∧ 1 ≤ ca ∧ ra - 1 < R - 1 ∧ ca - 1 < C - 1 ∧ ra + 0 = rb + 1 ∧ ca + 1 = cb + 1 then 1 else 0) = 0 :=
          if_neg (by rintro ⟨-, -, hq⟩; omega)
        have q14 : (if false = false ∧ false = false ∧ ca = 0 ∧ cb = 0 ∧ 1 ≤ ra ∧ ra - 1 < R - 1 ∧ ra + 0 = rb + 1 then 1 else 0) = 1 :=
          if_pos (by and_intros <;> first | rfl | omega)
        have q18 : (if false = false ∧ false = false ∧ ca = (C - 1) ∧ cb = (C - 1) ∧ 0 ≤ ra ∧ ra - 0 < R - 1 ∧ ra + 1 = rb + 0 then 1 else 0) = 0 :=
          if_neg (by rintro ⟨-, -, hq⟩; omega)
        have q24 : (if false = false ∧ false = false ∧ ra = 0 ∧ rb = 0 ∧ 0 ≤ ca ∧ ca - 0 < C - 1 ∧ ca + 1 = cb + 0 then 1 else 0) = 0 :=
          if_neg (by rintro ⟨-, -, hq⟩; omega)
        have q32 : (if false = false ∧ false = false ∧ ra = (R - 1) ∧ rb = (R - 1) ∧ 1 ≤ ca ∧ ca - 1 < C - 1 ∧ ca + 0 = cb + 1 then 1 else 0) = 0 :=
          if_neg (by rintro ⟨-, -, hq⟩; omega)
        have qe : (if ffEdge R C ra ca rb cb then 1 else 0) = 1 :=
          if_pos (by unfold ffEdge; exact Or.inr (Or.inr (Or.inr (Or.inr (Or.inr (Or.inr (Or.inl (by and_intros <;> omega))))))))
        omega
      · have q0 : (if false = false ∧ false = false ∧ 0 ≤ ra ∧ 0 ≤ ca ∧ ra - 0 < R - 1 ∧ ca - 0 < C - 1 ∧ ra + 1 = rb + 0 ∧ ca + 0 = cb + 0 then 1 else 0) = 0 :=
          if_neg (by rintro ⟨-, -, hq⟩; omega)
        have q1 : (if false = false ∧ false = false ∧ 1 ≤ ra ∧ 0 ≤ ca ∧ ra - 1 < R - 1 ∧ ca - 0 < C - 1 ∧ ra + 0 = rb + 1 ∧ ca + 1 = cb + 0 then 1 else 0) = 0 :=
          if_neg (by rintro ⟨-, -, hq⟩; omega)
        have q2 : (if false = false ∧ false = false ∧ 0 ≤ ra ∧ 1 ≤ ca ∧ ra - 0 < R - 1 ∧ ca - 1 < C - 1 ∧ ra + 0 = rb + 0 ∧ ca + 0 = cb + 1 then 1 else 0) = 0 :=
          if_neg (by rintro ⟨-, -, hq⟩; omega)
        have q3 : (if false = false ∧ false = false ∧ 0 ≤ ra ∧ 1 ≤ ca ∧ ra - 0 < R - 1 ∧ ca - 1 < C - 1 ∧ ra + 1 = rb + 0 ∧ ca + 0 = cb + 1 then 1 else 0) = 0 :=
          if_neg (by rintro ⟨-, -, hq⟩; omega)
        have q4 : (if false = false ∧ false = false ∧ 1 ≤ ra ∧ 0 ≤ ca ∧ ra - 1 < R - 1 ∧ ca - 0 < C - 1 ∧ ra + 1 = rb + 1 ∧ ca + 1 = cb + 0 then 1 else 0) = 0 :=
          if_neg (by rintro ⟨-, -, hq⟩; omega)
        have q5 : (if false = false ∧ false = false ∧ 1 ≤ ra ∧ 1 ≤ ca ∧ ra - 1 < R - 1 ∧ ca - 1 < C - 1 ∧ ra + 0 = rb + 1 ∧ ca + 1 = cb + 1 then 1 else 0) = 1 :=
          if_pos (by and_intros <;> first | rfl | omega)
        have q14 : (if false = false ∧ false = false ∧ ca = 0 ∧ cb = 0 ∧ 1 ≤ ra ∧ ra - 1 < R - 1 ∧ ra + 0 = rb + 1 then 1 else 0) = 0 :=
          if_neg (by rintro ⟨-, -, hq⟩; omega)
        have q18 : (if false = false ∧ false = false ∧ ca = (C - 1) ∧ cb = (C - 1) ∧ 0 ≤ ra ∧ ra - 0 < R - 1 ∧ ra + 1 = rb + 0 then 1 else 0) = 0 :=
          if_neg (by rintro ⟨-, -, hq⟩; omega)
        have q24 : (if false = false ∧ false = false ∧ ra = 0 ∧ rb = 0 ∧ 0 ≤ ca ∧ ca - 0 < C - 1 ∧ ca + 1 = cb + 0 then 1 else 0) = 0 :=
          if_neg (by rintro ⟨-, -, hq⟩; omega)
        have q32 : (if false = false ∧ false = false ∧ ra = (R - 1) ∧ rb = (R - 1) ∧ 1 ≤ ca ∧ ca - 1 < C - 1 ∧ ca + 0 = cb + 1 then 1 else 0) = 0 :=
          if_neg (by rintro ⟨-, -, hq⟩; omega)
        have qe : (if ffEdge R C ra ca rb cb then 1 else 0) = 1 :=
          if_pos (by unfold ffEdge; exact Or.inr (Or.inr (Or.inr (Or.inr (Or.inr (Or.inl (by and_intros <;> omega)))))))
        omega
    · by_cases hs5 : ra = rb ∧ cb = ca + 1
      · by_cases hs6 : ra = 0
        · have q0 : (if false = false ∧ false = false ∧ 0 ≤ ra ∧ 0 ≤ ca ∧ ra - 0 < R - 1 ∧ ca - 0 < C - 1 ∧ ra + 1 = rb + 0 ∧ ca + 0 = cb + 0 then 1 else 0) = 0 :=
            if_neg (by rintro ⟨-, -, hq⟩; omega)
          have q1 : (if false = false ∧ false = false ∧ 1 ≤ ra ∧ 0 ≤ ca ∧ ra - 1 < R - 1 ∧ ca - 0 < C - 1 ∧ ra + 0 = rb + 1 ∧ ca + 1 = cb + 0 then 1 else 0) = 0 :=
            if_neg (by rintro ⟨-, -, hq⟩; omega)
          have q2 : (if false = false ∧ false = false ∧ 0 ≤ ra ∧ 1 ≤ ca ∧ ra - 0 < R - 1 ∧ ca - 1 < C - 1 ∧ ra + 0 = rb + 0 ∧ ca + 0 = cb + 1 then 1 else 0) = 0 :=
            if_neg (by rintro ⟨-, -, hq⟩; omega)
          have q3 : (if false = false ∧ false = false ∧ 0 ≤ ra ∧ 1 ≤ ca ∧ ra - 0 < R - 1 ∧ ca - 1 < C - 1 ∧ ra + 1 = rb + 0 ∧ ca + 0 = cb + 1 then 1 else 0) = 0 :=
            if_neg (by rintro ⟨-, -, hq⟩; omega)
          have q4 : (if false = false ∧ false = false ∧ 1 ≤ ra ∧ 0 ≤ ca ∧ ra - 1 < R - 1 ∧ ca - 0 < C - 1 ∧ ra + 1 = rb + 1 ∧ ca + 1 = cb + 0 then 1 else 0) = 0 :=
            if_neg (by rintro ⟨-, -, hq⟩; omega)
          have q5 : (if false = false ∧ false = false ∧ 1 ≤ ra ∧ 1 ≤ ca ∧ ra - 1 < R - 1 ∧ ca - 1 < C - 1 ∧ ra + 0 = rb + 1 ∧ ca + 1 = cb + 1 then 1 else 0) = 0 :=
            if_neg (by rintro ⟨-, -, hq⟩; omega)
          have q14 : (if false = false ∧ false = false ∧ ca = 0 ∧ cb = 0 ∧ 1 ≤ ra ∧ ra - 1 < R - 1 ∧ ra + 0 = rb + 1 then 1 else 0) = 0 :=
            if_neg (by rintro ⟨-, -, hq⟩; omega)
          have q18 : (if false = false ∧ false = false ∧ ca = (C - 1) ∧ cb = (C - 1) ∧ 0 ≤ ra ∧ ra - 0 < R - 1 ∧ ra + 1 = rb + 0 then 1 else 0) = 0 :=
            if_neg (by rintro ⟨-, -, hq⟩; omega)
          have q24 : (if false = false ∧ false = false ∧ ra = 0 ∧ rb = 0 ∧ 0 ≤ ca ∧ ca - 0 < C - 1 ∧ ca + 1 = cb + 0 then 1 else 0) = 1 :=
            if_pos (by and_intros <;> first | rfl | omega)
          have q32 : (if false = false ∧ false = false ∧ ra = (R - 1) ∧ rb = (R - 1) ∧ 1 ≤ ca ∧ ca - 1 < C - 1 ∧ ca + 0 = cb + 1 then 1 else 0) = 0 :=
            if_neg (by rintro ⟨-, -, hq⟩; omega)
          have qe : (if ffEdge R C ra ca rb cb then 1 else 0) = 1 :=
            if_pos (by unfold ffEdge; exact Or.inr (Or.inr (Or.inr (Or.inr (Or.inr (Or.inr (Or.inr (Or.inr (Or.inl (by and_intros <;> omega))))))))))
          omega
        · have q0 : (if false = false ∧ false = false ∧ 0 ≤ ra ∧ 0 ≤ ca ∧ ra - 0 < R - 1 ∧ ca - 0 < C - 1 ∧ ra + 1 = rb + 0 ∧ ca + 0 = cb + 0 then 1 else 0) = 0 :=
            if_neg (by rintro ⟨-, -, hq⟩; omega)
          have q1 : (if false = false ∧ false = false ∧ 1 ≤ ra ∧ 0 ≤ ca ∧ ra - 1 < R - 1 ∧ ca - 0 < C - 1 ∧ ra + 0 = rb + 1 ∧ ca + 1 = cb + 0 then 1 else 0) = 0 :=
            if_neg (by rintro ⟨-, -, hq⟩; omega)
          have q2 : (if false = false ∧ false = false ∧ 0 ≤ ra ∧ 1 ≤ ca ∧ ra - 0 < R - 1 ∧ ca - 1 < C - 1 ∧ ra + 0 = rb + 0 ∧ ca + 0 = cb + 1 then 1 else 0) = 0 :=
            if_neg (by rintro ⟨-, -, hq⟩; omega)
          have q3 : (if false = false ∧ false = false ∧ 0 ≤ ra ∧ 1 ≤ ca ∧ ra - 0 < R - 1 ∧ ca - 1 < C - 1 ∧ ra + 1 = rb + 0 ∧ ca + 0 = cb + 1 then 1 else 0) = 0 :=
            if_neg (by rintro ⟨-, -, hq⟩; omega)
          have q4 : (if false = false ∧ false = false ∧ 1 ≤ ra ∧ 0 ≤ ca ∧ ra - 1 < R - 1 ∧ ca - 0 < C - 1 ∧ ra + 1 = rb + 1 ∧ ca + 1 = cb + 0 then 1 else 0) = 1 :=
            if_pos (by and_intros <;> first | rfl | omega)
          have q5 : (if false = false ∧ false = false ∧ 1 ≤ ra ∧ 1 ≤ ca ∧ ra - 1 < R - 1 ∧ ca - 1 < C - 1 ∧ ra + 0 = rb + 1 ∧ ca + 1 = cb + 1 then 1 else 0) = 0 :=
            if_neg (by rintro ⟨-, -, hq⟩; omega)
          have q14 : (if false = false ∧ false = false ∧ ca = 0 ∧ cb = 0 ∧ 1 ≤ ra ∧ ra - 1 < R - 1 ∧ ra + 0 = rb + 1 then 1 else 0) = 0 :=
            if_neg (by rintro ⟨-, -, hq⟩; omega)
          have q18 : (if false = false ∧ false = false ∧ ca = (C - 1) ∧ cb = (C - 1) ∧ 0 ≤ ra ∧ ra - 0 < R - 1 ∧ ra + 1 = rb + 0 then 1 else 0) = 0 :=
            if_neg (by rintro ⟨-, -, hq⟩; omega)
          have q24 : (if false = false ∧ false = false ∧ ra = 0 ∧ rb = 0 ∧ 0 ≤ ca ∧ ca - 0 < C - 1 ∧ ca + 1 = cb + 0 then 1 else 0) = 0 :=
            if_neg (by rintro ⟨-, -, hq⟩; omega)
          have q32 : (if false = false ∧ false = false ∧ ra = (R - 1) ∧ rb = (R - 1) ∧ 1 ≤ ca ∧ ca - 1 < C - 1 ∧ ca + 0 = cb + 1 then 1 else 0) = 0 :=
            if_neg (by rintro ⟨-, -, hq⟩; omega)
          have qe : (if ffEdge R C ra ca rb cb then 1 else 0) = 1 :=
            if_pos (by unfold ffEdge; exact Or.inr (Or.inr (Or.inr (Or.inr (Or.inl (by and_intros <;> omega))))))
          omega
      · by_cases hs7 : ra = rb ∧ ca = cb + 1
        · by_cases hs8 : ra < R - 1
          · have q0 : (if false = false ∧ false = false ∧ 0 ≤ ra ∧ 0 ≤ ca ∧ ra - 0 < R - 1 ∧ ca - 0 < C - 1 ∧ ra + 1 = rb + 0 ∧ ca + 0 = cb + 0 then 1 else 0) = 0 :=
              if_neg (by rintro ⟨-, -, hq⟩; omega)
            have q1 : (if false = false ∧ false = false ∧ 1 ≤ ra ∧ 0 ≤ ca ∧ ra - 1 < R - 1 ∧ ca - 0 < C - 1 ∧ ra + 0 = rb + 1 ∧ ca + 1 = cb + 0 then 1 else 0) = 0 :=
              if_neg (by rintro ⟨-, -, hq⟩; omega)
            have q2 : (if false = false ∧ false = false ∧ 0 ≤ ra ∧ 1 ≤ ca ∧ ra - 0 < R - 1 ∧ ca - 1 < C - 1 ∧ ra + 0 = rb + 0 ∧ ca + 0 = cb + 1 then 1 else 0) = 1 :=
              if_pos (by and_intros <;> first | rfl | omega)
            have q3 : (if false = false ∧ false = false ∧ 0 ≤ ra ∧ 1 ≤ ca ∧ ra - 0 < R - 1 ∧ ca - 1 < C - 1 ∧ ra + 1 = rb + 0 ∧ ca + 0 = cb + 1 then 1 else 0) = 0 :=
              if_neg (by rintro ⟨-, -, hq⟩; omega)
            have q4 : (if false = false ∧ false = false ∧ 1 ≤ ra ∧ 0 ≤ ca ∧ ra - 1 < R - 1 ∧ ca - 0 < C - 1 ∧ ra + 1 = rb + 1 ∧ ca + 1 = cb + 0 then 1 else 0) = 0 :=
              if_neg (by rintro ⟨-, -, hq⟩; omega)
            have q5 : (if false = false ∧ false = false ∧ 1 ≤ ra ∧ 1 ≤ ca ∧ ra - 1 < R - 1 ∧ ca - 1 < C - 1 ∧ ra + 0 = rb + 1 ∧ ca + 1 = cb + 1 then 1 else 0) = 0 :=
              if_neg (by rintro ⟨-, -, hq⟩; omega)
            have q14 : (if false = false ∧ false = false ∧ ca = 0 ∧ cb = 0 ∧ 1 ≤ ra ∧ ra - 1 < R - 1 ∧ ra + 0 = rb + 1 then 1 else 0) = 0 :=
              if_neg (by rintro ⟨-, -, hq⟩; omega)
            have q18 : (if false = false ∧ false = false ∧ ca = (C - 1) ∧ cb = (C - 1) ∧ 0 ≤ ra ∧ ra - 0 < R - 1 ∧ ra + 1 = rb + 0 then 1 else 0) = 0 :=
              if_neg (by rintro ⟨-, -, hq⟩; omega)
            have q24 : (if false = false ∧ false = false ∧ ra = 0 ∧ rb = 0 ∧ 0 ≤ ca ∧ ca - 0 < C - 1 ∧ ca + 1 = cb + 0 then 1 else 0) = 0 :=
              if_neg (by rintro ⟨-, -, hq⟩; omega)
            have q32 : (if false = false ∧ false = false ∧ ra = (R - 1) ∧ rb = (R - 1) ∧ 1 ≤ ca ∧ ca - 1 < C - 1 ∧ ca + 0 = cb + 1 then 1 else 0) = 0 :=
              if_neg (by rintro ⟨-, -, hq⟩; omega)
            have qe : (if ffEdge R C ra ca rb cb then 1 else 0) = 1 :=
              if_pos (by unfold ffEdge; exact Or.inr (Or.inr (Or.inl (by and_intros <;> omega))))
            omega
          · have q0 : (if false = false ∧ false = false ∧ 0 ≤ ra ∧ 0 ≤ ca ∧ ra - 0 < R - 1 ∧ ca - 0 < C - 1 ∧ ra + 1 = rb + 0 ∧ ca + 0 = cb + 0 then 1 else 0) = 0 :=
              if_neg (by rintro ⟨-, -, hq⟩; omega)
            have q1 : (if false = false ∧ false = false ∧ 1 ≤ ra ∧ 0 ≤ ca ∧ ra - 1 < R - 1 ∧ ca - 0 < C - 1 ∧ ra + 0 = rb + 1 ∧ ca + 1 = cb + 0 then 1 else 0) = 0 :=
              if_neg (by rintro ⟨-, -, hq⟩; omega)
            have q2 : (if false = false ∧ false = false ∧ 0 ≤ ra ∧ 1 ≤ ca ∧ ra - 0 < R - 1 ∧ ca - 1 < C - 1 ∧ ra + 0 = rb + 0 ∧ ca + 0 = cb + 1 then 1 else 0) = 0 :=
              if_neg (by rintro ⟨-, -, hq⟩; omega)
            have q3 : (if false = false ∧ false = false ∧ 0 ≤ ra ∧ 1 ≤ ca ∧ ra - 0 < R - 1 ∧ ca - 1 < C - 1 ∧ ra + 1 = rb + 0 ∧ ca + 0 = cb + 1 then 1 else 0) = 0 :=
              if_neg (by rintro ⟨-, -, hq⟩; omega)
            have q4 : (if false = false ∧ false = false ∧ 1 ≤ ra ∧ 0 ≤ ca ∧ ra - 1 < R - 1 ∧ ca - 0 < C - 1 ∧ ra + 1 = rb + 1 ∧ ca + 1 = cb + 0 then 1 else 0) = 0 :=
              if_neg (by rintro ⟨-, -, hq⟩; omega)
            have q5 : (if false = false ∧ false = false ∧ 1 ≤ ra ∧ 1 ≤ ca ∧ ra - 1 < R - 1 ∧ ca - 1 < C - 1 ∧ ra + 0 = rb + 1 ∧ ca + 1 = cb + 1 then 1 else 0) = 0 :=
              if_neg (by rintro ⟨-, -, hq⟩; omega)
            have q14 : (if false = false ∧ false = false ∧ ca = 0 ∧ cb = 0 ∧ 1 ≤ ra ∧ ra - 1 < R - 1 ∧ ra + 0 = rb + 1 then 1 else 0) = 0 :=
              if_neg (by rintro ⟨-, -, hq⟩; omega)
            have q18 : (if false = false ∧ false = false ∧ ca = (C - 1) ∧ cb = (C - 1) ∧ 0 ≤ ra ∧ ra - 0 < R - 1 ∧ ra + 1 = rb + 0 then 1 else 0) = 0 :=
              if_neg (by rintro ⟨-, -, hq⟩; omega)
            have q24 : (if false = false ∧ false = false ∧ ra = 0 ∧ rb = 0 ∧ 0 ≤ ca ∧ ca - 0 < C - 1 ∧ ca + 1 = cb + 0 then 1 else 0) = 0 :=
              if_neg (by rintro ⟨-, -, hq⟩; omega)
            have q32 : (if false = false ∧ false = false ∧ ra = (R - 1) ∧ rb = (R - 1) ∧ 1 ≤ ca ∧ ca - 1 < C - 1 ∧ ca + 0 = cb + 1 then 1 else 0) = 1 :=
              if_pos (by and_intros <;> first | rfl | omega)
            have qe : (if ffEdge R C ra ca rb cb then 1 else 0) = 1 :=
              if_pos (by unfold ffEdge; exact Or.inr (Or.inr (Or.inr (Or.inr (Or.inr (Or.inr (Or.inr (Or.inr (Or.inr ((by and_intros <;> omega)))))))))))
            omega
        · by_cases hs9 : rb = ra + 1 ∧ ca = cb + 1
          · have q0 : (if false = false ∧ false = false ∧ 0 ≤ ra ∧ 0 ≤ ca ∧ ra - 0 < R - 1 ∧ ca - 0 < C - 1 ∧ ra + 1 = rb + 0 ∧ ca + 0 = cb + 0 then 1 else 0) = 0 :=
              if_neg (by rintro ⟨-, -, hq⟩; omega)
            have q1 : (if false = false ∧ false = false ∧ 1 ≤ ra ∧ 0 ≤ ca ∧ ra - 1 < R - 1 ∧ ca - 0 < C - 1 ∧ ra + 0 = rb + 1 ∧ ca + 1 = cb + 0 then 1 else 0) = 0 :=
              if_neg (by rintro ⟨-, -, hq⟩; omega)
            have q2 : (if false = false ∧ false = false ∧ 0 ≤ ra ∧ 1 ≤ ca ∧ ra - 0 < R - 1 ∧ ca - 1 < C - 1 ∧ ra + 0 = rb + 0 ∧ ca + 0 = cb + 1 then 1 else 0) = 0 :=
              if_neg (by rintro ⟨-, -, hq⟩; omega)
            have q3 : (if false = false ∧ false = false ∧ 0 ≤ ra ∧ 1 ≤ ca ∧ ra - 0 < R - 1 ∧ ca - 1 < C - 1 ∧ ra + 1 = rb + 0 ∧ ca + 0 = cb + 1 then 1 else 0) = 1 :=
              if_pos (by and_intros <;> first | rfl | omega)
            have q4 : (if false = false ∧ false = false ∧ 1 ≤ ra ∧ 0 ≤ ca ∧ ra - 1 < R - 1 ∧ ca - 0 < C - 1 ∧ ra + 1 = rb + 1 ∧ ca + 1 = cb + 0 then 1 else 0) = 0 :=
              if_neg (by rintro ⟨-, -, hq⟩; omega)
            have q5 : (if false = false ∧ false = false ∧ 1 ≤ ra ∧ 1 ≤ ca ∧ ra - 1 < R - 1 ∧ ca - 1 < C - 1 ∧ ra + 0 = rb + 1 ∧ ca + 1 = cb + 1 then 1 else 0) = 0 :=
              if_neg (by rintro ⟨-, -, hq⟩; omega)
            have q14 : (if false = false ∧ false = false ∧ ca = 0 ∧ cb = 0 ∧ 1 ≤ ra ∧ ra - 1 < R - 1 ∧ ra + 0 = rb + 1 then 1 else 0) = 0 :=
              if_neg (by rintro ⟨-, -, hq⟩; omega)
            have q18 : (if false = false ∧ false = false ∧ ca = (C - 1) ∧ cb = (C - 1) ∧ 0 ≤ ra ∧ ra - 0 < R - 1 ∧ ra + 1 = rb + 0 then 1 else 0) = 0 :=
              if_neg (by rintro ⟨-, -, hq⟩; omega)
            have q24 : (if false = false ∧ false = false ∧ ra = 0 ∧ rb = 0 ∧ 0 ≤ ca ∧ ca - 0 < C - 1 ∧ ca + 1 = cb + 0 then 1 else 0) = 0 :=
              if_neg (by rintro ⟨-, -, hq⟩; omega)
            have q32 : (if false = false ∧ false = false ∧ ra = (R - 1) ∧ rb = (R - 1) ∧ 1 ≤ ca ∧ ca - 1 < C - 1 ∧ ca + 0 = cb + 1 then 1 else 0) = 0 :=
              if_neg (by rintro ⟨-, -, hq⟩; omega)
            have qe : (if ffEdge R C ra ca rb cb then 1 else 0) = 1 :=
              if_pos (by unfold ffEdge; exact Or.inr (Or.inr (Or.inr (Or.inl (by and_intros <;> omega)))))
            omega
          · by_cases hs10 : ra = rb + 1 ∧ cb = ca + 1
            · have q0 : (if false = false ∧ false = false ∧ 0 ≤ ra ∧ 0 ≤ ca ∧ ra - 0 < R - 1 ∧ ca - 0 < C - 1 ∧ ra + 1 = rb + 0 ∧ ca + 0 = cb + 0 then 1 else 0) = 0 :=
                if_neg (by rintro ⟨-, -, hq⟩; omega)
              have q1 : (if false = false ∧ false = false ∧ 1 ≤ ra ∧ 0 ≤ ca ∧ ra - 1 < R - 1 ∧ ca - 0 < C - 1 ∧ ra + 0 = rb + 1 ∧ ca + 1 = cb + 0 then 1 else 0) = 1 :=
                if_pos (by and_intros <;> first | rfl | omega)
              have q2 : (if false = false ∧ false = false ∧ 0 ≤ ra ∧ 1 ≤ ca ∧ ra - 0 < R - 1 ∧ ca - 1 < C - 1 ∧ ra + 0 = rb + 0 ∧ ca + 0 = cb + 1 then 1 else 0) = 0 :=
                if_neg (by rintro ⟨-, -, hq⟩; omega)
              have q3 : (if false = false ∧ false = false ∧ 0 ≤ ra ∧ 1 ≤ ca ∧ ra - 0 < R - 1 ∧ ca - 1 < C - 1 ∧ ra + 1 = rb + 0 ∧ ca + 0 = cb + 1 then 1 else 0) = 0 :=
                if_neg (by rintro ⟨-, -, hq⟩; omega)
              have q4 : (if false = false ∧ false = false ∧ 1 ≤ ra ∧ 0 ≤ ca ∧ ra - 1 < R - 1 ∧ ca - 0 < C - 1 ∧ ra + 1 = rb + 1 ∧ ca + 1 = cb + 0 then 1 else 0) = 0 :=
                if_neg (by rintro ⟨-, -, hq⟩; omega)
              have q5 : (if false = false ∧ false = false ∧ 1 ≤ ra ∧ 1 ≤ ca ∧ ra - 1 < R - 1 ∧ ca - 1 < C - 1 ∧ ra + 0 = rb + 1 ∧ ca + 1 = cb + 1 then 1 else 0) = 0 :=
                if_neg (by rintro ⟨-, -, hq⟩; omega)
              have q14 : (if false = false ∧ false = false ∧ ca = 0 ∧ cb = 0 ∧ 1 ≤ ra ∧ ra - 1 < R - 1 ∧ ra + 0 = rb + 1 then 1 else 0) = 0 :=
                if_neg (by rintro ⟨-, -, hq⟩; omega)
              have q18 : (if false = false ∧ false = false ∧ ca = (C - 1) ∧ cb = (C - 1) ∧ 0 ≤ ra ∧ ra - 0 < R - 1 ∧ ra + 1 = rb + 0 then 1 else 0) = 0 :=
                if_neg (by rintro ⟨-, -, hq⟩; omega)
              have q24 : (if false = false ∧ false = false ∧ ra = 0 ∧ rb = 0 ∧ 0 ≤ ca ∧ ca - 0 < C - 1 ∧ ca + 1 = cb + 0 then 1 else 0) = 0 :=
                if_neg (by rintro ⟨-, -, hq⟩; omega)
              have q32 : (if false = false ∧ false = false ∧ ra = (R - 1) ∧ rb = (R - 1) ∧ 1 ≤ ca ∧ ca - 1 < C - 1 ∧ ca + 0 = cb + 1 then 1 else 0) = 0 :=
                if_neg (by rintro ⟨-, -, hq⟩; omega)
              have qe : (if ffEdge R C ra ca rb cb then 1 else 0) = 1 :=
                if_pos (by unfold ffEdge; exact Or.inr (Or.inl (by and_intros <;> omega)))
              omega
            · have q0 : (if false = false ∧ false = false ∧ 0 ≤ ra ∧ 0 ≤ ca ∧ ra - 0 < R - 1 ∧ ca - 0 < C - 1 ∧ ra + 1 = rb + 0 ∧ ca + 0 = cb + 0 then 1 else 0) = 0 :=
                if_neg (by rintro ⟨-, -, hq⟩; omega)
              have q1 : (if false = false ∧ false = false ∧ 1 ≤ ra ∧ 0 ≤ ca ∧ ra - 1 < R - 1 ∧ ca - 0 < C - 1 ∧ ra + 0 = rb + 1 ∧ ca + 1 = cb + 0 then 1 else 0) = 0 :=
                if_neg (by rintro ⟨-, -, hq⟩; omega)
              have q2 : (if false = false ∧ false = false ∧ 0 ≤ ra ∧ 1 ≤ ca ∧ ra - 0 < R - 1 ∧ ca - 1 < C - 1 ∧ ra + 0 = rb + 0 ∧ ca + 0 = cb + 1 then 1 else 0) = 0 :=
                if_neg (by rintro ⟨-, -, hq⟩; omega)
              have q3 : (if false = false ∧ false = false ∧ 0 ≤ ra ∧ 1 ≤ ca ∧ ra - 0 < R - 1 ∧ ca - 1 < C - 1 ∧ ra + 1 = rb + 0 ∧ ca + 0 = cb + 1 then 1 else 0) = 0 :=
                if_neg (by rintro ⟨-, -, hq⟩; omega)
              have q4 : (if false = false ∧ false = false ∧ 1 ≤ ra ∧ 0 ≤ ca ∧ ra - 1 < R - 1 ∧ ca - 0 < C - 1 ∧ ra + 1 = rb + 1 ∧ ca + 1 = cb + 0 then 1 else 0) = 0 :=
                if_neg (by rintro ⟨-, -, hq⟩; omega)
              have q5 : (if false = false ∧ false = false ∧ 1 ≤ ra ∧ 1 ≤ ca ∧ ra - 1 < R - 1 ∧ ca - 1 < C - 1 ∧ ra + 0 = rb + 1 ∧ ca + 1 = cb + 1 then 1 else 0) = 0 :=
                if_neg (by rintro ⟨-, -, hq⟩; omega)
              have q14 : (if false = false ∧ false = false ∧ ca = 0 ∧ cb = 0 ∧ 1 ≤ ra ∧ ra - 1 < R - 1 ∧ ra + 0 = rb + 1 then 1 else 0) = 0 :=
                if_neg (by rintro ⟨-, -, hq⟩; omega)
              have q18 : (if false = false ∧ false = false ∧ ca = (C - 1) ∧ cb = (C - 1) ∧ 0 ≤ ra ∧ ra - 0 < R - 1 ∧ ra + 1 = rb + 0 then 1 else 0) = 0 :=
                if_neg (by rintro ⟨-, -, hq⟩; omega)
              have q24 : (if false = false ∧ false = false ∧ ra = 0 ∧ rb = 0 ∧ 0 ≤ ca ∧ ca - 0 < C - 1 ∧ ca + 1 = cb + 0 then 1 else 0) = 0 :=
                if_neg (by rintro ⟨-, -, hq⟩; omega)
              have q32 : (if false = false ∧ false = false ∧ ra = (R - 1) ∧ rb = (R - 1) ∧ 1 ≤ ca ∧ ca - 1 < C - 1 ∧ ca + 0 = cb + 1 then 1 else 0) = 0 :=
                if_neg (by rintro ⟨-, -, hq⟩; omega)
              have qe : (if ffEdge R C ra ca rb cb then 1 else 0) = 0 :=
                if_neg (by unfold ffEdge; omega)
              omega

/-- The set of directed edges between two FB-side vertices that occur
in the mesh of `create_solid_lithophane`, as an explicit linear predicate on the
grid coordinates. -/
def fbEdge (R C ra ca rb cb : ℕ) : Prop :=
  (ca = 0 ∧ cb = 0 ∧ ra < R - 1 ∧ ra = rb) ∨
  (ca = 0 ∧ cb = 0 ∧ 1 ≤ ra ∧ ra - 1 < R - 1 ∧ ra = rb + 1) ∨
  (ca = (C - 1) ∧ cb = (C - 1) ∧ 1 ≤ ra ∧ ra - 1 < R - 1 ∧ ra = rb + 1) ∨
  (ca = (C - 1) ∧ cb = (C - 1) ∧ 1 ≤ ra ∧ ra - 1 < R - 1 ∧ ra + 1 = rb + 1) ∨
  (ra = 0 ∧ rb = 0 ∧ 1 ≤ ca ∧ ca - 1 < C - 1 ∧ ca = cb + 1) ∨
  (ra = 0 ∧ rb = 0 ∧ 1 ≤ ca ∧ ca - 1 < C - 1 ∧ ca + 1 = cb + 1) ∨
  (ra = (R - 1) ∧ rb = (R - 1) ∧ ca < C - 1 ∧ ca = cb) ∨
  (ra = (R - 1) ∧ rb = (R - 1) ∧ 1 ≤ ca ∧ ca - 1 < C - 1 ∧ ca = cb + 1)

instance fbEdgeDec (R C ra ca rb cb : ℕ) : Decidable (fbEdge R C ra ca rb cb) := by
  unfold fbEdge; infer_instance

/-- Directed-edge count between two FB-side vertices equals the
indicator of `fbEdge`. -/
theorem count_fb (R C : ℕ) (hR : 2 ≤ R) (hC : 2 ≤ C) (ra ca rb cb : ℕ)
    (hra : ra < R) (hca : ca < C) (hrb : rb < R) (hcb : cb < C) :
    ecount (vid R C false ra ca, vid R C true rb cb) (dedges R C)
    = if fbEdge R C ra ca rb cb then 1 else 0 := by
  rw [ecount_vid_eq R C hR hC false true ra ca rb cb hra hca hrb hcb]
  have z0 : (if false = false ∧ false = true ∧ 0 ≤ ra ∧ 0 ≤ ca ∧ ra - 0 < R - 1 ∧ ca - 0 < C - 1 ∧ ra + 1 = rb + 0 ∧ ca + 0 = cb + 0 then 1 else 0) = 0 :=
    if_neg (by rintro ⟨-, h, -⟩; exact absurd h (by decide))
  have z1 : (if false = false ∧ false = true ∧ 1 ≤ ra ∧ 0 ≤ ca ∧ ra - 1 < R - 1 ∧ ca - 0 < C - 1 ∧ ra + 0 = rb + 1 ∧ ca + 1 = cb + 0 then 1 else 0) = 0 :=
    if_neg (by rintro ⟨-, h, -⟩; exact absurd h (by decide))
  have z2 : (if false = false ∧ false = true ∧ 0 ≤ ra ∧ 1 ≤ ca ∧ ra - 0 < R - 1 ∧ ca - 1 < C - 1 ∧ ra + 0 = rb + 0 ∧ ca + 0 = cb + 1 then 1 else 0) = 0 :=
    if_neg (by rintro ⟨-, h, -⟩; exact absurd h (by decide))
  have z3 : (if false = false ∧ false = true ∧ 0 ≤ ra ∧ 1 ≤ ca ∧ ra - 0 < R - 1 ∧ ca - 1 < C - 1 ∧ ra + 1 = rb + 0 ∧ ca + 0 = cb + 1 then 1 else 0) = 0 :=
    if_neg (by rintro ⟨-, h, -⟩; exact absurd h (by decide))
  have z4 : (if false = false ∧ false = true ∧ 1 ≤ ra ∧ 0 ≤ ca ∧ ra - 1 < R - 1 ∧ ca - 0 < C - 1 ∧ ra + 1 = rb + 1 ∧ ca + 1 = cb + 0 then 1 else 0) = 0 :=
    if_neg (by rintro ⟨-, h, -⟩; exact absurd h (by decide))
  have z5 : (if false = false ∧ false = true ∧ 1 ≤ ra ∧ 1 ≤ ca ∧ ra - 1 < R - 1 ∧ ca - 1 < C - 1 ∧ ra + 0 = rb + 1 ∧ ca + 1 = cb + 1 then 1 else 0) = 0 :=
    if_neg (by rintro ⟨-, h, -⟩; exact absurd h (by decide))
  have z6 : (if true = false ∧ true = true ∧ 0 ≤ ra ∧ 0 ≤ ca ∧ ra - 0 < R - 1 ∧ ca - 0 < C - 1 ∧ ra + 0 = rb + 0 ∧ ca + 1 = cb + 0 then 1 else 0) = 0 :=
    if_neg (by rintro ⟨h, -⟩; exact absurd h (by decide))
  have z7 : (if true = false ∧ true = true ∧ 0 ≤ ra ∧ 1 ≤ ca ∧ ra - 0 < R - 1 ∧ ca - 1 < C - 1 ∧ ra + 1 = rb + 0 ∧ ca + 0 = cb + 1 then 1 else 0) = 0 :=
    if_neg (by rintro ⟨h, -⟩; exact absurd h (by decide))
  have z8 : (if true = false ∧ true = true ∧ 1 ≤ ra ∧ 0 ≤ ca ∧ ra - 1 < R - 1 ∧ ca - 0 < C - 1 ∧ ra + 0 = rb + 1 ∧ ca + 0 = cb + 0 then 1 else 0) = 0 :=
    if_neg (by rintro ⟨h, -⟩; exact absurd h (by decide))
  have z9 : (if true = false ∧ true = true ∧ 0 ≤ ra ∧ 1 ≤ ca ∧ ra - 0 < R - 1 ∧ ca - 1 < C - 1 ∧ ra + 1 = rb + 0 ∧ ca + 1 = cb + 1 then 1 else 0) = 0 :=
    if_neg (by rintro ⟨h, -⟩; exact absurd h (by decide))
  have z10 : (if true = false ∧ true = true ∧ 1 ≤ ra ∧ 1 ≤ ca ∧ ra - 1 < R - 1 ∧ ca - 1 < C - 1 ∧ ra + 1 = rb + 1 ∧ ca + 0 = cb + 1 then 1 else 0) = 0 :=
    if_neg (by rintro ⟨h, -⟩; exact absurd h (by decide))
  have z11 : (if true = false ∧ true = true ∧ 1 ≤ ra ∧ 0 ≤ ca ∧ ra - 1 < R - 1 ∧ ca - 0 < C - 1 ∧ ra + 0 = rb + 1 ∧ ca + 1 = cb + 0 then 1 else 0) = 0 :=
    if_neg (by rintro ⟨h, -⟩; exact absurd h (by decide))
  have z13 : (if true = false ∧ false = true ∧ ca = 0 ∧ cb = 0 ∧ 0 ≤ ra ∧ ra - 0 < R - 1 ∧ ra + 1 = rb + 0 then 1 else 0) = 0 :=
    if_neg (by rintro ⟨h, -⟩; exact absurd h (by decide))
  have z14 : (if false = false ∧ false = true ∧ ca = 0 ∧ cb = 0 ∧ 1 ≤ ra ∧ ra - 1 < R - 1 ∧ ra + 0 = rb + 1 then 1 else 0) = 0 :=
    if_neg (by rintro ⟨-, h, -⟩; exact absurd h (by decide))
  have z16 : (if true = false ∧ true = true ∧ ca = 0 ∧ cb = 0 ∧ 0 ≤ ra ∧ ra - 0 < R - 1 ∧ ra + 1 = rb + 0 then 1 else 0) = 0 :=
    if_neg (by rintro ⟨h, -⟩; exact absurd h (by decide))
  have z17 : (if true = false ∧ false = true ∧ ca = 0 ∧ cb = 0 ∧ 1 ≤ ra ∧ ra - 1 < R - 1 ∧ ra + 1 = rb + 1 then 1 else 0) = 0 :=
    if_neg (by rintro ⟨h, -⟩; exact absurd h (by decide))
  have z18 : (if false = false ∧ false = true ∧ ca = (C - 1) ∧ cb = (C - 1) ∧ 0 ≤ ra ∧ ra - 0 < R - 1 ∧ ra + 1 = rb + 0 then 1 else 0) = 0 :=
    if_neg (by rintro ⟨-, h, -⟩; exact absurd h (by decide))
  have z20 : (if true = false ∧ false = true ∧ ca = (C - 1) ∧ cb = (C - 1) ∧ 0 ≤ ra ∧ ra - 0 < R - 1 ∧ ra + 0 = rb + 0 then 1 else 0) = 0 :=
    if_neg (by rintro ⟨h, -⟩; exact absurd h (by decide))
  have z22 : (if true = false ∧ true = true ∧ ca = (C - 1) ∧ cb = (C - 1) ∧ 1 ≤ ra ∧ ra - 1 < R - 1 ∧ ra + 0 = rb + 1 then 1 else 0) = 0 :=
    if_neg (by rintro ⟨h, -⟩; exact absurd h (by decide))
  have z23 : (if true = false ∧ false = true ∧ ca = (C - 1) ∧ cb = (C - 1) ∧ 0 ≤ ra ∧ ra - 0 < R - 1 ∧ ra + 1 = rb + 0 then 1 else 0) = 0 :=
    if_neg (by rintro ⟨h, -⟩; exact absurd h (by decide))
  have z24 : (if false = false ∧ false = true ∧ ra = 0 ∧ rb = 0 ∧ 0 ≤ ca ∧ ca - 0 < C - 1 ∧ ca + 1 = cb + 0 then 1 else 0) = 0 :=
    if_neg (by rintro ⟨-, h, -⟩; exact absurd h (by decide))
  have z26 : (if true = false ∧ false = true ∧ ra = 0 ∧ rb = 0 ∧ 0 ≤ ca ∧ ca - 0 < C - 1 ∧ ca + 0 = cb + 0 then 1 else 0) = 0 :=
    if_neg (by rintro ⟨h, -⟩; exact absurd h (by decide))
  have z28 : (if true = false ∧ true = true ∧ ra = 0 ∧ rb = 0 ∧ 1 ≤ ca ∧ ca - 1 < C - 1 ∧ ca + 0 = cb + 1 then 1 else 0) = 0 :=
    if_neg (by rintro ⟨h, -⟩; exact absurd h (by decide))
  have z29 : (if true = false ∧ false = true ∧ ra = 0 ∧ rb = 0 ∧ 0 ≤ ca ∧ ca - 0 < C - 1 ∧ ca + 1 = cb + 0 then 1 else 0) = 0 :=
    if_neg (by rintro ⟨h, -⟩; exact absurd h (by decide))
  have z31 : (if true = false ∧ false = true ∧ ra = (R - 1) ∧ rb = (R - 1) ∧ 0 ≤ ca ∧ ca - 0 < C - 1 ∧ ca + 1 = cb + 0 then 1 else 0) = 0 :=
    if_neg (by rintro ⟨h, -⟩; exact absurd h (by decide))
  have z32 : (if false = false ∧ false = true ∧ ra = (R - 1) ∧ rb = (R - 1) ∧ 1 ≤ ca ∧ ca - 1 < C - 1 ∧ ca + 0 = cb + 1 then 1 else 0) = 0 :=
    if_neg (by rintro ⟨-, h, -⟩; exact absurd h (by decide))
  have z34 : (if true = false ∧ true = true ∧ ra = (R - 1) ∧ rb = (R - 1) ∧ 0 ≤ ca ∧ ca - 0 < C - 1 ∧ ca + 1 = cb + 0 then 1 else 0) = 0 :=
    if_neg (by rintro ⟨h, -⟩; exact absurd h (by decide))
  have z35 : (if true = false ∧ false = true ∧ ra = (R - 1) ∧ rb = (R - 1) ∧ 1 ≤ ca ∧ ca - 1 < C - 1 ∧ ca + 1 = cb + 1 then 1 else 0) = 0 :=
    if_neg (by rintro ⟨h, -⟩; exact absurd h (by decide))
  by_cases hs1 : ra = rb ∧ ca = cb
  · by_cases hs2 : ca = 0
    · by_cases hs3 : ra < R - 1
      · have q12 : (if false = false ∧ true = true ∧ ca = 0 ∧ cb = 0 ∧ 0 ≤ ra ∧ ra - 0 < R - 1 ∧ ra + 0 = rb + 0 then 1 else 0) = 1 :=
          if_pos (by and_intros <;> first | rfl | omega)
        have q15 : (if false = false ∧ true = true ∧ ca = 0 ∧ cb = 0 ∧ 1 ≤ ra ∧ ra - 1 < R - 1 ∧ ra + 0 = rb + 1 then 1 else 0) = 0 :=
          if_neg (by rintro ⟨-, -, hq⟩; omega)
        have q19 : (if false = false ∧ true = true ∧ ca = (C - 1) ∧ cb = (C - 1) ∧ 1 ≤ ra ∧ ra - 1 < R - 1 ∧ ra + 0 = rb + 1 then 1 else 0) = 0 :=
          if_neg (by rintro ⟨-, -, hq⟩; omega)
        have q21 : (if false = false ∧ true = true ∧ ca = (C - 1) ∧ cb = (C - 1) ∧ 1 ≤ ra ∧ ra - 1 < R - 1 ∧ ra + 1 = rb + 1 then 1 else 0) = 0 :=
          if_neg (by rintro ⟨-, -, hq⟩; omega)
        have q25 : (if false = false ∧ true = true ∧ ra = 0 ∧ rb = 0 ∧ 1 ≤ ca ∧ ca - 1 < C - 1 ∧ ca + 0 = cb + 1 then 1 else 0) = 0 :=
          if_neg (by rintro ⟨-, -, hq⟩; omega)
        have q27 : (if false = false ∧ true = true ∧ ra = 0 ∧ rb = 0 ∧ 1 ≤ ca ∧ ca - 1 < C - 1 ∧ ca + 1 = cb + 1 then 1 else 0) = 0 :=
          if_neg (by rintro ⟨-, -, hq⟩; omega)
        have q30 : (if false = false ∧ true = true ∧ ra = (R - 1) ∧ rb = (R - 1) ∧ 0 ≤ ca ∧ ca - 0 < C - 1 ∧ ca + 0 = cb + 0 then 1 else 0) = 0 :=
          if_neg (by rintro ⟨-, -, hq⟩; omega)
        have q33 : (if false = false ∧ true = true ∧ ra = (R - 1) ∧ rb = (R - 1) ∧ 1 ≤ ca ∧ ca - 1 < C - 1 ∧ ca + 0 = cb + 1 then 1 else 0) = 0 :=
          if_neg (by rintro ⟨-, -, hq⟩; omega)
        have qe : (if fbEdge R C ra ca rb cb then 1 else 0) = 1 :=
          if_pos (by unfold fbEdge; exact Or.inl (by and_intros <;> omega))
        omega
      · have q12 : (if false = false ∧ true = true ∧ ca = 0 ∧ cb = 0 ∧ 0 ≤ ra ∧ ra - 0 < R - 1 ∧ ra + 0 = rb + 0 then 1 else 0) = 0 :=
          if_neg (by rintro ⟨-, -, hq⟩; omega)
        have q15 : (if false = false ∧ true = true ∧ ca = 0 ∧ cb = 0 ∧ 1 ≤ ra ∧ ra - 1 < R - 1 ∧ ra + 0 = rb + 1 then 1 else 0) = 0 :=
          if_neg (by rintro ⟨-, -, hq⟩; omega)
        have q19 : (if false = false ∧ true = true ∧ ca = (C - 1) ∧ cb = (C - 1) ∧ 1 ≤ ra ∧ ra - 1 < R - 1 ∧ ra + 0 = rb + 1 then 1 else 0) = 0 :=
          if_neg (by rintro ⟨-, -, hq⟩; omega)
        have q21 : (if false = false ∧ true = true ∧ ca = (C - 1) ∧ cb = (C - 1) ∧ 1 ≤ ra ∧ ra - 1 < R - 1 ∧ ra + 1 = rb + 1 then 1 else 0) = 0 :=
          if_neg (by rintro ⟨-, -, hq⟩; omega)
        have q25 : (if false = false ∧ true = true ∧ ra = 0 ∧ rb = 0 ∧ 1 ≤ ca ∧ ca - 1 < C - 1 ∧ ca + 0 = cb + 1 then 1 else 0) = 0 :=
          if_neg (by rintro ⟨-, -, hq⟩; omega)
        have q27 : (if false = false ∧ true = true ∧ ra = 0 ∧ rb = 0 ∧ 1 ≤ ca ∧ ca - 1 < C - 1 ∧ ca + 1 = cb + 1 then 1 else 0) = 0 :=
          if_neg (by rintro ⟨-, -, hq⟩; omega)
        have q30 : (if false = false ∧ true = true ∧ ra = (R - 1) ∧ rb = (R - 1) ∧ 0 ≤ ca ∧ ca - 0 < C - 1 ∧ ca + 0 = cb + 0 then 1 else 0) = 1 :=
          if_pos (by and_intros <;> first | rfl | omega)
        have q33 : (if false = false ∧ true = true ∧ ra = (R - 1) ∧ rb = (R - 1) ∧ 1 ≤ ca ∧ ca - 1 < C - 1 ∧ ca + 0 = cb + 1 then 1 else 0) = 0 :=
          if_neg (by rintro ⟨-, -, hq⟩; omega)
        have qe : (if fbEdge R C ra ca rb cb then 1 else 0) = 1 :=
          if_pos (by unfold fbEdge; exact Or.inr (Or.inr (Or.inr (Or.inr (Or.inr (Or.inr (Or.inl (by and_intros <;> omega))))))))
        omega
    · by_cases hs4 : ca = C - 1
      · by_cases hs5 : 1 ≤ ra
        · have q12 : (if false = false ∧ true = true ∧ ca = 0 ∧ cb = 0 ∧ 0 ≤ ra ∧ ra - 0 < R - 1 ∧ ra + 0 = rb + 0 then 1 else 0) = 0 :=
            if_neg (by rintro ⟨-, -, hq⟩; omega)
          have q15 : (if false = false ∧ true = true ∧ ca = 0 ∧ cb = 0 ∧ 1 ≤ ra ∧ ra - 1 < R - 1 ∧ ra + 0 = rb + 1 then 1 else 0) = 0 :=
            if_neg (by rintro ⟨-, -, hq⟩; omega)
          have q19 : (if false = false ∧ true = true ∧ ca = (C - 1) ∧ cb = (C - 1) ∧ 1 ≤ ra ∧ ra - 1 < R - 1 ∧ ra + 0 = rb + 1 then 1 else 0) = 0 :=
            if_neg (by rintro ⟨-, -, hq⟩; omega)
          have q21 : (if false = false ∧ true = true ∧ ca = (C - 1) ∧ cb = (C - 1) ∧ 1 ≤ ra ∧ ra - 1 < R - 1 ∧ ra + 1 = rb + 1 then 1 else 0) = 1 :=
            if_pos (by and_intros <;> first | rfl | omega)
          have q25 : (if false = false ∧ true = true ∧ ra = 0 ∧ rb = 0 ∧ 1 ≤ ca ∧ ca - 1 < C - 1 ∧ ca + 0 = cb + 1 then 1 else 0) = 0 :=
            if_neg (by rintro ⟨-, -, hq⟩; omega)
          have q27 : (if false = false ∧ true = true ∧ ra = 0 ∧ rb = 0 ∧ 1 ≤ ca ∧ ca - 1 < C - 1 ∧ ca + 1 = cb + 1 then 1 else 0) = 0 :=
            if_neg (by rintro ⟨-, -, hq⟩; omega)
          have q30 : (if false = false ∧ true = true ∧ ra = (R - 1) ∧ rb = (R - 1) ∧ 0 ≤ ca ∧ ca - 0 < C - 1 ∧ ca + 0 = cb + 0 then 1 else 0) = 0 :=
            if_neg (by rintro ⟨-, -, hq⟩; omega)
          have q33 : (if false = false ∧ true = true ∧ ra = (R - 1) ∧ rb = (R - 1) ∧ 1 ≤ ca ∧ ca - 1 < C - 1 ∧ ca + 0 = cb + 1 then 1 else 0) = 0 :=
            if_neg (by rintro ⟨-, -, hq⟩; omega)
          have qe : (if fbEdge R C ra ca rb cb then 1 else 0) = 1 :=
            if_pos (by unfold fbEdge; exact Or.inr (Or.inr (Or.inr (Or.inl (by and_intros <;> omega)))))
          omega
        · have q12 : (if false = false ∧ true = true ∧ ca = 0 ∧ cb = 0 ∧ 0 ≤ ra ∧ ra - 0 < R - 1 ∧ ra + 0 = rb + 0 then 1 else 0) = 0 :=
            if_neg (by rintro ⟨-, -, hq⟩; omega)
          have q15 : (if false = false ∧ true = true ∧ ca = 0 ∧ cb = 0 ∧ 1 ≤ ra ∧ ra - 1 < R - 1 ∧ ra + 0 = rb + 1 then 1 else 0) = 0 :=
            if_neg (by rintro ⟨-, -, hq⟩; omega)
          have q19 : (if false = false ∧ true = true ∧ ca = (C - 1) ∧ cb = (C - 1) ∧ 1 ≤ ra ∧ ra - 1 < R - 1 ∧ ra + 0 = rb + 1 then 1 else 0) = 0 :=
            if_neg (by rintro ⟨-, -, hq⟩; omega)
          have q21 : (if false = false ∧ true = true ∧ ca = (C - 1) ∧ cb = (C - 1) ∧ 1 ≤ ra ∧ ra - 1 < R - 1 ∧ ra + 1 = rb + 1 then 1 else 0) = 0 :=
            if_neg (by rintro ⟨-, -, hq⟩; omega)
          have q25 : (if false = false ∧ true = true ∧ ra = 0 ∧ rb = 0 ∧ 1 ≤ ca ∧ ca - 1 < C - 1 ∧ ca + 0 = cb + 1 then 1 else 0) = 0 :=
            if_neg (by rintro ⟨-, -, hq⟩; omega)
          have q27 : (if false = false ∧ true = true ∧ ra = 0 ∧ rb = 0 ∧ 1 ≤ ca ∧ ca - 1 < C - 1 ∧ ca + 1 = cb + 1 then 1 else 0) = 1 :=
            if_pos (by and_intros <;> first | rfl | omega)
          have q30 : (if false = false ∧ true = true ∧ ra = (R - 1) ∧ rb = (R - 1) ∧ 0 ≤ ca ∧ ca - 0 < C - 1 ∧ ca + 0 = cb + 0 then 1 else 0) = 0 :=
            if_neg (by rintro ⟨-, -, hq⟩; omega)
          have q33 : (if false = false ∧ true = true ∧ ra = (R - 1) ∧ rb = (R - 1) ∧ 1 ≤ ca ∧ ca - 1 < C - 1 ∧ ca + 0 = cb + 1 then 1 else 0) = 0 :=
            if_neg (by rintro ⟨-, -, hq⟩; omega)
          have qe : (if fbEdge R C ra ca rb cb then 1 else 0) = 1 :=
            if_pos (by unfold fbEdge; exact Or.inr (Or.inr (Or.inr (Or.inr (Or.inr (Or.inl (by and_intros <;> omega)))))))
          omega
      · by_cases hs6 : ra = 0
        · have q12 : (if false = false ∧ true = true ∧ ca = 0 ∧ cb = 0 ∧ 0 ≤ ra ∧ ra - 0 < R - 1 ∧ ra + 0 = rb + 0 then 1 else 0) = 0 :=
            if_neg (by rintro ⟨-, -, hq⟩; omega)
          have q15 : (if false = false ∧ true = true ∧ ca = 0 ∧ cb = 0 ∧ 1 ≤ ra ∧ ra - 1 < R - 1 ∧ ra + 0 = rb + 1 then 1 else 0) = 0 :=
            if_neg (by rintro ⟨-, -, hq⟩; omega)
          have q19 : (if false = false ∧ true = true ∧ ca = (C - 1) ∧ cb = (C - 1) ∧ 1 ≤ ra ∧ ra - 1 < R - 1 ∧ ra + 0 = rb + 1 then 1 else 0) = 0 :=
            if_neg (by rintro ⟨-, -, hq⟩; omega)
          have q21 : (if false = false ∧ true = true ∧ ca = (C - 1) ∧ cb = (C - 1) ∧ 1 ≤ ra ∧ ra - 1 < R - 1 ∧ ra + 1 = rb + 1 then 1 else 0) = 0 :=
            if_neg (by rintro ⟨-, -, hq⟩; omega)
          have q25 : (if false = false ∧ true = true ∧ ra = 0 ∧ rb = 0 ∧ 1 ≤ ca ∧ ca - 1 < C - 1 ∧ ca + 0 = cb + 1 then 1 else 0) = 0 :=
            if_neg (by rintro ⟨-, -, hq⟩; omega)
          have q27 : (if false = false ∧ true = true ∧ ra = 0 ∧ rb = 0 ∧ 1 ≤ ca ∧ ca - 1 < C - 1 ∧ ca + 1 = cb + 1 then 1 else 0) = 1 :=
            if_pos (by and_intros <;> first | rfl | omega)
          have q30 : (if false = false ∧ true = true ∧ ra = (R - 1) ∧ rb = (R - 1) ∧ 0 ≤ ca ∧ ca - 0 < C - 1 ∧ ca + 0 = cb + 0 then 1 else 0) = 0 :=
            if_neg (by rintro ⟨-, -, hq⟩; omega)
          have q33 : (if false = false ∧ true = true ∧ ra = (R - 1) ∧ rb = (R - 1) ∧ 1 ≤ ca ∧ ca - 1 < C - 1 ∧ ca + 0 = cb + 1 then 1 else 0) = 0 :=
            if_neg (by rintro ⟨-, -, hq⟩; omega)
          have qe : (if fbEdge R C ra ca rb cb then 1 else 0) = 1 :=
            if_pos (by unfold fbEdge; exact Or.inr (Or.inr (Or.inr (Or.inr (Or.inr (Or.inl (by and_intros <;> omega)))))))
          omega
        · by_cases hs7 : ra = R - 1
          · have q12 : (if false = false ∧ true = true ∧ ca = 0 ∧ cb = 0 ∧ 0 ≤ ra ∧ ra - 0 < R - 1 ∧ ra + 0 = rb + 0 then 1 else 0) = 0 :=
              if_neg (by rintro ⟨-, -, hq⟩; omega)
            have q15 : (if false = false ∧ true = true ∧ ca = 0 ∧ cb = 0 ∧ 1 ≤ ra ∧ ra - 1 < R - 1 ∧ ra + 0 = rb + 1 then 1 else 0) = 0 :=
              if_neg (by rintro ⟨-, -, hq⟩; omega)
            have q19 : (if false = false ∧ true = true ∧ ca = (C - 1) ∧ cb = (C - 1) ∧ 1 ≤ ra ∧ ra - 1 < R - 1 ∧ ra + 0 = rb + 1 then 1 else 0) = 0 :=
              if_neg (by rintro ⟨-, -, hq⟩; omega)
            have q21 : (if false = false ∧ true = true ∧ ca = (C - 1) ∧ cb = (C - 1) ∧ 1 ≤ ra ∧ ra - 1 < R - 1 ∧ ra + 1 = rb + 1 then 1 else 0) = 0 :=
              if_neg (by rintro ⟨-, -, hq⟩; omega)
            have q25 : (if false = false ∧ true = true ∧ ra = 0 ∧ rb = 0 ∧ 1 ≤ ca ∧ ca - 1 < C - 1 ∧ ca + 0 = cb + 1 then 1 else 0) = 0 :=
              if_neg (by rintro ⟨-, -, hq⟩; omega)
            have q27 : (if false = false ∧ true = true ∧ ra = 0 ∧ rb = 0 ∧ 1 ≤ ca ∧ ca - 1 < C - 1 ∧ ca + 1 = cb + 1 then 1 else 0) = 0 :=
              if_neg (by rintro ⟨-, -, hq⟩; omega)
            have q30 : (if false = false ∧ true = true ∧ ra = (R - 1) ∧ rb = (R - 1) ∧ 0 ≤ ca ∧ ca - 0 < C - 1 ∧ ca + 0 = cb + 0 then 1 else 0) = 1 :=
              if_pos (by and_intros <;> first | rfl | omega)
            have q33 : (if false = false ∧ true = true ∧ ra = (R - 1) ∧ rb = (R - 1) ∧ 1 ≤ ca ∧ ca - 1 < C - 1 ∧ ca + 0 = cb + 1 then 1 else 0) = 0 :=
              if_neg (by rintro ⟨-, -, hq⟩; omega)
            have qe : (if fbEdge R C ra ca rb cb then 1 else 0) = 1 :=
              if_pos (by unfold fbEdge; exact Or.inr (Or.inr (Or.inr (Or.inr (Or.inr (Or.inr (Or.inl (by and_intros <;> omega))))))))
            omega
          · have q12 : (if false = false ∧ true = true ∧ ca = 0 ∧ cb = 0 ∧ 0 ≤ ra ∧ ra - 0 < R - 1 ∧ ra + 0 = rb + 0 then 1 else 0) = 0 :=
              if_neg (by rintro ⟨-, -, hq⟩; omega)
            have q15 : (if false = false ∧ true = true ∧ ca = 0 ∧ cb = 0 ∧ 1 ≤ ra ∧ ra - 1 < R - 1 ∧ ra + 0 = rb + 1 then 1 else 0) = 0 :=
              if_neg (by rintro ⟨-, -, hq⟩; omega)
            have q19 : (if false = false ∧ true = true ∧ ca = (C - 1) ∧ cb = (C - 1) ∧ 1 ≤ ra ∧ ra - 1 < R - 1 ∧ ra + 0 = rb + 1 then 1 else 0) = 0 :=
              if_neg (by rintro ⟨-, -, hq⟩; omega)
            have q21 : (if false = false ∧ true = true ∧ ca = (C - 1) ∧ cb = (C - 1) ∧ 1 ≤ ra ∧ ra - 1 < R - 1 ∧ ra + 1 = rb + 1 then 1 else 0) = 0 :=
              if_neg (by rintro ⟨-, -, hq⟩; omega)
            have q25 : (if false = false ∧ true = true ∧ ra = 0 ∧ rb = 0 ∧ 1 ≤ ca ∧ ca - 1 < C - 1 ∧ ca + 0 = cb + 1 then 1 else 0) = 0 :=
              if_neg (by rintro ⟨-, -, hq⟩; omega)
            have q27 : (if false = false ∧ true = true ∧ ra = 0 ∧ rb = 0 ∧ 1 ≤ ca ∧ ca - 1 < C - 1 ∧ ca + 1 = cb + 1 then 1 else 0) = 0 :=
              if_neg (by rintro ⟨-, -, hq⟩; omega)
            have q30 : (if false = false ∧ true = true ∧ ra = (R - 1) ∧ rb = (R - 1) ∧ 0 ≤ ca ∧ ca - 0 < C - 1 ∧ ca + 0 = cb + 0 then 1 else 0) = 0 :=
              if_neg (by rintro ⟨-, -, hq⟩; omega)
            have q33 : (if false = false ∧ true = true ∧ ra = (R - 1) ∧ rb = (R - 1) ∧ 1 ≤ ca ∧ ca - 1 < C - 1 ∧ ca + 0 = cb + 1 then 1 else 0) = 0 :=
              if_neg (by rintro ⟨-, -, hq⟩; omega)
            have qe : (if fbEdge R C ra ca rb cb then 1 else 0) = 0 :=
              if_neg (by unfold fbEdge; omega)
            omega
  · by_cases hs8 : ca = 0 ∧ cb = 0 ∧ ra = rb + 1
    · have q12 : (if false = false ∧ true = true ∧ ca = 0 ∧ cb = 0 ∧ 0 ≤ ra ∧ ra - 0 < R - 1 ∧ ra + 0 = rb + 0 then 1 else 0) = 0 :=
        if_neg (by rintro ⟨-, -, hq⟩; omega)
      have q15 : (if false = false ∧ true = true ∧ ca = 0 ∧ cb = 0 ∧ 1 ≤ ra ∧ ra - 1 < R - 1 ∧ ra + 0 = rb + 1 then 1 else 0) = 1 :=
        if_pos (by and_intros <;> first | rfl | omega)
      have q19 : (if false = false ∧ true = true ∧ ca = (C - 1) ∧ cb = (C - 1) ∧ 1 ≤ ra ∧ ra - 1 < R - 1 ∧ ra + 0 = rb + 1 then 1 else 0) = 0 :=
        if_neg (by rintro ⟨-, -, hq⟩; omega)
      have q21 : (if false = false ∧ true = true ∧ ca = (C - 1) ∧ cb = (C - 1) ∧ 1 ≤ ra ∧ ra - 1 < R - 1 ∧ ra + 1 = rb + 1 then 1 else 0) = 0 :=
        if_neg (by rintro ⟨-, -, hq⟩; omega)
      have q25 : (if false = false ∧ true = true ∧ ra = 0 ∧ rb = 0 ∧ 1 ≤ ca ∧ ca - 1 < C - 1 ∧ ca + 0 = cb + 1 then 1 else 0) = 0 :=
        if_neg (by rintro ⟨-, -, hq⟩; omega)
      have q27 : (if false = false ∧ true = true ∧ ra = 0 ∧ rb = 0 ∧ 1 ≤ ca ∧ ca - 1 < C - 1 ∧ ca + 1 = cb + 1 then 1 else 0) = 0 :=
        if_neg (by rintro ⟨-, -, hq⟩; omega)
      have q30 : (if false = false ∧ true = true ∧ ra = (R - 1) ∧ rb = (R - 1) ∧ 0 ≤ ca ∧ ca - 0 < C - 1 ∧ ca + 0 = cb + 0 then 1 else 0) = 0 :=
        if_neg (by rintro ⟨-, -, hq⟩; omega)
      have q33 : (if false = false ∧ true = true ∧ ra = (R - 1) ∧ rb = (R - 1) ∧ 1 ≤ ca ∧ ca - 1 < C - 1 ∧ ca + 0 = cb + 1 then 1 else 0) = 0 :=
        if_neg (by rintro ⟨-, -, hq⟩; omega)
      have qe : (if fbEdge R C ra ca rb cb then 1 else 0) = 1 :=
        if_pos (by unfold fbEdge; exact Or.inr (Or.inl (by and_intros <;> omega)))
      omega
    · by_cases hs9 : ca = C - 1 ∧ cb = C - 1 ∧ ra = rb + 1
      · have q12 : (if false = false ∧ true = true ∧ ca = 0 ∧ cb = 0 ∧ 0 ≤ ra ∧ ra - 0 < R - 1 ∧ ra + 0 = rb + 0 then 1 else 0) = 0 :=
          if_neg (by rintro ⟨-, -, hq⟩; omega)
        have q15 : (if false = false ∧ true = true ∧ ca = 0 ∧ cb = 0 ∧ 1 ≤ ra ∧ ra - 1 < R - 1 ∧ ra + 0 = rb + 1 then 1 else 0) = 0 :=
          if_neg (by rintro ⟨-, -, hq⟩; omega)
        have q19 : (if false = false ∧ true = true ∧ ca = (C - 1) ∧ cb = (C - 1) ∧ 1 ≤ ra ∧ ra - 1 < R - 1 ∧ ra + 0 = rb + 1 then 1 else 0) = 1 :=
          if_pos (by and_intros <;> first | rfl | omega)
        have q21 : (if false = false ∧ true = true ∧ ca = (C - 1) ∧ cb = (C - 1) ∧ 1 ≤ ra ∧ ra - 1 < R - 1 ∧ ra + 1 = rb + 1 then 1 else 0) = 0 :=
          if_neg (by rintro ⟨-, -, hq⟩; omega)
        have q25 : (if false = false ∧ true = true ∧ ra = 0 ∧ rb = 0 ∧ 1 ≤ ca ∧ ca - 1 < C - 1 ∧ ca + 0 = cb + 1 then 1 else 0) = 0 :=
          if_neg (by rintro ⟨-, -, hq⟩; omega)
        have q27 : (if false = false ∧ true = true ∧ ra = 0 ∧ rb = 0 ∧ 1 ≤ ca ∧ ca - 1 < C - 1 ∧ ca + 1 = cb + 1 then 1 else 0) = 0 :=
          if_neg (by rintro ⟨-, -, hq⟩; omega)
        have q30 : (if false = false ∧ true = true ∧ ra = (R - 1) ∧ rb = (R - 1) ∧ 0 ≤ ca ∧ ca - 0 < C - 1 ∧ ca + 0 = cb + 0 then 1 else 0) = 0 :=
          if_neg (by rintro ⟨-, -, hq⟩; omega)
        have q33 : (if false = false ∧ true = true ∧ ra = (R - 1) ∧ rb = (R - 1) ∧ 1 ≤ ca ∧ ca - 1 < C - 1 ∧ ca + 0 = cb + 1 then 1 else 0) = 0 :=
          if_neg (by rintro ⟨-, -, hq⟩; omega)
        have qe : (if fbEdge R C ra ca rb cb then 1 else 0) = 1 :=
          if_pos (by unfold fbEdge; exact Or.inr (Or.inr (Or.inl (by and_intros <;> omega))))
        omega
      · by_cases hs10 : ra = 0 ∧ rb = 0 ∧ ca = cb + 1
        · have q12 : (if false = false ∧ true = true ∧ ca = 0 ∧ cb = 0 ∧ 0 ≤ ra ∧ ra - 0 < R - 1 ∧ ra + 0 = rb + 0 then 1 else 0) = 0 :=
            if_neg (by rintro ⟨-, -, hq⟩; omega)
          have q15 : (if false = false ∧ true = true ∧ ca = 0 ∧ cb = 0 ∧ 1 ≤ ra ∧ ra - 1 < R - 1 ∧ ra + 0 = rb + 1 then 1 else 0) = 0 :=
            if_neg (by rintro ⟨-, -, hq⟩; omega)
          have q19 : (if false = false ∧ true = true ∧ ca = (C - 1) ∧ cb = (C - 1) ∧ 1 ≤ ra ∧ ra - 1 < R - 1 ∧ ra + 0 = rb + 1 then 1 else 0) = 0 :=
            if_neg (by rintro ⟨-, -, hq⟩; omega)
          have q21 : (if false = false ∧ true = true ∧ ca = (C - 1) ∧ cb = (C - 1) ∧ 1 ≤ ra ∧ ra - 1 < R - 1 ∧ ra + 1 = rb + 1 then 1 else 0) = 0 :=
            if_neg (by rintro ⟨-, -, hq⟩; omega)
          have q25 : (if false = false ∧ true = true ∧ ra = 0 ∧ rb = 0 ∧ 1 ≤ ca ∧ ca - 1 < C - 1 ∧ ca + 0 = cb + 1 then 1 else 0) = 1 :=
            if_pos (by and_intros <;> first | rfl | omega)
          have q27 : (if false = false ∧ true = true ∧ ra = 0 ∧ rb = 0 ∧ 1 ≤ ca ∧ ca - 1 < C - 1 ∧ ca + 1 = cb + 1 then 1 else 0) = 0 :=
            if_neg (by rintro ⟨-, -, hq⟩; omega)
          have q30 : (if false = false ∧ true = true ∧ ra = (R - 1) ∧ rb = (R - 1) ∧ 0 ≤ ca ∧ ca - 0 < C - 1 ∧ ca + 0 = cb + 0 then 1 else 0) = 0 :=
            if_neg (by rintro ⟨-, -, hq⟩; omega)
          have q33 : (if false = false ∧ true = true ∧ ra = (R - 1) ∧ rb = (R - 1) ∧ 1 ≤ ca ∧ ca - 1 < C - 1 ∧ ca + 0 = cb + 1 then 1 else 0) = 0 :=
            if_neg (by rintro ⟨-, -, hq⟩; omega)
          have qe : (if fbEdge R C ra ca rb cb then 1 else 0) = 1 :=
            if_pos (by unfold fbEdge; exact Or.inr (Or.inr (Or.inr (Or.inr (Or.inl (by and_intros <;> omega))))))
          omega
        · by_cases hs11 : ra = R - 1 ∧ rb = R - 1 ∧ ca = cb + 1
          · have q12 : (if false = false ∧ true = true ∧ ca = 0 ∧ cb = 0 ∧ 0 ≤ ra ∧ ra - 0 < R - 1 ∧ ra + 0 = rb + 0 then 1 else 0) = 0 :=
              if_neg (by rintro ⟨-, -, hq⟩; omega)
            have q15 : (if false = false ∧ true = true ∧ ca = 0 ∧ cb = 0 ∧ 1 ≤ ra ∧ ra - 1 < R - 1 ∧ ra + 0 = rb + 1 then 1 else 0) = 0 :=
              if_neg (by rintro ⟨-, -, hq⟩; omega)
            have q19 : (if false = false ∧ true = true ∧ ca = (C - 1) ∧ cb = (C - 1) ∧ 1 ≤ ra ∧ ra - 1 < R - 1 ∧ ra + 0 = rb + 1 then 1 else 0) = 0 :=
              if_neg (by rintro ⟨-, -, hq⟩; omega)
            have q21 : (if false = false ∧ true = true ∧ ca = (C - 1) ∧ cb = (C - 1) ∧ 1 ≤ ra ∧ ra - 1 < R - 1 ∧ ra + 1 = rb + 1 then 1 else 0) = 0 :=
              if_neg (by rintro ⟨-, -, hq⟩; omega)
            have q25 : (if false = false ∧ true = true ∧ ra = 0 ∧ rb = 0 ∧ 1 ≤ ca ∧ ca - 1 < C - 1 ∧ ca + 0 = cb + 1 then 1 else 0) = 0 :=
              if_neg (by rintro ⟨-, -, hq⟩; omega)
            have q27 : (if false = false ∧ true = true ∧ ra = 0 ∧ rb = 0 ∧ 1 ≤ ca ∧ ca - 1 < C - 1 ∧ ca + 1 = cb + 1 then 1 else 0) = 0 :=
              if_neg (by rintro ⟨-, -, hq⟩; omega)
            have q30 : (if false = false ∧ true = true ∧ ra = (R - 1) ∧ rb = (R - 1) ∧ 0 ≤ ca ∧ ca - 0 < C - 1 ∧ ca + 0 = cb + 0 then 1 else 0) = 0 :=
              if_neg (by rintro ⟨-, -, hq⟩; omega)
            have q33 : (if false = false ∧ true = true ∧ ra = (R - 1) ∧ rb = (R - 1) ∧ 1 ≤ ca ∧ ca - 1 < C - 1 ∧ ca + 0 = cb + 1 then 1 else 0) = 1 :=
              if_pos (by and_intros <;> first | rfl | omega)
            have qe : (if fbEdge R C ra ca rb cb then 1 else 0) = 1 :=
              if_pos (by unfold fbEdge; exact Or.inr (Or.inr (Or.inr (Or.inr (Or.inr (Or.inr (Or.inr ((by and_intros <;> omega)))))))))
            omega
          · have q12 : (if false = false ∧ true = true ∧ ca = 0 ∧ cb = 0 ∧ 0 ≤ ra ∧ ra - 0 < R - 1 ∧ ra + 0 = rb + 0 then 1 else 0) = 0 :=
              if_neg (by rintro ⟨-, -, hq⟩; omega)
            have q15 : (if false = false ∧ true = true ∧ ca = 0 ∧ cb = 0 ∧ 1 ≤ ra ∧ ra - 1 < R - 1 ∧ ra + 0 = rb + 1 then 1 else 0) = 0 :=
              if_neg (by rintro ⟨-, -, hq⟩; omega)
            have q19 : (if false = false ∧ true = true ∧ ca = (C - 1) ∧ cb = (C - 1) ∧ 1 ≤ ra ∧ ra - 1 < R - 1 ∧ ra + 0 = rb + 1 then 1 else 0) = 0 :=
              if_neg (by rintro ⟨-, -, hq⟩; omega)
            have q21 : (if false = false ∧ true = true ∧ ca = (C - 1) ∧ cb = (C - 1) ∧ 1 ≤ ra ∧ ra - 1 < R - 1 ∧ ra + 1 = rb + 1 then 1 else 0) = 0 :=
              if_neg (by rintro ⟨-, -, hq⟩; omega)
            have q25 : (if false = false ∧ true = true ∧ ra = 0 ∧ rb = 0 ∧ 1 ≤ ca ∧ ca - 1 < C - 1 ∧ ca + 0 = cb + 1 then 1 else 0) = 0 :=
              if_neg (by rintro ⟨-, -, hq⟩; omega)
            have q27 : (if false = false ∧ true = true ∧ ra = 0 ∧ rb = 0 ∧ 1 ≤ ca ∧ ca - 1 < C - 1 ∧ ca + 1 = cb + 1 then 1 else 0) = 0 :=
              if_neg (by rintro ⟨-, -, hq⟩; omega)
            have q30 : (if false = false ∧ true = true ∧ ra = (R - 1) ∧ rb = (R - 1) ∧ 0 ≤ ca ∧ ca - 0 < C - 1 ∧ ca + 0 = cb + 0 then 1 else 0) = 0 :=
              if_neg (by rintro ⟨-, -, hq⟩; omega)
            have q33 : (if false = false ∧ true = true ∧ ra = (R - 1) ∧ rb = (R - 1) ∧ 1 ≤ ca ∧ ca - 1 < C - 1 ∧ ca + 0 = cb + 1 then 1 else 0) = 0 :=
              if_neg (by rintro ⟨-, -, hq⟩; omega)
            have qe : (if fbEdge R C ra ca rb cb then 1 else 0) = 0 :=
              if_neg (by unfold fbEdge; omega)
            omega

/-- The set of directed edges between two BF-side vertices that occur
in the mesh of `create_solid_lithophane`, as an explicit linear predicate on the
grid coordinates. -/
def bfEdge (R C ra ca rb cb : ℕ) : Prop :=
  (ca = 0 ∧ cb = 0 ∧ ra < R - 1 ∧ ra + 1 = rb) ∨
  (ca = 0 ∧ cb = 0 ∧ 1 ≤ ra ∧ ra - 1 < R - 1 ∧ ra + 1 = rb + 1) ∨
  (ca = (C - 1) ∧ cb = (C - 1) ∧ ra < R - 1 ∧ ra = rb) ∨
  (ca = (C - 1) ∧ cb = (C - 1) ∧ ra < R - 1 ∧ ra + 1 = rb) ∨
  (ra = 0 ∧ rb = 0 ∧ ca < C - 1 ∧ ca = cb) ∨
  (ra = 0 ∧ rb = 0 ∧ ca < C - 1 ∧ ca + 1 = cb) ∨
  (ra = (R - 1) ∧ rb = (R - 1) ∧ ca < C - 1 ∧ ca + 1 = cb) ∨
  (ra = (R - 1) ∧ rb = (R - 1) ∧ 1 ≤ ca ∧ ca - 1 < C - 1 ∧ ca + 1 = cb + 1)

instance bfEdgeDec (R C ra ca rb cb : ℕ) : Decidable (bfEdge R C ra ca rb cb) := by
  unfold bfEdge; infer_instance

/-- Directed-edge count between two BF-side vertices equals the
indicator of `bfEdge`. -/
theorem count_bf (R C : ℕ) (hR : 2 ≤ R) (hC : 2 ≤ C) (ra ca rb cb : ℕ)
    (hra : ra < R) (hca : ca < C) (hrb : rb < R) (hcb : cb < C) :
    ecount (vid R C true ra ca, vid R C false rb cb) (dedges R C)
    = if bfEdge R C ra ca rb cb then 1 else 0 := by
  rw [ecount_vid_eq R C hR hC true false ra ca rb cb hra hca hrb hcb]
  have z0 : (if false = true ∧ false = false ∧ 0 ≤ ra ∧ 0 ≤ ca ∧ ra - 0 < R - 1 ∧ ca - 0 < C - 1 ∧ ra + 1 = rb + 0 ∧ ca + 0 = cb + 0 then 1 else 0) = 0 :=
    if_neg (by rintro ⟨h, -⟩; exact absurd h (by decide))
  have z1 : (if false = true ∧ false = false ∧ 1 ≤ ra ∧ 0 ≤ ca ∧ ra - 1 < R - 1 ∧ ca - 0 < C - 1 ∧ ra + 0 = rb + 1 ∧ ca + 1 = cb + 0 then 1 else 0) = 0 :=
    if_neg (by rintro ⟨h, -⟩; exact absurd h (by decide))
  have z2 : (if false = true ∧ false = false ∧ 0 ≤ ra ∧ 1 ≤ ca ∧ ra - 0 < R - 1 ∧ ca - 1 < C - 1 ∧ ra + 0 = rb + 0 ∧ ca + 0 = cb + 1 then 1 else 0) = 0 :=
    if_neg (by rintro ⟨h, -⟩; exact absurd h (by decide))
  have z3 : (if false = true ∧ false = false ∧ 0 ≤ ra ∧ 1 ≤ ca ∧ ra - 0 < R - 1 ∧ ca - 1 < C - 1 ∧ ra + 1 = rb + 0 ∧ ca + 0 = cb + 1 then 1 else 0) = 0 :=
    if_neg (by rintro ⟨h, -⟩; exact absurd h (by decide))
  have z4 : (if false = true ∧ false = false ∧ 1 ≤ ra ∧ 0 ≤ ca ∧ ra - 1 < R - 1 ∧ ca - 0 < C - 1 ∧ ra + 1 = rb + 1 ∧ ca + 1 = cb + 0 then 1 else 0) = 0 :=
    if_neg (by rintro ⟨h, -⟩; exact absurd h (by decide))
  have z5 : (if false = true ∧ false = false ∧ 1 ≤ ra ∧ 1 ≤ ca ∧ ra - 1 < R - 1 ∧ ca - 1 < C - 1 ∧ ra + 0 = rb + 1 ∧ ca + 1 = cb + 1 then 1 else 0) = 0 :=
    if_neg (by rintro ⟨h, -⟩; exact absurd h (by decide))
  have z6 : (if true = true ∧ true = false ∧ 0 ≤ ra ∧ 0 ≤ ca ∧ ra - 0 < R - 1 ∧ ca - 0 < C - 1 ∧ ra + 0 = rb + 0 ∧ ca + 1 = cb + 0 then 1 else 0) = 0 :=
    if_neg (by rintro ⟨-, h, -⟩; exact absurd h (by decide))
  have z7 : (if true = true ∧ true = false ∧ 0 ≤ ra ∧ 1 ≤ ca ∧ ra - 0 < R - 1 ∧ ca - 1 < C - 1 ∧ ra + 1 = rb + 0 ∧ ca + 0 = cb + 1 then 1 else 0) = 0 :=
    if_neg (by rintro ⟨-, h, -⟩; exact absurd h (by decide))
  have z8 : (if true = true ∧ true = false ∧ 1 ≤ ra ∧ 0 ≤ ca ∧ ra - 1 < R - 1 ∧ ca - 0 < C - 1 ∧ ra + 0 = rb + 1 ∧ ca + 0 = cb + 0 then 1 else 0) = 0 :=
    if_neg (by rintro ⟨-, h, -⟩; exact absurd h (by decide))
  have z9 : (if true = true ∧ true = false ∧ 0 ≤ ra ∧ 1 ≤ ca ∧ ra - 0 < R - 1 ∧ ca - 1 < C - 1 ∧ ra + 1 = rb + 0 ∧ ca + 1 = cb + 1 then 1 else 0) = 0 :=
    if_neg (by rintro ⟨-, h, -⟩; exact absurd h (by decide))
  have z10 : (if true = true ∧ true = false ∧ 1 ≤ ra ∧ 1 ≤ ca ∧ ra - 1 < R - 1 ∧ ca - 1 < C - 1 ∧ ra + 1 = rb + 1 ∧ ca + 0 = cb + 1 then 1 else 0) = 0 :=
    if_neg (by rintro ⟨-, h, -⟩; exact absurd h (by decide))
  have z11 : (if true = true ∧ true = false ∧ 1 ≤ ra ∧ 0 ≤ ca ∧ ra - 1 < R - 1 ∧ ca - 0 < C - 1 ∧ ra + 0 = rb + 1 ∧ ca + 1 = cb + 0 then 1 else 0) = 0 :=
    if_neg (by rintro ⟨-, h, -⟩; exact absurd h (by decide))
  have z12 : (if false = true ∧ true = false ∧ ca = 0 ∧ cb = 0 ∧ 0 ≤ ra ∧ ra - 0 < R - 1 ∧ ra + 0 = rb + 0 then 1 else 0) = 0 :=
    if_neg (by rintro ⟨h, -⟩; exact absurd h (by decide))
  have z14 : (if false = true ∧ false = false ∧ ca = 0 ∧ cb = 0 ∧ 1 ≤ ra ∧ ra - 1 < R - 1 ∧ ra + 0 = rb + 1 then 1 else 0) = 0 :=
    if_neg (by rintro ⟨h, -⟩; exact absurd h (by decide))
  have z15 : (if false = true ∧ true = false ∧ ca = 0 ∧ cb = 0 ∧ 1 ≤ ra ∧ ra - 1 < R - 1 ∧ ra + 0 = rb + 1 then 1 else 0) = 0 :=
    if_neg (by rintro ⟨h, -⟩; exact absurd h (by decide))
  have z16 : (if true = true ∧ true = false ∧ ca = 0 ∧ cb = 0 ∧ 0 ≤ ra ∧ ra - 0 < R - 1 ∧ ra + 1 = rb + 0 then 1 else 0) = 0 :=
    if_neg (by rintro ⟨-, h, -⟩; exact absurd h (by decide))
  have z18 : (if false = true ∧ false = false ∧ ca = (C - 1) ∧ cb = (C - 1) ∧ 0 ≤ ra ∧ ra - 0 < R - 1 ∧ ra + 1 = rb + 0 then 1 else 0) = 0 :=
    if_neg (by rintro ⟨h, -⟩; exact absurd h (by decide))
  have z19 : (if false = true ∧ true = false ∧ ca = (C - 1) ∧ cb = (C - 1) ∧ 1 ≤ ra ∧ ra - 1 < R - 1 ∧ ra + 0 = rb + 1 then 1 else 0) = 0 :=
    if_neg (by rintro ⟨h, -⟩; exact absurd h (by decide))
  have z21 : (if false = true ∧ true = false ∧ ca = (C - 1) ∧ cb = (C - 1) ∧ 1 ≤ ra ∧ ra - 1 < R - 1 ∧ ra + 1 = rb + 1 then 1 else 0) = 0 :=
    if_neg (by rintro ⟨h, -⟩; exact absurd h (by decide))
  have z22 : (if true = true ∧ true = false ∧ ca = (C - 1) ∧ cb = (C - 1) ∧ 1 ≤ ra ∧ ra - 1 < R - 1 ∧ ra + 0 = rb + 1 then 1 else 0) = 0 :=
    if_neg (by rintro ⟨-, h, -⟩; exact absurd h (by decide))
  have z24 : (if false = true ∧ false = false ∧ ra = 0 ∧ rb = 0 ∧ 0 ≤ ca ∧ ca - 0 < C - 1 ∧ ca + 1 = cb + 0 then 1 else 0) = 0 :=
    if_neg (by rintro ⟨h, -⟩; exact absurd h (by decide))
  have z25 : (if false = true ∧ true = false ∧ ra = 0 ∧ rb = 0 ∧ 1 ≤ ca ∧ ca - 1 < C - 1 ∧ ca + 0 = cb + 1 then 1 else 0) = 0 :=
    if_neg (by rintro ⟨h, -⟩; exact absurd h (by decide))
  have z27 : (if false = true ∧ true = false ∧ ra = 0 ∧ rb = 0 ∧ 1 ≤ ca ∧ ca - 1 < C - 1 ∧ ca + 1 = cb + 1 then 1 else 0) = 0 :=
    if_neg (by rintro ⟨h, -⟩; exact absurd h (by decide))
  have z28 : (if true = true ∧ true = false ∧ ra = 0 ∧ rb = 0 ∧ 1 ≤ ca ∧ ca - 1 < C - 1 ∧ ca + 0 = cb + 1 then 1 else 0) = 0 :=
    if_neg (by rintro ⟨-, h, -⟩; exact absurd h (by decide))
  have z30 : (if false = true ∧ true = false ∧ ra = (R - 1) ∧ rb = (R - 1) ∧ 0 ≤ ca ∧ ca - 0 < C - 1 ∧ ca + 0 = cb + 0 then 1 else 0) = 0 :=
    if_neg (by rintro ⟨h, -⟩; exact absurd h (by decide))
  have z32 : (if false = true ∧ false = false ∧ ra = (R - 1) ∧ rb = (R - 1) ∧ 1 ≤ ca ∧ ca - 1 < C - 1 ∧ ca + 0 = cb + 1 then 1 else 0) = 0 :=
    if_neg (by rintro ⟨h, -⟩; exact absurd h (by decide))
  have z33 : (if false = true ∧ true = false ∧ ra = (R - 1) ∧ rb = (R - 1) ∧ 1 ≤ ca ∧ ca - 1 < C - 1 ∧ ca + 0 = cb + 1 then 1 else 0) = 0 :=
    if_neg (by rintro ⟨h, -⟩; exact absurd h (by decide))
  have z34 : (if true = true ∧ true = false ∧ ra = (R - 1) ∧ rb = (R - 1) ∧ 0 ≤ ca ∧ ca - 0 < C - 1 ∧ ca + 1 = cb + 0 then 1 else 0) = 0 :=
    if_neg (by rintro ⟨-, h, -⟩; exact absurd h (by decide))
  by_cases hs1 : ra = rb ∧ ca = cb
  · by_cases hs2 : ca = 0
    · by_cases hs3 : 1 ≤ ra
      · have q13 : (if true = true ∧ false = false ∧ ca = 0 ∧ cb = 0 ∧ 0 ≤ ra ∧ ra - 0 < R - 1 ∧ ra + 1 = rb + 0 then 1 else 0) = 0 :=
          if_neg (by rintro ⟨-, -, hq⟩; omega)
        have q17 : (if true = true ∧ false = false ∧ ca = 0 ∧ cb = 0 ∧ 1 ≤ ra ∧ ra - 1 < R - 1 ∧ ra + 1 = rb + 1 then 1 else 0) = 1 :=
          if_pos (by and_intros <;> first | rfl | omega)
        have q20 : (if true = true ∧ false = false ∧ ca = (C - 1) ∧ cb = (C - 1) ∧ 0 ≤ ra ∧ ra - 0 < R - 1 ∧ ra + 0 = rb + 0 then 1 else 0) = 0 :=
          if_neg (by rintro ⟨-, -, hq⟩; omega)
        have q23 : (if true = true ∧ false = false ∧ ca = (C - 1) ∧ cb = (C - 1) ∧ 0 ≤ ra ∧ ra - 0 < R - 1 ∧ ra + 1 = rb + 0 then 1 else 0) = 0 :=
          if_neg (by rintro ⟨-, -, hq⟩; omega)
        have q26 : (if true = true ∧ false = false ∧ ra = 0 ∧ rb = 0 ∧ 0 ≤ ca ∧ ca - 0 < C - 1 ∧ ca + 0 = cb + 0 then 1 else 0) = 0 :=
          if_neg (by rintro ⟨-, -, hq⟩; omega)
        have q29 : (if true = true ∧ false = false ∧ ra = 0 ∧ rb = 0 ∧ 0 ≤ ca ∧ ca - 0 < C - 1 ∧ ca + 1 = cb + 0 then 1 else 0) = 0 :=
          if_neg (by rintro ⟨-, -, hq⟩; omega)
        have q31 : (if true = true ∧ false = false ∧ ra = (R - 1) ∧ rb = (R - 1) ∧ 0 ≤ ca ∧ ca - 0 < C - 1 ∧ ca + 1 = cb + 0 then 1 else 0) = 0 :=
          if_neg (by rintro ⟨-, -, hq⟩; omega)
        have q35 : (if true = true ∧ false = false ∧ ra = (R - 1) ∧ rb = (R - 1) ∧ 1 ≤ ca ∧ ca - 1 < C - 1 ∧ ca + 1 = cb + 1 then 1 else 0) = 0 :=
          if_neg (by rintro ⟨-, -, hq⟩; omega)
        have qe : (if bfEdge R C ra ca rb cb then 1 else 0) = 1 :=
          if_pos (by unfold bfEdge; exact Or.inr (Or.inl (by and_intros <;> omega)))
        omega
      · have q13 : (if true = true ∧ false = false ∧ ca = 0 ∧ cb = 0 ∧ 0 ≤ ra ∧ ra - 0 < R - 1 ∧ ra + 1 = rb + 0 then 1 else 0) = 0 :=
          if_neg (by rintro ⟨-, -, hq⟩; omega)
        have q17 : (if true = true ∧ false = false ∧ ca = 0 ∧ cb = 0 ∧ 1 ≤ ra ∧ ra - 1 < R - 1 ∧ ra + 1 = rb + 1 then 1 else 0) = 0 :=
          if_neg (by rintro ⟨-, -, hq⟩; omega)
        have q20 : (if true = true ∧ false = false ∧ ca = (C - 1) ∧ cb = (C - 1) ∧ 0 ≤ ra ∧ ra - 0 < R - 1 ∧ ra + 0 = rb + 0 then 1 else 0) = 0 :=
          if_neg (by rintro ⟨-, -, hq⟩; omega)
        have q23 : (if true = true ∧ false = false ∧ ca = (C - 1) ∧ cb = (C - 1) ∧ 0 ≤ ra ∧ ra - 0 < R - 1 ∧ ra + 1 = rb + 0 then 1 else 0) = 0 :=
          if_neg (by rintro ⟨-, -, hq⟩; omega)
        have q26 : (if true = true ∧ false = false ∧ ra = 0 ∧ rb = 0 ∧ 0 ≤ ca ∧ ca - 0 < C - 1 ∧ ca + 0 = cb + 0 then 1 else 0) = 1 :=
          if_pos (by and_intros <;> first | rfl | omega)
        have q29 : (if true = true ∧ false = false ∧ ra = 0 ∧ rb = 0 ∧ 0 ≤ ca ∧ ca - 0 < C - 1 ∧ ca + 1 = cb + 0 then 1 else 0) = 0 :=
          if_neg (by rintro ⟨-, -, hq⟩; omega)
        have q31 : (if true = true ∧ false = false ∧ ra = (R - 1) ∧ rb = (R - 1) ∧ 0 ≤ ca ∧ ca - 0 < C - 1 ∧ ca + 1 = cb + 0 then 1 else 0) = 0 :=
          if_neg (by rintro ⟨-, -, hq⟩; omega)
        have q35 : (if true = true ∧ false = false ∧ ra = (R - 1) ∧ rb = (R - 1) ∧ 1 ≤ ca ∧ ca - 1 < C - 1 ∧ ca + 1 = cb + 1 then 1 else 0) = 0 :=
          if_neg (by rintro ⟨-, -, hq⟩; omega)
        have qe : (if bfEdge R C ra ca rb cb then 1 else 0) = 1 :=
          if_pos (by unfold bfEdge; exact Or.inr (Or.inr (Or.inr (Or.inr (Or.inl (by and_intros <;> omega))))))
        omega
    · by_cases hs4 : ca = C - 1
      · by_cases hs5 : ra < R - 1
        · have q13 : (if true = true ∧ false = false ∧ ca = 0 ∧ cb = 0 ∧ 0 ≤ ra ∧ ra - 0 < R - 1 ∧ ra + 1 = rb + 0 then 1 else 0) = 0 :=
            if_neg (by rintro ⟨-, -, hq⟩; omega)
          have q17 : (if true = true ∧ false = false ∧ ca = 0 ∧ cb = 0 ∧ 1 ≤ ra ∧ ra - 1 < R - 1 ∧ ra + 1 = rb + 1 then 1 else 0) = 0 :=
            if_neg (by rintro ⟨-, -, hq⟩; omega)
          have q20 : (if true = true ∧ false = false ∧ ca = (C - 1) ∧ cb = (C - 1) ∧ 0 ≤ ra ∧ ra - 0 < R - 1 ∧ ra + 0 = rb + 0 then 1 else 0) = 1 :=
            if_pos (by and_intros <;> first | rfl | omega)
          have q23 : (if true = true ∧ false = false ∧ ca = (C - 1) ∧ cb = (C - 1) ∧ 0 ≤ ra ∧ ra - 0 < R - 1 ∧ ra + 1 = rb + 0 then 1 else 0) = 0 :=
            if_neg (by rintro ⟨-, -, hq⟩; omega)
          have q26 : (if true = true ∧ false = false ∧ ra = 0 ∧ rb = 0 ∧ 0 ≤ ca ∧ ca - 0 < C - 1 ∧ ca + 0 = cb + 0 then 1 else 0) = 0 :=
            if_neg (by rintro ⟨-, -, hq⟩; omega)
          have q29 : (if true = true ∧ false = false ∧ ra = 0 ∧ rb = 0 ∧ 0 ≤ ca ∧ ca - 0 < C - 1 ∧ ca + 1 = cb + 0 then 1 else 0) = 0 :=
            if_neg (by rintro ⟨-, -, hq⟩; omega)
          have q31 : (if true = true ∧ false = false ∧ ra = (R - 1) ∧ rb = (R - 1) ∧ 0 ≤ ca ∧ ca - 0 < C - 1 ∧ ca + 1 = cb + 0 then 1 else 0) = 0 :=
            if_neg (by rintro ⟨-, -, hq⟩; omega)
          have q35 : (if true = true ∧ false = false ∧ ra = (R - 1) ∧ rb = (R - 1) ∧ 1 ≤ ca ∧ ca - 1 < C - 1 ∧ ca + 1 = cb + 1 then 1 else 0) = 0 :=
            if_neg (by rintro ⟨-, -, hq⟩; omega)
          have qe : (if bfEdge R C ra ca rb cb then 1 else 0) = 1 :=
            if_pos (by unfold bfEdge; exact Or.inr (Or.inr (Or.inl (by and_intros <;> omega))))
          omega
        · have q13 : (if true = true ∧ false = false ∧ ca = 0 ∧ cb = 0 ∧ 0 ≤ ra ∧ ra - 0 < R - 1 ∧ ra + 1 = rb + 0 then 1 else 0) = 0 :=
            if_neg (by rintro ⟨-, -, hq⟩; omega)
          have q17 : (if true = true ∧ false = false ∧ ca = 0 ∧ cb = 0 ∧ 1 ≤ ra ∧ ra - 1 < R - 1 ∧ ra + 1 = rb + 1 then 1 else 0) = 0 :=
            if_neg (by rintro ⟨-, -, hq⟩; omega)
          have q20 : (if true = true ∧ false = false ∧ ca = (C - 1) ∧ cb = (C - 1) ∧ 0 ≤ ra ∧ ra - 0 < R - 1 ∧ ra + 0 = rb + 0 then 1 else 0) = 0 :=
            if_neg (by rintro ⟨-, -, hq⟩; omega)
          have q23 : (if true = true ∧ false = false ∧ ca = (C - 1) ∧ cb = (C - 1) ∧ 0 ≤ ra ∧ ra - 0 < R - 1 ∧ ra + 1 = rb + 0 then 1 else 0) = 0 :=
            if_neg (by rintro ⟨-, -, hq⟩; omega)
          have q26 : (if true = true ∧ false = false ∧ ra = 0 ∧ rb = 0 ∧ 0 ≤ ca ∧ ca - 0 < C - 1 ∧ ca + 0 = cb + 0 then 1 else 0) = 0 :=
            if_neg (by rintro ⟨-, -, hq⟩; omega)
          have q29 : (if true = true ∧ false = false ∧ ra = 0 ∧ rb = 0 ∧ 0 ≤ ca ∧ ca - 0 < C - 1 ∧ ca + 1 = cb + 0 then 1 else 0) = 0 :=
            if_neg (by rintro ⟨-, -, hq⟩; omega)
          have q31 : (if true = true ∧ false = false ∧ ra = (R - 1) ∧ rb = (R - 1) ∧ 0 ≤ ca ∧ ca - 0 < C - 1 ∧ ca + 1 = cb + 0 then 1 else 0) = 0 :=
            if_neg (by rintro ⟨-, -, hq⟩; omega)
          have q35 : (if true = true ∧ false = false ∧ ra = (R - 1) ∧ rb = (R - 1) ∧ 1 ≤ ca ∧ ca - 1 < C - 1 ∧ ca + 1 = cb + 1 then 1 else 0) = 1 :=
            if_pos (by and_intros <;> first | rfl | omega)
          have qe : (if bfEdge R C ra ca rb cb then 1 else 0) = 1 :=
            if_pos (by unfold bfEdge; exact Or.inr (Or.inr (Or.inr (Or.inr (Or.inr (Or.inr (Or.inr ((by and_intros <;> omega)))))))))
          omega
      · by_cases hs6 : ra = 0
        · have q13 : (if true = true ∧ false = false ∧ ca = 0 ∧ cb = 0 ∧ 0 ≤ ra ∧ ra - 0 < R - 1 ∧ ra + 1 = rb + 0 then 1 else 0) = 0 :=
            if_neg (by rintro ⟨-, -, hq⟩; omega)
          have q17 : (if true = true ∧ false = false ∧ ca = 0 ∧ cb = 0 ∧ 1 ≤ ra ∧ ra - 1 < R - 1 ∧ ra + 1 = rb + 1 then 1 else 0) = 0 :=
            if_neg (by rintro ⟨-, -, hq⟩; omega)
          have q20 : (if true = true ∧ false = false ∧ ca = (C - 1) ∧ cb = (C - 1) ∧ 0 ≤ ra ∧ ra - 0 < R - 1 ∧ ra + 0 = rb + 0 then 1 else 0) = 0 :=
            if_neg (by rintro ⟨-, -, hq⟩; omega)
          have q23 : (if true = true ∧ false = false ∧ ca = (C - 1) ∧ cb = (C - 1) ∧ 0 ≤ ra ∧ ra - 0 < R - 1 ∧ ra + 1 = rb + 0 then 1 else 0) = 0 :=
            if_neg (by rintro ⟨-, -, hq⟩; omega)
          have q26 : (if true = true ∧ false = false ∧ ra = 0 ∧ rb = 0 ∧ 0 ≤ ca ∧ ca - 0 < C - 1 ∧ ca + 0 = cb + 0 then 1 else 0) = 1 :=
            if_pos (by and_intros <;> first | rfl | omega)
          have q29 : (if true = true ∧ false = false ∧ ra = 0 ∧ rb = 0 ∧ 0 ≤ ca ∧ ca - 0 < C - 1 ∧ ca + 1 = cb + 0 then 1 else 0) = 0 :=
            if_neg (by rintro ⟨-, -, hq⟩; omega)
          have q31 : (if true = true ∧ false = false ∧ ra = (R - 1) ∧ rb = (R - 1) ∧ 0 ≤ ca ∧ ca - 0 < C - 1 ∧ ca + 1 = cb + 0 then 1 else 0) = 0 :=
            if_neg (by rintro ⟨-, -, hq⟩; omega)
          have q35 : (if true = true ∧ false = false ∧ ra = (R - 1) ∧ rb = (R - 1) ∧ 1 ≤ ca ∧ ca - 1 < C - 1 ∧ ca + 1 = cb + 1 then 1 else 0) = 0 :=
            if_neg (by rintro ⟨-, -, hq⟩; omega)
          have qe : (if bfEdge R C ra ca rb cb then 1 else 0) = 1 :=
            if_pos (by unfold bfEdge; exact Or.inr (Or.inr (Or.inr (Or.inr (Or.inl (by and_intros <;> omega))))))
          omega
        · by_cases hs7 : ra = R - 1
          · have q13 : (if true = true ∧ false = false ∧ ca = 0 ∧ cb = 0 ∧ 0 ≤ ra ∧ ra - 0 < R - 1 ∧ ra + 1 = rb + 0 then 1 else 0) = 0 :=
              if_neg (by rintro ⟨-, -, hq⟩; omega)
            have q17 : (if true = true ∧ false = false ∧ ca = 0 ∧ cb = 0 ∧ 1 ≤ ra ∧ ra - 1 < R - 1 ∧ ra + 1 = rb + 1 then 1 else 0) = 0 :=
              if_neg (by rintro ⟨-, -, hq⟩; omega)
            have q20 : (if true = true ∧ false = false ∧ ca = (C - 1) ∧ cb = (C - 1) ∧ 0 ≤ ra ∧ ra - 0 < R - 1 ∧ ra + 0 = rb + 0 then 1 else 0) = 0 :=
              if_neg (by rintro ⟨-, -, hq⟩; omega)
            have q23 : (if true = true ∧ false = false ∧ ca = (C - 1) ∧ cb = (C - 1) ∧ 0 ≤ ra ∧ ra - 0 < R - 1 ∧ ra + 1 = rb + 0 then 1 else 0) = 0 :=
              if_neg (by rintro ⟨-, -, hq⟩; omega)
            have q26 : (if true = true ∧ false = false ∧ ra = 0 ∧ rb = 0 ∧ 0 ≤ ca ∧ ca - 0 < C - 1 ∧ ca + 0 = cb + 0 then 1 else 0) = 0 :=
              if_neg (by rintro ⟨-, -, hq⟩; omega)
            have q29 : (if true = true ∧ false = false ∧ ra = 0 ∧ rb = 0 ∧ 0 ≤ ca ∧ ca - 0 < C - 1 ∧ ca + 1 = cb + 0 then 1 else 0) = 0 :=
              if_neg (by rintro ⟨-, -, hq⟩; omega)
            have q31 : (if true = true ∧ false = false ∧ ra = (R - 1) ∧ rb = (R - 1) ∧ 0 ≤ ca ∧ ca - 0 < C - 1 ∧ ca + 1 = cb + 0 then 1 else 0) = 0 :=
              if_neg (by rintro ⟨-, -, hq⟩; omega)
            have q35 : (if true = true ∧ false = false ∧ ra = (R - 1) ∧ rb = (R - 1) ∧ 1 ≤ ca ∧ ca - 1 < C - 1 ∧ ca + 1 = cb + 1 then 1 else 0) = 1 :=
              if_pos (by and_intros <;> first | rfl | omega)
            have qe : (if bfEdge R C ra ca rb cb then 1 else 0) = 1 :=
              if_pos (by unfold bfEdge; exact Or.inr (Or.inr (Or.inr (Or.inr (Or.inr (Or.inr (Or.inr ((by and_intros <;> omega)))))))))
            omega
          · have q13 : (if true = true ∧ false = false ∧ ca = 0 ∧ cb = 0 ∧ 0 ≤ ra ∧ ra - 0 < R - 1 ∧ ra + 1 = rb + 0 then 1 else 0) = 0 :=
              if_neg (by rintro ⟨-, -, hq⟩; omega)
            have q17 : (if true = true ∧ false = false ∧ ca = 0 ∧ cb = 0 ∧ 1 ≤ ra ∧ ra - 1 < R - 1 ∧ ra + 1 = rb + 1 then 1 else 0) = 0 :=
              if_neg (by rintro ⟨-, -, hq⟩; omega)
            have q20 : (if true = true ∧ false = false ∧ ca = (C - 1) ∧ cb = (C - 1) ∧ 0 ≤ ra ∧ ra - 0 < R - 1 ∧ ra + 0 = rb + 0 then 1 else 0) = 0 :=
              if_neg (by rintro ⟨-, -, hq⟩; omega)
            have q23 : (if true = true ∧ false = false ∧ ca = (C - 1) ∧ cb = (C - 1) ∧ 0 ≤ ra ∧ ra - 0 < R - 1 ∧ ra + 1 = rb + 0 then 1 else 0) = 0 :=
              if_neg (by rintro ⟨-, -, hq⟩; omega)
            have q26 : (if true = true ∧ false = false ∧ ra = 0 ∧ rb = 0 ∧ 0 ≤ ca ∧ ca - 0 < C - 1 ∧ ca + 0 = cb + 0 then 1 else 0) = 0 :=
              if_neg (by rintro ⟨-, -, hq⟩; omega)
            have q29 : (if true = true ∧ false = false ∧ ra = 0 ∧ rb = 0 ∧ 0 ≤ ca ∧ ca - 0 < C - 1 ∧ ca + 1 = cb + 0 then 1 else 0) = 0 :=
              if_neg (by rintro ⟨-, -, hq⟩; omega)
            have q31 : (if true = true ∧ false = false ∧ ra = (R - 1) ∧ rb = (R - 1) ∧ 0 ≤ ca ∧ ca - 0 < C - 1 ∧ ca + 1 = cb + 0 then 1 else 0) = 0 :=
              if_neg (by rintro ⟨-, -, hq⟩; omega)
            have q35 : (if true = true ∧ false = false ∧ ra = (R - 1) ∧ rb = (R - 1) ∧ 1 ≤ ca ∧ ca - 1 < C - 1 ∧ ca + 1 = cb + 1 then 1 else 0) = 0 :=
              if_neg (by rintro ⟨-, -, hq⟩; omega)
            have qe : (if bfEdge R C ra ca rb cb then 1 else 0) = 0 :=
              if_neg (by unfold bfEdge; omega)
            omega
  · by_cases hs8 : ca = 0 ∧ cb = 0 ∧ rb = ra + 1
    · have q13 : (if true = true ∧ false = false ∧ ca = 0 ∧ cb = 0 ∧ 0 ≤ ra ∧ ra - 0 < R - 1 ∧ ra + 1 = rb + 0 then 1 else 0) = 1 :=
        if_pos (by and_intros <;> first | rfl | omega)
      have q17 : (if true = true ∧ false = false ∧ ca = 0 ∧ cb = 0 ∧ 1 ≤ ra ∧ ra - 1 < R - 1 ∧ ra + 1 = rb + 1 then 1 else 0) = 0 :=
        if_neg (by rintro ⟨-, -, hq⟩; omega)
      have q20 : (if true = true ∧ false = false ∧ ca = (C - 1) ∧ cb = (C - 1) ∧ 0 ≤ ra ∧ ra - 0 < R - 1 ∧ ra + 0 = rb + 0 then 1 else 0) = 0 :=
        if_neg (by rintro ⟨-, -, hq⟩; omega)
      have q23 : (if true = true ∧ false = false ∧ ca = (C - 1) ∧ cb = (C - 1) ∧ 0 ≤ ra ∧ ra - 0 < R - 1 ∧ ra + 1 = rb + 0 then 1 else 0) = 0 :=
        if_neg (by rintro ⟨-, -, hq⟩; omega)
      have q26 : (if true = true ∧ false = false ∧ ra = 0 ∧ rb = 0 ∧ 0 ≤ ca ∧ ca - 0 < C - 1 ∧ ca + 0 = cb + 0 then 1 else 0) = 0 :=
        if_neg (by rintro ⟨-, -, hq⟩; omega)
      have q29 : (if true = true ∧ false = false ∧ ra = 0 ∧ rb = 0 ∧ 0 ≤ ca ∧ ca - 0 < C - 1 ∧ ca + 1 = cb + 0 then 1 else 0) = 0 :=
        if_neg (by rintro ⟨-, -, hq⟩; omega)
      have q31 : (if true = true ∧ false = false ∧ ra = (R - 1) ∧ rb = (R - 1) ∧ 0 ≤ ca ∧ ca - 0 < C - 1 ∧ ca + 1 = cb + 0 then 1 else 0) = 0 :=
        if_neg (by rintro ⟨-, -, hq⟩; omega)
      have q35 : (if true = true ∧ false = false ∧ ra = (R - 1) ∧ rb = (R - 1) ∧ 1 ≤ ca ∧ ca - 1 < C - 1 ∧ ca + 1 = cb + 1 then 1 else 0) = 0 :=
        if_neg (by rintro ⟨-, -, hq⟩; omega)
      have qe : (if bfEdge R C ra ca rb cb then 1 else 0) = 1 :=
        if_pos (by unfold bfEdge; exact Or.inl (by and_intros <;> omega))
      omega
    · by_cases hs9 : ca = C - 1 ∧ cb = C - 1 ∧ rb = ra + 1
      · have q13 : (if true = true ∧ false = false ∧ ca = 0 ∧ cb = 0 ∧ 0 ≤ ra ∧ ra - 0 < R - 1 ∧ ra + 1 = rb + 0 then 1 else 0) = 0 :=
          if_neg (by rintro ⟨-, -, hq⟩; omega)
        have q17 : (if true = true ∧ false = false ∧ ca = 0 ∧ cb = 0 ∧ 1 ≤ ra ∧ ra - 1 < R - 1 ∧ ra + 1 = rb + 1 then 1 else 0) = 0 :=
          if_neg (by rintro ⟨-, -, hq⟩; omega)
        have q20 : (if true = true ∧ false = false ∧ ca = (C - 1) ∧ cb = (C - 1) ∧ 0 ≤ ra ∧ ra - 0 < R - 1 ∧ ra + 0 = rb + 0 then 1 else 0) = 0 :=
          if_neg (by rintro ⟨-, -, hq⟩; omega)
        have q23 : (if true = true ∧ false = false ∧ ca = (C - 1) ∧ cb = (C - 1) ∧ 0 ≤ ra ∧ ra - 0 < R - 1 ∧ ra + 1 = rb + 0 then 1 else 0) = 1 :=
          if_pos (by and_intros <;> first | rfl | omega)
        have q26 : (if true = true ∧ false = false ∧ ra = 0 ∧ rb = 0 ∧ 0 ≤ ca ∧ ca - 0 < C - 1 ∧ ca + 0 = cb + 0 then 1 else 0) = 0 :=
          if_neg (by rintro ⟨-, -, hq⟩; omega)
        have q29 : (if true = true ∧ false = false ∧ ra = 0 ∧ rb = 0 ∧ 0 ≤ ca ∧ ca - 0 < C - 1 ∧ ca + 1 = cb + 0 then 1 else 0) = 0 :=
          if_neg (by rintro ⟨-, -, hq⟩; omega)
        have q31 : (if true = true ∧ false = false ∧ ra = (R - 1) ∧ rb = (R - 1) ∧ 0 ≤ ca ∧ ca - 0 < C - 1 ∧ ca + 1 = cb + 0 then 1 else 0) = 0 :=
          if_neg (by rintro ⟨-, -, hq⟩; omega)
        have q35 : (if true = true ∧ false = false ∧ ra = (R - 1) ∧ rb = (R - 1) ∧ 1 ≤ ca ∧ ca - 1 < C - 1 ∧ ca + 1 = cb + 1 then 1 else 0) = 0 :=
          if_neg (by rintro ⟨-, -, hq⟩; omega)
        have qe : (if bfEdge R C ra ca rb cb then 1 else 0) = 1 :=
          if_pos (by unfold bfEdge; exact Or.inr (Or.inr (Or.inr (Or.inl (by and_intros <;> omega)))))
        omega
      · by_cases hs10 : ra = 0 ∧ rb = 0 ∧ cb = ca + 1
        · have q13 : (if true = true ∧ false = false ∧ ca = 0 ∧ cb = 0 ∧ 0 ≤ ra ∧ ra - 0 < R - 1 ∧ ra + 1 = rb + 0 then 1 else 0) = 0 :=
            if_neg (by rintro ⟨-, -, hq⟩; omega)
          have q17 : (if true = true ∧ false = false ∧ ca = 0 ∧ cb = 0 ∧ 1 ≤ ra ∧ ra - 1 < R - 1 ∧ ra + 1 = rb + 1 then 1 else 0) = 0 :=
            if_neg (by rintro ⟨-, -, hq⟩; omega)
          have q20 : (if true = true ∧ false = false ∧ ca = (C - 1) ∧ cb = (C - 1) ∧ 0 ≤ ra ∧ ra - 0 < R - 1 ∧ ra + 0 = rb + 0 then 1 else 0) = 0 :=
            if_neg (by rintro ⟨-, -, hq⟩; omega)
          have q23 : (if true = true ∧ false = false ∧ ca = (C - 1) ∧ cb = (C - 1) ∧ 0 ≤ ra ∧ ra - 0 < R - 1 ∧ ra + 1 = rb + 0 then 1 else 0) = 0 :=
            if_neg (by rintro ⟨-, -, hq⟩; omega)
          have q26 : (if true = true ∧ false = false ∧ ra = 0 ∧ rb = 0 ∧ 0 ≤ ca ∧ ca - 0 < C - 1 ∧ ca + 0 = cb + 0 then 1 else 0) = 0 :=
            if_neg (by rintro ⟨-, -, hq⟩; omega)
          have q29 : (if true = true ∧ false = false ∧ ra = 0 ∧ rb = 0 ∧ 0 ≤ ca ∧ ca - 0 < C - 1 ∧ ca + 1 = cb + 0 then 1 else 0) = 1 :=
            if_pos (by and_intros <;> first | rfl | omega)
          have q31 : (if true = true ∧ false = false ∧ ra = (R - 1) ∧ rb = (R - 1) ∧ 0 ≤ ca ∧ ca - 0 < C - 1 ∧ ca + 1 = cb + 0 then 1 else 0) = 0 :=
            if_neg (by rintro ⟨-, -, hq⟩; omega)
          have q35 : (if true = true ∧ false = false ∧ ra = (R - 1) ∧ rb = (R - 1) ∧ 1 ≤ ca ∧ ca - 1 < C - 1 ∧ ca + 1 = cb + 1 then 1 else 0) = 0 :=
            if_neg (by rintro ⟨-, -, hq⟩; omega)
          have qe : (if bfEdge R C ra ca rb cb then 1 else 0) = 1 :=
            if_pos (by unfold bfEdge; exact Or.inr (Or.inr (Or.inr (Or.inr (Or.inr (Or.inl (by and_intros <;> omega)))))))
          omega
        · by_cases hs11 : ra = R - 1 ∧ rb = R - 1 ∧ cb = ca + 1
          · have q13 : (if true = true ∧ false = false ∧ ca = 0 ∧ cb = 0 ∧ 0 ≤ ra ∧ ra - 0 < R - 1 ∧ ra + 1 = rb + 0 then 1 else 0) = 0 :=
              if_neg (by rintro ⟨-, -, hq⟩; omega)
            have q17 : (if true = true ∧ false = false ∧ ca = 0 ∧ cb = 0 ∧ 1 ≤ ra ∧ ra - 1 < R - 1 ∧ ra + 1 = rb + 1 then 1 else 0) = 0 :=
              if_neg (by rintro ⟨-, -, hq⟩; omega)
            have q20 : (if true = true ∧ false = false ∧ ca = (C - 1) ∧ cb = (C - 1) ∧ 0 ≤ ra ∧ ra - 0 < R - 1 ∧ ra + 0 = rb + 0 then 1 else 0) = 0 :=
              if_neg (by rintro ⟨-, -, hq⟩; omega)
            have q23 : (if true = true ∧ false = false ∧ ca = (C - 1) ∧ cb = (C - 1) ∧ 0 ≤ ra ∧ ra - 0 < R - 1 ∧ ra + 1 = rb + 0 then 1 else 0) = 0 :=
              if_neg (by rintro ⟨-, -, hq⟩; omega)
            have q26 : (if true = true ∧ false = false ∧ ra = 0 ∧ rb = 0 ∧ 0 ≤ ca ∧ ca - 0 < C - 1 ∧ ca + 0 = cb + 0 then 1 else 0) = 0 :=
              if_neg (by rintro ⟨-, -, hq⟩; omega)
            have q29 : (if true = true ∧ false = false ∧ ra = 0 ∧ rb = 0 ∧ 0 ≤ ca ∧ ca - 0 < C - 1 ∧ ca + 1 = cb + 0 then 1 else 0) = 0 :=
              if_neg (by rintro ⟨-, -, hq⟩; omega)
            have q31 : (if true = true ∧ false = false ∧ ra = (R - 1) ∧ rb = (R - 1) ∧ 0 ≤ ca ∧ ca - 0 < C - 1 ∧ ca + 1 = cb + 0 then 1 else 0) = 1 :=
              if_pos (by and_intros <;> first | rfl | omega)
            have q35 : (if true = true ∧ false = false ∧ ra = (R - 1) ∧ rb = (R - 1) ∧ 1 ≤ ca ∧ ca - 1 < C - 1 ∧ ca + 1 = cb + 1 then 1 else 0) = 0 :=
              if_neg (by rintro ⟨-, -, hq⟩; omega)
            have qe : (if bfEdge R C ra ca rb cb then 1 else 0) = 1 :=
              if_pos (by unfold bfEdge; exact Or.inr (Or.inr (Or.inr (Or.inr (Or.inr (Or.inr (Or.inl (by and_intros <;> omega))))))))
            omega
          · have q13 : (if true = true ∧ false = false ∧ ca = 0 ∧ cb = 0 ∧ 0 ≤ ra ∧ ra - 0 < R - 1 ∧ ra + 1 = rb + 0 then 1 else 0) = 0 :=
              if_neg (by rintro ⟨-, -, hq⟩; omega)
            have q17 : (if true = true ∧ false = false ∧ ca = 0 ∧ cb = 0 ∧ 1 ≤ ra ∧ ra - 1 < R - 1 ∧ ra + 1 = rb + 1 then 1 else 0) = 0 :=
              if_neg (by rintro ⟨-, -, hq⟩; omega)
            have q20 : (if true = true ∧ false = false ∧ ca = (C - 1) ∧ cb = (C - 1) ∧ 0 ≤ ra ∧ ra - 0 < R - 1 ∧ ra + 0 = rb + 0 then 1 else 0) = 0 :=
              if_neg (by rintro ⟨-, -, hq⟩; omega)
            have q23 : (if true = true ∧ false = false ∧ ca = (C - 1) ∧ cb = (C - 1) ∧ 0 ≤ ra ∧ ra - 0 < R - 1 ∧ ra + 1 = rb + 0 then 1 else 0) = 0 :=
              if_neg (by rintro ⟨-, -, hq⟩; omega)
            have q26 : (if true = true ∧ false = false ∧ ra = 0 ∧ rb = 0 ∧ 0 ≤ ca ∧ ca - 0 < C - 1 ∧ ca + 0 = cb + 0 then 1 else 0) = 0 :=
              if_neg (by rintro ⟨-, -, hq⟩; omega)
            have q29 : (if true = true ∧ false = false ∧ ra = 0 ∧ rb = 0 ∧ 0 ≤ ca ∧ ca - 0 < C - 1 ∧ ca + 1 = cb + 0 then 1 else 0) = 0 :=
              if_neg (by rintro ⟨-, -, hq⟩; omega)
            have q31 : (if true = true ∧ false = false ∧ ra = (R - 1) ∧ rb = (R - 1) ∧ 0 ≤ ca ∧ ca - 0 < C - 1 ∧ ca + 1 = cb + 0 then 1 else 0) = 0 :=
              if_neg (by rintro ⟨-, -, hq⟩; omega)
            have q35 : (if true = true ∧ false = false ∧ ra = (R - 1) ∧ rb = (R - 1) ∧ 1 ≤ ca ∧ ca - 1 < C - 1 ∧ ca + 1 = cb + 1 then 1 else 0) = 0 :=
              if_neg (by rintro ⟨-, -, hq⟩; omega)
            have qe : (if bfEdge R C ra ca rb cb then 1 else 0) = 0 :=
              if_neg (by unfold bfEdge; omega)
            omega

/-- The set of directed edges between two BB-side vertices that occur
in the mesh of `create_solid_lithophane`, as an explicit linear predicate on the
grid coordinates. -/
def bbEdge (R C ra ca rb cb : ℕ) : Prop :=
  (ra < R - 1 ∧ ca < C - 1 ∧ ra = rb ∧ ca + 1 = cb) ∨
  (1 ≤ ca ∧ ra < R - 1 ∧ ca - 1 < C - 1 ∧ ra + 1 = rb ∧ ca = cb + 1) ∨
  (1 ≤ ra ∧ ra - 1 < R - 1 ∧ ca < C - 1 ∧ ra = rb + 1 ∧ ca = cb) ∨
  (1 ≤ ca ∧ ra < R - 1 ∧ ca - 1 < C - 1 ∧ ra + 1 = rb ∧ ca + 1 = cb + 1) ∨
  (1 ≤ ra ∧ 1 ≤ ca ∧ ra - 1 < R - 1 ∧ ca - 1 < C - 1 ∧ ra + 1 = rb + 1 ∧ ca = cb + 1) ∨
  (1 ≤ ra ∧ ra - 1 < R - 1 ∧ ca < C - 1 ∧ ra = rb + 1 ∧ ca + 1 = cb) ∨
  (ca = 0 ∧ cb = 0 ∧ ra < R - 1 ∧ ra + 1 = rb) ∨
  (ca = (C - 1) ∧ cb = (C - 1) ∧ 1 ≤ ra ∧ ra - 1 < R - 1 ∧ ra = rb + 1) ∨
  (ra = 0 ∧ rb = 0 ∧ 1 ≤ ca ∧ ca - 1 < C - 1 ∧ ca = cb + 1) ∨
  (ra = (R - 1) ∧ rb = (R - 1) ∧ ca < C - 1 ∧ ca + 1 = cb)

instance bbEdgeDec (R C ra ca rb cb : ℕ) : Decidable (bbEdge R C ra ca rb cb) := by
  unfold bbEdge; infer_instance

/-- Directed-edge count between two BB-side vertices equals the
indicator of `bbEdge`. -/
theorem count_bb (R C : ℕ) (hR : 2 ≤ R) (hC : 2 ≤ C) (ra ca rb cb : ℕ)
    (hra : ra < R) (hca : ca < C) (hrb : rb < R) (hcb : cb < C) :
    ecount (vid R C true ra ca, vid R C true rb cb) (dedges R C)
    = if bbEdge R C ra ca rb cb then 1 else 0 := by
  rw [ecount_vid_eq R C hR hC true true ra ca rb cb hra hca hrb hcb]
  have z0 : (if false = true ∧ false = true ∧ 0 ≤ ra ∧ 0 ≤ ca ∧ ra - 0 < R - 1 ∧ ca - 0 < C - 1 ∧ ra + 1 = rb + 0 ∧ ca + 0 = cb + 0 then 1 else 0) = 0 :=
    if_neg (by rintro ⟨h, -⟩; exact absurd h (by decide))
  have z1 : (if false = true ∧ false = true ∧ 1 ≤ ra ∧ 0 ≤ ca ∧ ra - 1 < R - 1 ∧ ca - 0 < C - 1 ∧ ra + 0 = rb + 1 ∧ ca + 1 = cb + 0 then 1 else 0) = 0 :=
    if_neg (by rintro ⟨h, -⟩; exact absurd h (by decide))
  have z2 : (if false = true ∧ false = true ∧ 0 ≤ ra ∧ 1 ≤ ca ∧ ra - 0 < R - 1 ∧ ca - 1 < C - 1 ∧ ra + 0 = rb + 0 ∧ ca + 0 = cb + 1 then 1 else 0) = 0 :=
    if_neg (by rintro ⟨h, -⟩; exact absurd h (by decide))
  have z3 : (if false = true ∧ false = true ∧ 0 ≤ ra ∧ 1 ≤ ca ∧ ra - 0 < R - 1 ∧ ca - 1 < C - 1 ∧ ra + 1 = rb + 0 ∧ ca + 0 = cb + 1 then 1 else 0) = 0 :=
    if_neg (by rintro ⟨h, -⟩; exact absurd h (by decide))
  have z4 : (if false = true ∧ false = true ∧ 1 ≤ ra ∧ 0 ≤ ca ∧ ra - 1 < R - 1 ∧ ca - 0 < C - 1 ∧ ra + 1 = rb + 1 ∧ ca + 1 = cb + 0 then 1 else 0) = 0 :=
    if_neg (by rintro ⟨h, -⟩; exact absurd h (by decide))
  have z5 : (if false = true ∧ false = true ∧ 1 ≤ ra ∧ 1 ≤ ca ∧ ra - 1 < R - 1 ∧ ca - 1 < C - 1 ∧ ra + 0 = rb + 1 ∧ ca + 1 = cb + 1 then 1 else 0) = 0 :=
    if_neg (by rintro ⟨h, -⟩; exact absurd h (by decide))
  have z12 : (if false = true ∧ true = true ∧ ca = 0 ∧ cb = 0 ∧ 0 ≤ ra ∧ ra - 0 < R - 1 ∧ ra + 0 = rb + 0 then 1 else 0) = 0 :=
    if_neg (by rintro ⟨h, -⟩; exact absurd h (by decide))
  have z13 : (if true = true ∧ false = true ∧ ca = 0 ∧ cb = 0 ∧ 0 ≤ ra ∧ ra - 0 < R - 1 ∧ ra + 1 = rb + 0 then 1 else 0) = 0 :=
    if_neg (by rintro ⟨-, h, -⟩; exact absurd h (by decide))
  have z14 : (if false = true ∧ false = true ∧ ca = 0 ∧ cb = 0 ∧ 1 ≤ ra ∧ ra - 1 < R - 1 ∧ ra + 0 = rb + 1 then 1 else 0) = 0 :=
    if_neg (by rintro ⟨h, -⟩; exact absurd h (by decide))
  have z15 : (if false = true ∧ true = true ∧ ca = 0 ∧ cb = 0 ∧ 1 ≤ ra ∧ ra - 1 < R - 1 ∧ ra + 0 = rb + 1 then 1 else 0) = 0 :=
    if_neg (by rintro ⟨h, -⟩; exact absurd h (by decide))
  have z17 : (if true = true ∧ false = true ∧ ca = 0 ∧ cb = 0 ∧ 1 ≤ ra ∧ ra - 1 < R - 1 ∧ ra + 1 = rb + 1 then 1 else 0) = 0 :=
    if_neg (by rintro ⟨-, h, -⟩; exact absurd h (by decide))
  have z18 : (if false = true ∧ false = true ∧ ca = (C - 1) ∧ cb = (C - 1) ∧ 0 ≤ ra ∧ ra - 0 < R - 1 ∧ ra + 1 = rb + 0 then 1 else 0) = 0 :=
    if_neg (by rintro ⟨h, -⟩; exact absurd h (by decide))
  have z19 : (if false = true ∧ true = true ∧ ca = (C - 1) ∧ cb = (C - 1) ∧ 1 ≤ ra ∧ ra - 1 < R - 1 ∧ ra + 0 = rb + 1 then 1 else 0) = 0 :=
    if_neg (by rintro ⟨h, -⟩; exact absurd h (by decide))
  have z20 : (if true = true ∧ false = true ∧ ca = (C - 1) ∧ cb = (C - 1) ∧ 0 ≤ ra ∧ ra - 0 < R - 1 ∧ ra + 0 = rb + 0 then 1 else 0) = 0 :=
    if_neg (by rintro ⟨-, h, -⟩; exact absurd h (by decide))
  have z21 : (if false = true ∧ true = true ∧ ca = (C - 1) ∧ cb = (C - 1) ∧ 1 ≤ ra ∧ ra - 1 < R - 1 ∧ ra + 1 = rb + 1 then 1 else 0) = 0 :=
    if_neg (by rintro ⟨h, -⟩; exact absurd h (by decide))
  have z23 : (if true = true ∧ false = true ∧ ca = (C - 1) ∧ cb = (C - 1) ∧ 0 ≤ ra ∧ ra - 0 < R - 1 ∧ ra + 1 = rb + 0 then 1 else 0) = 0 :=
    if_neg (by rintro ⟨-, h, -⟩; exact absurd h (by decide))
  have z24 : (if false = true ∧ false = true ∧ ra = 0 ∧ rb = 0 ∧ 0 ≤ ca ∧ ca - 0 < C - 1 ∧ ca + 1 = cb + 0 then 1 else 0) = 0 :=
    if_neg (by rintro ⟨h, -⟩; exact absurd h (by decide))
  have z25 : (if false = true ∧ true = true ∧ ra = 0 ∧ rb = 0 ∧ 1 ≤ ca ∧ ca - 1 < C - 1 ∧ ca + 0 = cb + 1 then 1 else 0) = 0 :=
    if_neg (by rintro ⟨h, -⟩; exact absurd h (by decide))
  have z26 : (if true = true ∧ false = true ∧ ra = 0 ∧ rb = 0 ∧ 0 ≤ ca ∧ ca - 0 < C - 1 ∧ ca + 0 = cb + 0 then 1 else 0) = 0 :=
    if_neg (by rintro ⟨-, h, -⟩; exact absurd h (by decide))
  have z27 : (if false = true ∧ true = true ∧ ra = 0 ∧ rb = 0 ∧ 1 ≤ ca ∧ ca - 1 < C - 1 ∧ ca + 1 = cb + 1 then 1 else 0) = 0 :=
    if_neg (by rintro ⟨h, -⟩; exact absurd h (by decide))
  have z29 : (if true = true ∧ false = true ∧ ra = 0 ∧ rb = 0 ∧ 0 ≤ ca ∧ ca - 0 < C - 1 ∧ ca + 1 = cb + 0 then 1 else 0) = 0 :=
    if_neg (by rintro ⟨-, h, -⟩; exact absurd h (by decide))
  have z30 : (if false = true ∧ true = true ∧ ra = (R - 1) ∧ rb = (R - 1) ∧ 0 ≤ ca ∧ ca - 0 < C - 1 ∧ ca + 0 = cb + 0 then 1 else 0) = 0 :=
    if_neg (by rintro ⟨h, -⟩; exact absurd h (by decide))
  have z31 : (if true = true ∧ false = true ∧ ra = (R - 1) ∧ rb = (R - 1) ∧ 0 ≤ ca ∧ ca - 0 < C - 1 ∧ ca + 1 = cb + 0 then 1 else 0) = 0 :=
    if_neg (by rintro ⟨-, h, -⟩; exact absurd h (by decide))
  have z32 : (if false = true ∧ false = true ∧ ra = (R - 1) ∧ rb = (R - 1) ∧ 1 ≤ ca ∧ ca - 1 < C - 1 ∧ ca + 0 = cb + 1 then 1 else 0) = 0 :=
    if_neg (by rintro ⟨h, -⟩; exact absurd h (by decide))
  have z33 : (if false = true ∧ true = true ∧ ra = (R - 1) ∧ rb = (R - 1) ∧ 1 ≤ ca ∧ ca - 1 < C - 1 ∧ ca + 0 = cb + 1 then 1 else 0) = 0 :=
    if_neg (by rintro ⟨h, -⟩; exact absurd h (by decide))
  have z35 : (if true = true ∧ false = true ∧ ra = (R - 1) ∧ rb = (R - 1) ∧ 1 ≤ ca ∧ ca - 1 < C - 1 ∧ ca + 1 = cb + 1 then 1 else 0) = 0 :=
    if_neg (by rintro ⟨-, h, -⟩; exact absurd h (by decide))
  by_cases hs1 : rb = ra + 1 ∧ cb = ca
  · by_cases hs2 : ca = 0
    · have q6 : (if true = true ∧ true = true ∧ 0 ≤ ra ∧ 0 ≤ ca ∧ ra - 0 < R - 1 ∧ ca - 0 < C - 1 ∧ ra + 0 = rb + 0 ∧ ca + 1 = cb + 0 then 1 else 0) = 0 :=
        if_neg (by rintro ⟨-, -, hq⟩; omega)
      have q7 : (if true = true ∧ true = true ∧ 0 ≤ ra ∧ 1 ≤ ca ∧ ra - 0 < R - 1 ∧ ca - 1 < C - 1 ∧ ra + 1 = rb + 0 ∧ ca + 0 = cb + 1 then 1 else 0) = 0 :=
        if_neg (by rintro ⟨-, -, hq⟩; omega)
      have q8 : (if true = true ∧ true = true ∧ 1 ≤ ra ∧ 0 ≤ ca ∧ ra - 1 < R - 1 ∧ ca - 0 < C - 1 ∧ ra + 0 = rb + 1 ∧ ca + 0 = cb + 0 then 1 else 0) = 0 :=
        if_neg (by rintro ⟨-, -, hq⟩; omega)
      have q9 : (if true = true ∧ true = true ∧ 0 ≤ ra ∧ 1 ≤ ca ∧ ra - 0 < R - 1 ∧ ca - 1 < C - 1 ∧ ra + 1 = rb + 0 ∧ ca + 1 = cb + 1 then 1 else 0) = 0 :=
        if_neg (by rintro ⟨-, -, hq⟩; omega)
      have q10 : (if true = true ∧ true = true ∧ 1 ≤ ra ∧ 1 ≤ ca ∧ ra - 1 < R - 1 ∧ ca - 1 < C - 1 ∧ ra + 1 = rb + 1 ∧ ca + 0 = cb + 1 then 1 else 0) = 0 :=
        if_neg (by rintro ⟨-, -, hq⟩; omega)
      have q11 : (if true = true ∧ true = true ∧ 1 ≤ ra ∧ 0 ≤ ca ∧ ra - 1 < R - 1 ∧ ca - 0 < C - 1 ∧ ra + 0 = rb + 1 ∧ ca + 1 = cb + 0 then 1 else 0) = 0 :=
        if_neg (by rintro ⟨-, -, hq⟩; omega)
      have q16 : (if true = true ∧ true = true ∧ ca = 0 ∧ cb = 0 ∧ 0 ≤ ra ∧ ra - 0 < R - 1 ∧ ra + 1 = rb + 0 then 1 else 0) = 1 :=
        if_pos (by and_intros <;> first | rfl | omega)
      have q22 : (if true = true ∧ true = true ∧ ca = (C - 1) ∧ cb = (C - 1) ∧ 1 ≤ ra ∧ ra - 1 < R - 1 ∧ ra + 0 = rb + 1 then 1 else 0) = 0 :=
        if_neg (by rintro ⟨-, -, hq⟩; omega)
      have q28 : (if true = true ∧ true = true ∧ ra = 0 ∧ rb = 0 ∧ 1 ≤ ca ∧ ca - 1 < C - 1 ∧ ca + 0 = cb + 1 then 1 else 0) = 0 :=
        if_neg (by rintro ⟨-, -, hq⟩; omega)
      have q34 : (if true = true ∧ true = true ∧ ra = (R - 1) ∧ rb = (R - 1) ∧ 0 ≤ ca ∧ ca - 0 < C - 1 ∧ ca + 1 = cb + 0 then 1 else 0) = 0 :=
        if_neg (by rintro ⟨-, -, hq⟩; omega)
      have qe : (if bbEdge R C ra ca rb cb then 1 else 0) = 1 :=
        if_pos (by unfold bbEdge; exact Or.inr (Or.inr (Or.inr (Or.inr (Or.inr (Or.inr (Or.inl (by and_intros <;> omega))))))))
      omega
    · have q6 : (if true = true ∧ true = true ∧ 0 ≤ ra ∧ 0 ≤ ca ∧ ra - 0 < R - 1 ∧ ca - 0 < C - 1 ∧ ra + 0 = rb + 0 ∧ ca + 1 = cb + 0 then 1 else 0) = 0 :=
        if_neg (by rintro ⟨-, -, hq⟩; omega)
      have q7 : (if true = true ∧ true = true ∧ 0 ≤ ra ∧ 1 ≤ ca ∧ ra - 0 < R - 1 ∧ ca - 1 < C - 1 ∧ ra + 1 = rb + 0 ∧ ca + 0 = cb + 1 then 1 else 0) = 0 :=
        if_neg (by rintro ⟨-, -, hq⟩; omega)
      have q8 : (if true = true ∧ true = true ∧ 1 ≤ ra ∧ 0 ≤ ca ∧ ra - 1 < R - 1 ∧ ca - 0 < C - 1 ∧ ra + 0 = rb + 1 ∧ ca + 0 = cb + 0 then 1 else 0) = 0 :=
        if_neg (by rintro ⟨-, -, hq⟩; omega)
      have q9 : (if true = true ∧ true = true ∧ 0 ≤ ra ∧ 1 ≤ ca ∧ ra - 0 < R - 1 ∧ ca - 1 < C - 1 ∧ ra + 1 = rb + 0 ∧ ca + 1 = cb + 1 then 1 else 0) = 1 :=
        if_pos (by and_intros <;> first | rfl | omega)
      have q10 : (if true = true ∧ true = true ∧ 1 ≤ ra ∧ 1 ≤ ca ∧ ra - 1 < R - 1 ∧ ca - 1 < C - 1 ∧ ra + 1 = rb + 1 ∧ ca + 0 = cb + 1 then 1 else 0) = 0 :=
        if_neg (by rintro ⟨-, -, hq⟩; omega)
      have q11 : (if true = true ∧ true = true ∧ 1 ≤ ra ∧ 0 ≤ ca ∧ ra - 1 < R - 1 ∧ ca - 0 < C - 1 ∧ ra + 0 = rb + 1 ∧ ca + 1 = cb + 0 then 1 else 0) = 0 :=
        if_neg (by rintro ⟨-, -, hq⟩; omega)
      have q16 : (if true = true ∧ true = true ∧ ca = 0 ∧ cb = 0 ∧ 0 ≤ ra ∧ ra - 0 < R - 1 ∧ ra + 1 = rb + 0 then 1 else 0) = 0 :=
        if_neg (by rintro ⟨-, -, hq⟩; omega)
      have q22 : (if true = true ∧ true = true ∧ ca = (C - 1) ∧ cb = (C - 1) ∧ 1 ≤ ra ∧ ra - 1 < R - 1 ∧ ra + 0 = rb + 1 then 1 else 0) = 0 :=
        if_neg (by rintro ⟨-, -, hq⟩; omega)
      have q28 : (if true = true ∧ true = true ∧ ra = 0 ∧ rb = 0 ∧ 1 ≤ ca ∧ ca - 1 < C - 1 ∧ ca + 0 = cb + 1 then 1 else 0) = 0 :=
        if_neg (by rintro ⟨-, -, hq⟩; omega)
      have q34 : (if true = true ∧ true = true ∧ ra = (R - 1) ∧ rb = (R - 1) ∧ 0 ≤ ca ∧ ca - 0 < C - 1 ∧ ca + 1 = cb + 0 then 1 else 0) = 0 :=
        if_neg (by rintro ⟨-, -, hq⟩; omega)
      have qe : (if bbEdge R C ra ca rb cb then 1 else 0) = 1 :=
        if_pos (by unfold bbEdge; exact Or.inr (Or.inr (Or.inr (Or.inl (by and_intros <;> omega)))))
      omega
  · by_cases hs3 : ra = rb + 1 ∧ ca = cb
    · by_cases hs4 : ca < C - 1
      · have q6 : (if true = true ∧ true = true ∧ 0 ≤ ra ∧ 0 ≤ ca ∧ ra - 0 < R - 1 ∧ ca - 0 < C - 1 ∧ ra + 0 = rb + 0 ∧ ca + 1 = cb + 0 then 1 else 0) = 0 :=
          if_neg (by rintro ⟨-, -, hq⟩; omega)
        have q7 : (if true = true ∧ true = true ∧ 0 ≤ ra ∧ 1 ≤ ca ∧ ra - 0 < R - 1 ∧ ca - 1 < C - 1 ∧ ra + 1 = rb + 0 ∧ ca + 0 = cb + 1 then 1 else 0) = 0 :=
          if_neg (by rintro ⟨-, -, hq⟩; omega)
        have q8 : (if true = true ∧ true = true ∧ 1 ≤ ra ∧ 0 ≤ ca ∧ ra - 1 < R - 1 ∧ ca - 0 < C - 1 ∧ ra + 0 = rb + 1 ∧ ca + 0 = cb + 0 then 1 else 0) = 1 :=
          if_pos (by and_intros <;> first | rfl | omega)
        have q9 : (if true = true ∧ true = true ∧ 0 ≤ ra ∧ 1 ≤ ca ∧ ra - 0 < R - 1 ∧ ca - 1 < C - 1 ∧ ra + 1 = rb + 0 ∧ ca + 1 = cb + 1 then 1 else 0) = 0 :=
          if_neg (by rintro ⟨-, -, hq⟩; omega)
        have q10 : (if true = true ∧ true = true ∧ 1 ≤ ra ∧ 1 ≤ ca ∧ ra - 1 < R - 1 ∧ ca - 1 < C - 1 ∧ ra + 1 = rb + 1 ∧ ca + 0 = cb + 1 then 1 else 0) = 0 :=
          if_neg (by rintro ⟨-, -, hq⟩; omega)
        have q11 : (if true = true ∧ true = true ∧ 1 ≤ ra ∧ 0 ≤ ca ∧ ra - 1 < R - 1 ∧ ca - 0 < C - 1 ∧ ra + 0 = rb + 1 ∧ ca + 1 = cb + 0 then 1 else 0) = 0 :=
          if_neg (by rintro ⟨-, -, hq⟩; omega)
        have q16 : (if true = true ∧ true = true ∧ ca = 0 ∧ cb = 0 ∧ 0 ≤ ra ∧ ra - 0 < R - 1 ∧ ra + 1 = rb + 0 then 1 else 0) = 0 :=
          if_neg (by rintro ⟨-, -, hq⟩; omega)
        have q22 : (if true = true ∧ true = true ∧ ca = (C - 1) ∧ cb = (C - 1) ∧ 1 ≤ ra ∧ ra - 1 < R - 1 ∧ ra + 0 = rb + 1 then 1 else 0) = 0 :=
          if_neg (by rintro ⟨-, -, hq⟩; omega)
        have q28 : (if true = true ∧ true = true ∧ ra = 0 ∧ rb = 0 ∧ 1 ≤ ca ∧ ca - 1 < C - 1 ∧ ca + 0 = cb + 1 then 1 else 0) = 0 :=
          if_neg (by rintro ⟨-, -, hq⟩; omega)
        have q34 : (if true = true ∧ true = true ∧ ra = (R - 1) ∧ rb = (R - 1) ∧ 0 ≤ ca ∧ ca - 0 < C - 1 ∧ ca + 1 = cb + 0 then 1 else 0) = 0 :=
          if_neg (by rintro ⟨-, -, hq⟩; omega)
        have qe : (if bbEdge R C ra ca rb cb then 1 else 0) = 1 :=
          if_pos (by unfold bbEdge; exact Or.inr (Or.inr (Or.inl (by and_intros <;> omega))))
        omega
      · have q6 : (if true = true ∧ true = true ∧ 0 ≤ ra ∧ 0 ≤ ca ∧ ra - 0 < R - 1 ∧ ca - 0 < C - 1 ∧ ra + 0 = rb + 0 ∧ ca + 1 = cb + 0 then 1 else 0) = 0 :=
          if_neg (by rintro ⟨-, -, hq⟩; omega)
        have q7 : (if true = true ∧ true = true ∧ 0 ≤ ra ∧ 1 ≤ ca ∧ ra - 0 < R - 1 ∧ ca - 1 < C - 1 ∧ ra + 1 = rb + 0 ∧ ca + 0 = cb + 1 then 1 else 0) = 0 :=
          if_neg (by rintro ⟨-, -, hq⟩; omega)
        have q8 : (if true = true ∧ true = true ∧ 1 ≤ ra ∧ 0 ≤ ca ∧ ra - 1 < R - 1 ∧ ca - 0 < C - 1 ∧ ra + 0 = rb + 1 ∧ ca + 0 = cb + 0 then 1 else 0) = 0 :=
          if_neg (by rintro ⟨-, -, hq⟩; omega)
        have q9 : (if true = true ∧ true = true ∧ 0 ≤ ra ∧ 1 ≤ ca ∧ ra - 0 < R - 1 ∧ ca - 1 < C - 1 ∧ ra + 1 = rb + 0 ∧ ca + 1 = cb + 1 then 1 else 0) = 0 :=
          if_neg (by rintro ⟨-, -, hq⟩; omega)
        have q10 : (if true = true ∧ true = true ∧ 1 ≤ ra ∧ 1 ≤ ca ∧ ra - 1 < R - 1 ∧ ca - 1 < C - 1 ∧ ra + 1 = rb + 1 ∧ ca + 0 = cb + 1 then 1 else 0) = 0 :=
          if_neg (by rintro ⟨-, -, hq⟩; omega)
        have q11 : (if true = true ∧ true = true ∧ 1 ≤ ra ∧ 0 ≤ ca ∧ ra - 1 < R - 1 ∧ ca - 0 < C - 1 ∧ ra + 0 = rb + 1 ∧ ca + 1 = cb + 0 then 1 else 0) = 0 :=
          if_neg (by rintro ⟨-, -, hq⟩; omega)
        have q16 : (if true = true ∧ true = true ∧ ca = 0 ∧ cb = 0 ∧ 0 ≤ ra ∧ ra - 0 < R - 1 ∧ ra + 1 = rb + 0 then 1 else 0) = 0 :=
          if_neg (by rintro ⟨-, -, hq⟩; omega)
        have q22 : (if true = true ∧ true = true ∧ ca = (C - 1) ∧ cb = (C - 1) ∧ 1 ≤ ra ∧ ra - 1 < R - 1 ∧ ra + 0 = rb + 1 then 1 else 0) = 1 :=
          if_pos (by and_intros <;> first | rfl | omega)
        have q28 : (if true = true ∧ true = true ∧ ra = 0 ∧ rb = 0 ∧ 1 ≤ ca ∧ ca - 1 < C - 1 ∧ ca + 0 = cb + 1 then 1 else 0) = 0 :=
          if_neg (by rintro ⟨-, -, hq⟩; omega)
        have q34 : (if true = true ∧ true = true ∧ ra = (R - 1) ∧ rb = (R - 1) ∧ 0 ≤ ca ∧ ca - 0 < C - 1 ∧ ca + 1 = cb + 0 then 1 else 0) = 0 :=
          if_neg (by rintro ⟨-, -, hq⟩; omega)
        have qe : (if bbEdge R C ra ca rb cb then 1 else 0) = 1 :=
          if_pos (by unfold bbEdge; exact Or.inr (Or.inr (Or.inr (Or.inr (Or.inr (Or.inr (Or.inr (Or.inl (by and_intros <;> omega)))))))))
        omega
    · by_cases hs5 : ra = rb ∧ cb = ca + 1
      · by_cases hs6 : ra < R - 1
        · have q6 : (if true = true ∧ true = true ∧ 0 ≤ ra ∧ 0 ≤ ca ∧ ra - 0 < R - 1 ∧ ca - 0 < C - 1 ∧ ra + 0 = rb + 0 ∧ ca + 1 = cb + 0 then 1 else 0) = 1 :=
            if_pos (by and_intros <;> first | rfl | omega)
          have q7 : (if true = true ∧ true = true ∧ 0 ≤ ra ∧ 1 ≤ ca ∧ ra - 0 < R - 1 ∧ ca - 1 < C - 1 ∧ ra + 1 = rb + 0 ∧ ca + 0 = cb + 1 then 1 else 0) = 0 :=
            if_neg (by rintro ⟨-, -, hq⟩; omega)
          have q8 : (if true = true ∧ true = true ∧ 1 ≤ ra ∧ 0 ≤ ca ∧ ra - 1 < R - 1 ∧ ca - 0 < C - 1 ∧ ra + 0 = rb + 1 ∧ ca + 0 = cb + 0 then 1 else 0) = 0 :=
            if_neg (by rintro ⟨-, -, hq⟩; omega)
          have q9 : (if true = true ∧ true = true ∧ 0 ≤ ra ∧ 1 ≤ ca ∧ ra - 0 < R - 1 ∧ ca - 1 < C - 1 ∧ ra + 1 = rb + 0 ∧ ca + 1 = cb + 1 then 1 else 0) = 0 :=
            if_neg (by rintro ⟨-, -, hq⟩; omega)
          have q10 : (if true = true ∧ true = true ∧ 1 ≤ ra ∧ 1 ≤ ca ∧ ra - 1 < R - 1 ∧ ca - 1 < C - 1 ∧ ra + 1 = rb + 1 ∧ ca + 0 = cb + 1 then 1 else 0) = 0 :=
            if_neg (by rintro ⟨-, -, hq⟩; omega)
          have q11 : (if true = true ∧ true = true ∧ 1 ≤ ra ∧ 0 ≤ ca ∧ ra - 1 < R - 1 ∧ ca - 0 < C - 1 ∧ ra + 0 = rb + 1 ∧ ca + 1 = cb + 0 then 1 else 0) = 0 :=
            if_neg (by rintro ⟨-, -, hq⟩; omega)
          have q16 : (if true = true ∧ true = true ∧ ca = 0 ∧ cb = 0 ∧ 0 ≤ ra ∧ ra - 0 < R - 1 ∧ ra + 1 = rb + 0 then 1 else 0) = 0 :=
            if_neg (by rintro ⟨-, -, hq⟩; omega)
          have q22 : (if true = true ∧ true = true ∧ ca = (C - 1) ∧ cb = (C - 1) ∧ 1 ≤ ra ∧ ra - 1 < R - 1 ∧ ra + 0 = rb + 1 then 1 else 0) = 0 :=
            if_neg (by rintro ⟨-, -, hq⟩; omega)
          have q28 : (if true = true ∧ true = true ∧ ra = 0 ∧ rb = 0 ∧ 1 ≤ ca ∧ ca - 1 < C - 1 ∧ ca + 0 = cb + 1 then 1 else 0) = 0 :=
            if_neg (by rintro ⟨-, -, hq⟩; omega)
          have q34 : (if true = true ∧ true = true ∧ ra = (R - 1) ∧ rb = (R - 1) ∧ 0 ≤ ca ∧ ca - 0 < C - 1 ∧ ca + 1 = cb + 0 then 1 else 0) = 0 :=
            if_neg (by rintro ⟨-, -, hq⟩; omega)
          have qe : (if bbEdge R C ra ca rb cb then 1 else 0) = 1 :=
            if_pos (by unfold bbEdge; exact Or.inl (by and_intros <;> omega))
          omega
        · have q6 : (if true = true ∧ true = true ∧ 0 ≤ ra ∧ 0 ≤ ca ∧ ra - 0 < R - 1 ∧ ca - 0 < C - 1 ∧ ra + 0 = rb + 0 ∧ ca + 1 = cb + 0 then 1 else 0) = 0 :=
            if_neg (by rintro ⟨-, -, hq⟩; omega)
          have q7 : (if true = true ∧ true = true ∧ 0 ≤ ra ∧ 1 ≤ ca ∧ ra - 0 < R - 1 ∧ ca - 1 < C - 1 ∧ ra + 1 = rb + 0 ∧ ca + 0 = cb + 1 then 1 else 0) = 0 :=
            if_neg (by rintro ⟨-, -, hq⟩; omega)
          have q8 : (if true = true ∧ true = true ∧ 1 ≤ ra ∧ 0 ≤ ca ∧ ra - 1 < R - 1 ∧ ca - 0 < C - 1 ∧ ra + 0 = rb + 1 ∧ ca + 0 = cb + 0 then 1 else 0) = 0 :=
            if_neg (by rintro ⟨-, -, hq⟩; omega)
          have q9 : (if true = true ∧ true = true ∧ 0 ≤ ra ∧ 1 ≤ ca ∧ ra - 0 < R - 1 ∧ ca - 1 < C - 1 ∧ ra + 1 = rb + 0 ∧ ca + 1 = cb + 1 then 1 else 0) = 0 :=
            if_neg (by rintro ⟨-, -, hq⟩; omega)
          have q10 : (if true = true ∧ true = true ∧ 1 ≤ ra ∧ 1 ≤ ca ∧ ra - 1 < R - 1 ∧ ca - 1 < C - 1 ∧ ra + 1 = rb + 1 ∧ ca + 0 = cb + 1 then 1 else 0) = 0 :=
            if_neg (by rintro ⟨-, -, hq⟩; omega)
          have q11 : (if true = true ∧ true = true ∧ 1 ≤ ra ∧ 0 ≤ ca ∧ ra - 1 < R - 1 ∧ ca - 0 < C - 1 ∧ ra + 0 = rb + 1 ∧ ca + 1 = cb + 0 then 1 else 0) = 0 :=
            if_neg (by rintro ⟨-, -, hq⟩; omega)
          have q16 : (if true = true ∧ true = true ∧ ca = 0 ∧ cb = 0 ∧ 0 ≤ ra ∧ ra - 0 < R - 1 ∧ ra + 1 = rb + 0 then 1 else 0) = 0 :=
            if_neg (by rintro ⟨-, -, hq⟩; omega)
          have q22 : (if true = true ∧ true = true ∧ ca = (C - 1) ∧ cb = (C - 1) ∧ 1 ≤ ra ∧ ra - 1 < R - 1 ∧ ra + 0 = rb + 1 then 1 else 0) = 0 :=
            if_neg (by rintro ⟨-, -, hq⟩; omega)
          have q28 : (if true = true ∧ true = true ∧ ra = 0 ∧ rb = 0 ∧ 1 ≤ ca ∧ ca - 1 < C - 1 ∧ ca + 0 = cb + 1 then 1 else 0) = 0 :=
            if_neg (by rintro ⟨-, -, hq⟩; omega)
          have q34 : (if true = true ∧ true = true ∧ ra = (R - 1) ∧ rb = (R - 1) ∧ 0 ≤ ca ∧ ca - 0 < C - 1 ∧ ca + 1 = cb + 0 then 1 else 0) = 1 :=
            if_pos (by and_intros <;> first | rfl | omega)
          have qe : (if bbEdge R C ra ca rb cb then 1 else 0) = 1 :=
            if_pos (by unfold bbEdge; exact Or.inr (Or.inr (Or.inr (Or.inr (Or.inr (Or.inr (Or.inr (Or.inr (Or.inr ((by and_intros <;> omega)))))))))))
          omega
      · by_cases hs7 : ra = rb ∧ ca = cb + 1
        · by_cases hs8 : ra = 0
          · have q6 : (if true = true ∧ true = true ∧ 0 ≤ ra ∧ 0 ≤ ca ∧ ra - 0 < R - 1 ∧ ca - 0 < C - 1 ∧ ra + 0 = rb + 0 ∧ ca + 1 = cb + 0 then 1 else 0) = 0 :=
              if_neg (by rintro ⟨-, -, hq⟩; omega)
            have q7 : (if true = true ∧ true = true ∧ 0 ≤ ra ∧ 1 ≤ ca ∧ ra - 0 < R - 1 ∧ ca - 1 < C - 1 ∧ ra + 1 = rb + 0 ∧ ca + 0 = cb + 1 then 1 else 0) = 0 :=
              if_neg (by rintro ⟨-, -, hq⟩; omega)
            have q8 : (if true = true ∧ true = true ∧ 1 ≤ ra ∧ 0 ≤ ca ∧ ra - 1 < R - 1 ∧ ca - 0 < C - 1 ∧ ra + 0 = rb + 1 ∧ ca + 0 = cb + 0 then 1 else 0) = 0 :=
              if_neg (by rintro ⟨-, -, hq⟩; omega)
            have q9 : (if true = true ∧ true = true ∧ 0 ≤ ra ∧ 1 ≤ ca ∧ ra - 0 < R - 1 ∧ ca - 1 < C - 1 ∧ ra + 1 = rb + 0 ∧ ca + 1 = cb + 1 then 1 else 0) = 0 :=
              if_neg (by rintro ⟨-, -, hq⟩; omega)
            have q10 : (if true = true ∧ true = true ∧ 1 ≤ ra ∧ 1 ≤ ca ∧ ra - 1 < R - 1 ∧ ca - 1 < C - 1 ∧ ra + 1 = rb + 1 ∧ ca + 0 = cb + 1 then 1 else 0) = 0 :=
              if_neg (by rintro ⟨-, -, hq⟩; omega)
            have q11 : (if true = true ∧ true = true ∧ 1 ≤ ra ∧ 0 ≤ ca ∧ ra - 1 < R - 1 ∧ ca - 0 < C - 1 ∧ ra + 0 = rb + 1 ∧ ca + 1 = cb + 0 then 1 else 0) = 0 :=
              if_neg (by rintro ⟨-, -, hq⟩; omega)
            have q16 : (if true = true ∧ true = true ∧ ca = 0 ∧ cb = 0 ∧ 0 ≤ ra ∧ ra - 0 < R - 1 ∧ ra + 1 = rb + 0 then 1 else 0) = 0 :=
              if_neg (by rintro ⟨-, -, hq⟩; omega)
            have q22 : (if true = true ∧ true = true ∧ ca = (C - 1) ∧ cb = (C - 1) ∧ 1 ≤ ra ∧ ra - 1 < R - 1 ∧ ra + 0 = rb + 1 then 1 else 0) = 0 :=
              if_neg (by rintro ⟨-, -, hq⟩; omega)
            have q28 : (if true = true ∧ true = true ∧ ra = 0 ∧ rb = 0 ∧ 1 ≤ ca ∧ ca - 1 < C - 1 ∧ ca + 0 = cb + 1 then 1 else 0) = 1 :=
              if_pos (by and_intros <;> first | rfl | omega)
            have q34 : (if true = true ∧ true = true ∧ ra = (R - 1) ∧ rb = (R - 1) ∧ 0 ≤ ca ∧ ca - 0 < C - 1 ∧ ca + 1 = cb + 0 then 1 else 0) = 0 :=
              if_neg (by rintro ⟨-, -, hq⟩; omega)
            have qe : (if bbEdge R C ra ca rb cb then 1 else 0) = 1 :=
              if_pos (by unfold bbEdge; exact Or.inr (Or.inr (Or.inr (Or.inr (Or.inr (Or.inr (Or.inr (Or.inr (Or.inl (by and_intros <;> omega))))))))))
            omega
          · have q6 : (if true = true ∧ true = true ∧ 0 ≤ ra ∧ 0 ≤ ca ∧ ra - 0 < R - 1 ∧ ca - 0 < C - 1 ∧ ra + 0 = rb + 0 ∧ ca + 1 = cb + 0 then 1 else 0) = 0 :=
              if_neg (by rintro ⟨-, -, hq⟩; omega)
            have q7 : (if true = true ∧ true = true ∧ 0 ≤ ra ∧ 1 ≤ ca ∧ ra - 0 < R - 1 ∧ ca - 1 < C - 1 ∧ ra + 1 = rb + 0 ∧ ca + 0 = cb + 1 then 1 else 0) = 0 :=
              if_neg (by rintro ⟨-, -, hq⟩; omega)
            have q8 : (if true = true ∧ true = true ∧ 1 ≤ ra ∧ 0 ≤ ca ∧ ra - 1 < R - 1 ∧ ca - 0 < C - 1 ∧ ra + 0 = rb + 1 ∧ ca + 0 = cb + 0 then 1 else 0) = 0 :=
              if_neg (by rintro ⟨-, -, hq⟩; omega)
            have q9 : (if true = true ∧ true = true ∧ 0 ≤ ra ∧ 1 ≤ ca ∧ ra - 0 < R - 1 ∧ ca - 1 < C - 1 ∧ ra + 1 = rb + 0 ∧ ca + 1 = cb + 1 then 1 else 0) = 0 :=
              if_neg (by rintro ⟨-, -, hq⟩; omega)
            have q10 : (if true = true ∧ true = true ∧ 1 ≤ ra ∧ 1 ≤ ca ∧ ra - 1 < R - 1 ∧ ca - 1 < C - 1 ∧ ra + 1 = rb + 1 ∧ ca + 0 = cb + 1 then 1 else 0) = 1 :=
              if_pos (by and_intros <;> first | rfl | omega)
            have q11 : (if true = true ∧ true = true ∧ 1 ≤ ra ∧ 0 ≤ ca ∧ ra - 1 < R - 1 ∧ ca - 0 < C - 1 ∧ ra + 0 = rb + 1 ∧ ca + 1 = cb + 0 then 1 else 0) = 0 :=
              if_neg (by rintro ⟨-, -, hq⟩; omega)
            have q16 : (if true = true ∧ true = true ∧ ca = 0 ∧ cb = 0 ∧ 0 ≤ ra ∧ ra - 0 < R - 1 ∧ ra + 1 = rb + 0 then 1 else 0) = 0 :=
              if_neg (by rintro ⟨-, -, hq⟩; omega)
            have q22 : (if true = true ∧ true = true ∧ ca = (C - 1) ∧ cb = (C - 1) ∧ 1 ≤ ra ∧ ra - 1 < R - 1 ∧ ra + 0 = rb + 1 then 1 else 0) = 0 :=
              if_neg (by rintro ⟨-, -, hq⟩; omega)
            have q28 : (if true = true ∧ true = true ∧ ra = 0 ∧ rb = 0 ∧ 1 ≤ ca ∧ ca - 1 < C - 1 ∧ ca + 0 = cb + 1 then 1 else 0) = 0 :=
              if_neg (by rintro ⟨-, -, hq⟩; omega)
            have q34 : (if true = true ∧ true = true ∧ ra = (R - 1) ∧ rb = (R - 1) ∧ 0 ≤ ca ∧ ca - 0 < C - 1 ∧ ca + 1 = cb + 0 then 1 else 0) = 0 :=
              if_neg (by rintro ⟨-, -, hq⟩; omega)
            have qe : (if bbEdge R C ra ca rb cb then 1 else 0) = 1 :=
              if_pos (by unfold bbEdge; exact Or.inr (Or.inr (Or.inr (Or.inr (Or.inl (by and_intros <;> omega))))))
            omega
        · by_cases hs9 : rb = ra + 1 ∧ ca = cb + 1
          · have q6 : (if true = true ∧ true = true ∧ 0 ≤ ra ∧ 0 ≤ ca ∧ ra - 0 < R - 1 ∧ ca - 0 < C - 1 ∧ ra + 0 = rb + 0 ∧ ca + 1 = cb + 0 then 1 else 0) = 0 :=
              if_neg (by rintro ⟨-, -, hq⟩; omega)
            have q7 : (if true = true ∧ true = true ∧ 0 ≤ ra ∧ 1 ≤ ca ∧ ra - 0 < R - 1 ∧ ca - 1 < C - 1 ∧ ra + 1 = rb + 0 ∧ ca + 0 = cb + 1 then 1 else 0) = 1 :=
              if_pos (by and_intros <;> first | rfl | omega)
            have q8 : (if true = true ∧ true = true ∧ 1 ≤ ra ∧ 0 ≤ ca ∧ ra - 1 < R - 1 ∧ ca - 0 < C - 1 ∧ ra + 0 = rb + 1 ∧ ca + 0 = cb + 0 then 1 else 0) = 0 :=
              if_neg (by rintro ⟨-, -, hq⟩; omega)
            have q9 : (if true = true ∧ true = true ∧ 0 ≤ ra ∧ 1 ≤ ca ∧ ra - 0 < R - 1 ∧ ca - 1 < C - 1 ∧ ra + 1 = rb + 0 ∧ ca + 1 = cb + 1 then 1 else 0) = 0 :=
              if_neg (by rintro ⟨-, -, hq⟩; omega)
            have q10 : (if true = true ∧ true = true ∧ 1 ≤ ra ∧ 1 ≤ ca ∧ ra - 1 < R - 1 ∧ ca - 1 < C - 1 ∧ ra + 1 = rb + 1 ∧ ca + 0 = cb + 1 then 1 else 0) = 0 :=
              if_neg (by rintro ⟨-, -, hq⟩; omega)
            have q11 : (if true = true ∧ true = true ∧ 1 ≤ ra ∧ 0 ≤ ca ∧ ra - 1 < R - 1 ∧ ca - 0 < C - 1 ∧ ra + 0 = rb + 1 ∧ ca + 1 = cb + 0 then 1 else 0) = 0 :=
              if_neg (by rintro ⟨-, -, hq⟩; omega)
            have q16 : (if true = true ∧ true = true ∧ ca = 0 ∧ cb = 0 ∧ 0 ≤ ra ∧ ra - 0 < R - 1 ∧ ra + 1 = rb + 0 then 1 else 0) = 0 :=
              if_neg (by rintro ⟨-, -, hq⟩; omega)
            have q22 : (if true = true ∧ true = true ∧ ca = (C - 1) ∧ cb = (C - 1) ∧ 1 ≤ ra ∧ ra - 1 < R - 1 ∧ ra + 0 = rb + 1 then 1 else 0) = 0 :=
              if_neg (by rintro ⟨-, -, hq⟩; omega)
            have q28 : (if true = true ∧ true = true ∧ ra = 0 ∧ rb = 0 ∧ 1 ≤ ca ∧ ca - 1 < C - 1 ∧ ca + 0 = cb + 1 then 1 else 0) = 0 :=
              if_neg (by rintro ⟨-, -, hq⟩; omega)
            have q34 : (if true = true ∧ true = true ∧ ra = (R - 1) ∧ rb = (R - 1) ∧ 0 ≤ ca ∧ ca - 0 < C - 1 ∧ ca + 1 = cb + 0 then 1 else 0) = 0 :=
              if_neg (by rintro ⟨-, -, hq⟩; omega)
            have qe : (if bbEdge R C ra ca rb cb then 1 else 0) = 1 :=
              if_pos (by unfold bbEdge; exact Or.inr (Or.inl (by and_intros <;> omega)))
            omega
          · by_cases hs10 : ra = rb + 1 ∧ cb = ca + 1
            · have q6 : (if true = true ∧ true = true ∧ 0 ≤ ra ∧ 0 ≤ ca ∧ ra - 0 < R - 1 ∧ ca - 0 < C - 1 ∧ ra + 0 = rb + 0 ∧ ca + 1 = cb + 0 then 1 else 0) = 0 :=
                if_neg (by rintro ⟨-, -, hq⟩; omega)
              have q7 : (if true = true ∧ true = true ∧ 0 ≤ ra ∧ 1 ≤ ca ∧ ra - 0 < R - 1 ∧ ca - 1 < C - 1 ∧ ra + 1 = rb + 0 ∧ ca + 0 = cb + 1 then 1 else 0) = 0 :=
                if_neg (by rintro ⟨-, -, hq⟩; omega)
              have q8 : (if true = true ∧ true = true ∧ 1 ≤ ra ∧ 0 ≤ ca ∧ ra - 1 < R - 1 ∧ ca - 0 < C - 1 ∧ ra + 0 = rb + 1 ∧ ca + 0 = cb + 0 then 1 else 0) = 0 :=
                if_neg (by rintro ⟨-, -, hq⟩; omega)
              have q9 : (if true = true ∧ true = true ∧ 0 ≤ ra ∧ 1 ≤ ca ∧ ra - 0 < R - 1 ∧ ca - 1 < C - 1 ∧ ra + 1 = rb + 0 ∧ ca + 1 = cb + 1 then 1 else 0) = 0 :=
                if_neg (by rintro ⟨-, -, hq⟩; omega)
              have q10 : (if true = true ∧ true = true ∧ 1 ≤ ra ∧ 1 ≤ ca ∧ ra - 1 < R - 1 ∧ ca - 1 < C - 1 ∧ ra + 1 = rb + 1 ∧ ca + 0 = cb + 1 then 1 else 0) = 0 :=
                if_neg (by rintro ⟨-, -, hq⟩; omega)
              have q11 : (if true = true ∧ true = true ∧ 1 ≤ ra ∧ 0 ≤ ca ∧ ra - 1 < R - 1 ∧ ca - 0 < C - 1 ∧ ra + 0 = rb + 1 ∧ ca + 1 = cb + 0 then 1 else 0) = 1 :=
                if_pos (by and_intros <;> first | rfl | omega)
              have q16 : (if true = true ∧ true = true ∧ ca = 0 ∧ cb = 0 ∧ 0 ≤ ra ∧ ra - 0 < R - 1 ∧ ra + 1 = rb + 0 then 1 else 0) = 0 :=
                if_neg (by rintro ⟨-, -, hq⟩; omega)
              have q22 : (if true = true ∧ true = true ∧ ca = (C - 1) ∧ cb = (C - 1) ∧ 1 ≤ ra ∧ ra - 1 < R - 1 ∧ ra + 0 = rb + 1 then 1 else 0) = 0 :=
                if_neg (by rintro ⟨-, -, hq⟩; omega)
              have q28 : (if true = true ∧ true = true ∧ ra = 0 ∧ rb = 0 ∧ 1 ≤ ca ∧ ca - 1 < C - 1 ∧ ca + 0 = cb + 1 then 1 else 0) = 0 :=
                if_neg (by rintro ⟨-, -, hq⟩; omega)
              have q34 : (if true = true ∧ true = true ∧ ra = (R - 1) ∧ rb = (R - 1) ∧ 0 ≤ ca ∧ ca - 0 < C - 1 ∧ ca + 1 = cb + 0 then 1 else 0) = 0 :=
                if_neg (by rintro ⟨-, -, hq⟩; omega)
              have qe : (if bbEdge R C ra ca rb cb then 1 else 0) = 1 :=
                if_pos (by unfold bbEdge; exact Or.inr (Or.inr (Or.inr (Or.inr (Or.inr (Or.inl (by and_intros <;> omega)))))))
              omega
            · have q6 : (if true = true ∧ true = true ∧ 0 ≤ ra ∧ 0 ≤ ca ∧ ra - 0 < R - 1 ∧ ca - 0 < C - 1 ∧ ra + 0 = rb + 0 ∧ ca + 1 = cb + 0 then 1 else 0) = 0 :=
                if_neg (by rintro ⟨-, -, hq⟩; omega)
              have q7 : (if true = true ∧ true = true ∧ 0 ≤ ra ∧ 1 ≤ ca ∧ ra - 0 < R - 1 ∧ ca - 1 < C - 1 ∧ ra + 1 = rb + 0 ∧ ca + 0 = cb + 1 then 1 else 0) = 0 :=
                if_neg (by rintro ⟨-, -, hq⟩; omega)
              have q8 : (if true = true ∧ true = true ∧ 1 ≤ ra ∧ 0 ≤ ca ∧ ra - 1 < R - 1 ∧ ca - 0 < C - 1 ∧ ra + 0 = rb + 1 ∧ ca + 0 = cb + 0 then 1 else 0) = 0 :=
                if_neg (by rintro ⟨-, -, hq⟩; omega)
              have q9 : (if true = true ∧ true = true ∧ 0 ≤ ra ∧ 1 ≤ ca ∧ ra - 0 < R - 1 ∧ ca - 1 < C - 1 ∧ ra + 1 = rb + 0 ∧ ca + 1 = cb + 1 then 1 else 0) = 0 :=
                if_neg (by rintro ⟨-, -, hq⟩; omega)
              have q10 : (if true = true ∧ true = true ∧ 1 ≤ ra ∧ 1 ≤ ca ∧ ra - 1 < R - 1 ∧ ca - 1 < C - 1 ∧ ra + 1 = rb + 1 ∧ ca + 0 = cb + 1 then 1 else 0) = 0 :=
                if_neg (by rintro ⟨-, -, hq⟩; omega)
              have q11 : (if true = true ∧ true = true ∧ 1 ≤ ra ∧ 0 ≤ ca ∧ ra - 1 < R - 1 ∧ ca - 0 < C - 1 ∧ ra + 0 = rb + 1 ∧ ca + 1 = cb + 0 then 1 else 0) = 0 :=
                if_neg (by rintro ⟨-, -, hq⟩; omega)
              have q16 : (if true = true ∧ true = true ∧ ca = 0 ∧ cb = 0 ∧ 0 ≤ ra ∧ ra - 0 < R - 1 ∧ ra + 1 = rb + 0 then 1 else 0) = 0 :=
                if_neg (by rintro ⟨-, -, hq⟩; omega)
              have q22 : (if true = true ∧ true = true ∧ ca = (C - 1) ∧ cb = (C - 1) ∧ 1 ≤ ra ∧ ra - 1 < R - 1 ∧ ra + 0 = rb + 1 then 1 else 0) = 0 :=
                if_neg (by rintro ⟨-, -, hq⟩; omega)
              have q28 : (if true = true ∧ true = true ∧ ra = 0 ∧ rb = 0 ∧ 1 ≤ ca ∧ ca - 1 < C - 1 ∧ ca + 0 = cb + 1 then 1 else 0) = 0 :=
                if_neg (by rintro ⟨-, -, hq⟩; omega)
              have q34 : (if true = true ∧ true = true ∧ ra = (R - 1) ∧ rb = (R - 1) ∧ 0 ≤ ca ∧ ca - 0 < C - 1 ∧ ca + 1 = cb + 0 then 1 else 0) = 0 :=
                if_neg (by rintro ⟨-, -, hq⟩; omega)
              have qe : (if bbEdge R C ra ca rb cb then 1 else 0) = 0 :=
                if_neg (by unfold bbEdge; omega)
              omega

/-- Reversing a directed mesh edge between sides FF yields a mesh
edge of the opposite orientation class. -/
theorem ffEdge_symm (R C ra ca rb cb : ℕ) (hR : 2 ≤ R) (hC : 2 ≤ C)
    (hra : ra < R) (hca : ca < C) (hrb : rb < R) (hcb : cb < C)
    (h : ffEdge R C ra ca rb cb) : ffEdge R C rb cb ra ca := by
  unfold ffEdge at h ⊢
  rcases h with h|h|h|h|h|h|h|h|h|h
  · by_cases hsp : ca = 0
    · exact Or.inr (Or.inr (Or.inr (Or.inr (Or.inr (Or.inr (Or.inl (by and_intros <;> omega)))))))
    · exact Or.inr (Or.inr (Or.inr (Or.inr (Or.inr (Or.inl (by and_intros <;> omega))))))
  · exact Or.inr (Or.inr (Or.inr (Or.inl (by and_intros <;> omega))))
  · by_cases hsp : ra = 0
    · exact Or.inr (Or.inr (Or.inr (Or.inr (Or.inr (Or.inr (Or.inr (Or.inr (Or.inl (by and_intros <;> omega)))))))))
    · exact Or.inr (Or.inr (Or.inr (Or.inr (Or.inl (by and_intros <;> omega)))))
  · exact Or.inr (Or.inl (by and_intros <;> omega))
  · by_cases hsp : ra = R - 1
    · exact Or.inr (Or.inr (Or.inr (Or.inr (Or.inr (Or.inr (Or.inr (Or.inr (Or.inr ((by and_intros <;> omega))))))))))
    · exact Or.inr (Or.inr (Or.inl (by and_intros <;> omega)))
  · by_cases hsp : ca = C - 1
    · exact Or.inr (Or.inr (Or.inr (Or.inr (Or.inr (Or.inr (Or.inr (Or.inl (by and_intros <;> omega))))))))
    · exact Or.inl (by and_intros <;> omega)
  · exact Or.inl (by and_intros <;> omega)
  · exact Or.inr (Or.inr (Or.inr (Or.inr (Or.inr (Or.inl (by and_intros <;> omega))))))
  · exact Or.inr (Or.inr (Or.inl (by and_intros <;> omega)))
  · exact Or.inr (Or.inr (Or.inr (Or.inr (Or.inl (by and_intros <;> omega)))))

/-- Reversing a directed mesh edge between sides BB yields a mesh
edge of the opposite orientation class. -/
theorem bbEdge_symm (R C ra ca rb cb : ℕ) (hR : 2 ≤ R) (hC : 2 ≤ C)
    (hra : ra < R) (hca : ca < C) (hrb : rb < R) (hcb : cb < C)
    (h : bbEdge R C ra ca rb cb) : bbEdge R C rb cb ra ca := by
  unfold bbEdge at h ⊢
  rcases h with h|h|h|h|h|h|h|h|h|h
  · by_cases hsp : ra = 0
    · exact Or.inr (Or.inr (Or.inr (Or.inr (Or.inr (Or.inr (Or.inr (Or.inr (Or.inl (by and_intros <;> omega)))))))))
    · exact Or.inr (Or.inr (Or.inr (Or.inr (Or.inl (by and_intros <;> omega)))))
  · exact Or.inr (Or.inr (Or.inr (Or.inr (Or.inr (Or.inl (by and_intros <;> omega))))))
  · by_cases hsp : ca = 0
    · exact Or.inr (Or.inr (Or.inr (Or.inr (Or.inr (Or.inr (Or.inl (by and_intros <;> omega)))))))
    · exact Or.inr (Or.inr (Or.inr (Or.inl (by and_intros <;> omega))))
  · by_cases hsp : ca = C - 1
    · exact Or.inr (Or.inr (Or.inr (Or.inr (Or.inr (Or.inr (Or.inr (Or.inl (by and_intros <;> omega))))))))
    · exact Or.inr (Or.inr (Or.inl (by and_intros <;> omega)))
  · by_cases hsp : ra = R - 1
    · exact Or.inr (Or.inr (Or.inr (Or.inr (Or.inr (Or.inr (Or.inr (Or.inr (Or.inr ((by and_intros <;> omega))))))))))
    · exact Or.inl (by and_intros <;> omega)
  · exact Or.inr (Or.inl (by and_intros <;> omega))
  · exact Or.inr (Or.inr (Or.inl (by and_intros <;> omega)))
  · exact Or.inr (Or.inr (Or.inr (Or.inl (by and_intros <;> omega))))
  · exact Or.inl (by and_intros <;> omega)
  · exact Or.inr (Or.inr (Or.inr (Or.inr (Or.inl (by and_intros <;> omega)))))

/-- Reversing a directed mesh edge between sides FB yields a mesh
edge of the opposite orientation class. -/
theorem fbEdge_symm (R C ra ca rb cb : ℕ) (hR : 2 ≤ R) (hC : 2 ≤ C)
    (hra : ra < R) (hca : ca < C) (hrb : rb < R) (hcb : cb < C)
    (h : fbEdge R C ra ca rb cb) : bfEdge R C rb cb ra ca := by
  unfold fbEdge at h
  unfold bfEdge
  rcases h with h|h|h|h|h|h|h|h
  · by_cases hsp : ra = 0
    · exact Or.inr (Or.inr (Or.inr (Or.inr (Or.inl (by and_intros <;> omega)))))
    · exact Or.inr (Or.inl (by and_intros <;> omega))
  · exact Or.inl (by and_intros <;> omega)
  · exact Or.inr (Or.inr (Or.inr (Or.inl (by and_intros <;> omega))))
  · by_cases hsp : ra = R - 1
    · exact Or.inr (Or.inr (Or.inr (Or.inr (Or.inr (Or.inr (Or.inr ((by and_intros <;> omega))))))))
    · exact Or.inr (Or.inr (Or.inl (by and_intros <;> omega)))
  · exact Or.inr (Or.inr (Or.inr (Or.inr (Or.inr (Or.inl (by and_intros <;> omega))))))
  · by_cases hsp : ca = C - 1
    · exact Or.inr (Or.inr (Or.inl (by and_intros <;> omega)))
    · exact Or.inr (Or.inr (Or.inr (Or.inr (Or.inl (by and_intros <;> omega)))))
  · by_cases hsp : ca = 0
    · exact Or.inr (Or.inl (by and_intros <;> omega))
    · exact Or.inr (Or.inr (Or.inr (Or.inr (Or.inr (Or.inr (Or.inr ((by and_intros <;> omega))))))))
  · exact Or.inr (Or.inr (Or.inr (Or.inr (Or.inr (Or.inr (Or.inl (by and_intros <;> omega)))))))

/-- Reversing a directed mesh edge between sides BF yields a mesh
edge of the opposite orientation class. -/
theorem bfEdge_symm (R C ra ca rb cb : ℕ) (hR : 2 ≤ R) (hC : 2 ≤ C)
    (hra : ra < R) (hca : ca < C) (hrb : rb < R) (hcb : cb < C)
    (h : bfEdge R C ra ca rb cb) : fbEdge R C rb cb ra ca := by
  unfold bfEdge at h
  unfold fbEdge
  rcases h with h|h|h|h|h|h|h|h
  · exact Or.inr (Or.inl (by and_intros <;> omega))
  · by_cases hsp : ra = R - 1
    · exact Or.inr (Or.inr (Or.inr (Or.inr (Or.inr (Or.inr (Or.inl (by and_intros <;> omega)))))))
    · exact Or.inl (by and_intros <;> omega)
  · by_cases hsp : ra = 0
    · exact Or.inr (Or.inr (Or.inr (Or.inr (Or.inr (Or.inl (by and_intros <;> omega))))))
    · exact Or.inr (Or.inr (Or.inr (Or.inl (by and_intros <;> omega))))
  · exact Or.inr (Or.inr (Or.inl (by and_intros <;> omega)))
  · by_cases hsp : ca = 0
    · exact Or.inl (by and_intros <;> omega)
    · exact Or.inr (Or.inr (Or.inr (Or.inr (Or.inr (Or.inl (by and_intros <;> omega))))))
  · exact Or.inr (Or.inr (Or.inr (Or.inr (Or.inl (by and_intros <;> omega)))))
  · exact Or.inr (Or.inr (Or.inr (Or.inr (Or.inr (Or.inr (Or.inr ((by and_intros <;> omega))))))))
  · by_cases hsp : ca = C - 1
    · exact Or.inr (Or.inr (Or.inr (Or.inl (by and_intros <;> omega))))
    · exact Or.inr (Or.inr (Or.inr (Or.inr (Or.inr (Or.inr (Or.inl (by and_intros <;> omega)))))))

/-- C1: For every height grid with `rows ≥ 2` and `cols ≥ 2`, the triangle list
emitted by `create_solid_lithophane` is watertight: every face has three
distinct vertex indices, and for every ordered pair of vertex indices either
neither direction of the edge occurs in any emitted triangle, or each
direction occurs exactly once — so every undirected edge present in the mesh
is shared by exactly two triangles with opposite winding and no boundary
edges remain. -/
theorem create_solid_lithophane_watertight (R C : ℕ) (hR : 2 ≤ R) (hC : 2 ≤ C) :
    (∀ t ∈ faces R C, t.1 ≠ t.2.1 ∧ t.2.1 ≠ t.2.2 ∧ t.2.2 ≠ t.1) ∧
    (∀ a b : ℕ,
      (ecount (a, b) (dedges R C) = 0 ∧ ecount (b, a) (dedges R C) = 0) ∨
      (ecount (a, b) (dedges R C) = 1 ∧ ecount (b, a) (dedges R C) = 1)) := by
  constructor
  · intro t ht
    rw [faces_eq_facesN R C (by omega)] at ht
    exact (facesN_components R C hR hC t ht).2
  · intro a b
    by_cases ha : a < 2 * (R * C)
    · by_cases hb : b < 2 * (R * C)
      · obtain ⟨sa, ra, ca, hra, hca, hva⟩ := decode_lt R C a (by omega) ha
        obtain ⟨sb, rb, cb, hrb, hcb, hvb⟩ := decode_lt R C b (by omega) hb
        subst hva
        subst hvb
        cases sa <;> cases sb
        · rw [count_ff R C hR hC ra ca rb cb hra hca hrb hcb,
            count_ff R C hR hC rb cb ra ca hrb hcb hra hca]
          by_cases hor : ffEdge R C ra ca rb cb
          · exact Or.inr ⟨if_pos hor,
              if_pos (ffEdge_symm R C ra ca rb cb hR hC hra hca hrb hcb hor)⟩
          · exact Or.inl ⟨if_neg hor,
              if_neg (fun hcc => hor (ffEdge_symm R C rb cb ra ca hR hC hrb hcb hra hca hcc))⟩
        · rw [count_fb R C hR hC ra ca rb cb hra hca hrb hcb,
            count_bf R C hR hC rb cb ra ca hrb hcb hra hca]
          by_cases hor : fbEdge R C ra ca rb cb
          · exact Or.inr ⟨if_pos hor,
              if_pos (fbEdge_symm R C ra ca rb cb hR hC hra hca hrb hcb hor)⟩
          · exact Or.inl ⟨if_neg hor,
              if_neg (fun hcc => hor (bfEdge_symm R C rb cb ra ca hR hC hrb hcb hra hca hcc))⟩
        · rw [count_bf R C hR hC ra ca rb cb hra hca hrb hcb,
            count_fb R C hR hC rb cb ra ca hrb hcb hra hca]
          by_cases hor : bfEdge R C ra ca rb cb
          · exact Or.inr ⟨if_pos hor,
              if_pos (bfEdge_symm R C ra ca rb cb hR hC hra hca hrb hcb hor)⟩
          · exact Or.inl ⟨if_neg hor,
              if_neg (fun hcc => hor (fbEdge_symm R C rb cb ra ca hR hC hrb hcb hra hca hcc))⟩
        · rw [count_bb R C hR hC ra ca rb cb hra hca hrb hcb,
            count_bb R C hR hC rb cb ra ca hrb hcb hra hca]
          by_cases hor : bbEdge R C ra ca rb cb
          · exact Or.inr ⟨if_pos hor,
              if_pos (bbEdge_symm R C ra ca rb cb hR hC hra hca hrb hcb hor)⟩
          · exact Or.inl ⟨if_neg hor,
              if_neg (fun hcc => hor (bbEdge_symm R C rb cb ra ca hR hC hrb hcb hra hca hcc))⟩
      · exact Or.inl ⟨ecount_dedges_oor R C hR hC a b (Or.inr (by omega)),
          ecount_dedges_oor R C hR hC b a (Or.inl (by omega))⟩
    · exact Or.inl ⟨ecount_dedges_oor R C hR hC a b (Or.inl (by omega)),
        ecount_dedges_oor R C hR hC b a (Or.inr (by omega))⟩

/-- Witness: the watertightness theorem applied to the concrete 2 × 2 grid. -/
theorem create_solid_lithophane_watertight_witness :
    (2 ≤ 2) ∧
    ((∀ t ∈ faces 2 2, t.1 ≠ t.2.1 ∧ t.2.1 ≠ t.2.2 ∧ t.2.2 ≠ t.1) ∧
     (∀ a b : ℕ,
       (ecount (a, b) (dedges 2 2) = 0 ∧ ecount (b, a) (dedges 2 2) = 0) ∨
       (ecount (a, b) (dedges 2 2) = 1 ∧ ecount (b, a) (dedges 2 2) = 1))) :=
  ⟨by decide, create_solid_lithophane_watertight 2 2 (by decide) (by decide)⟩

end LithoStream
